import Mathlib

/-!
# Resolution verification and fraud detection pipeline

A shallow embedding of the verification controllers and services under `api/`
(`strictVerificationController.js`, `verificationController.js`,
`strictGeminiService.js`, `geminiVerificationService.js`,
`strictResolutionService.js`, `resolutionService.js`, `geoService.js`,
`exifService.js`, `imageComparisonService.js`) together with the properties proved
about them.

Conventions of the embedding:

* a JavaScript number is a `JsNum`: NaN, an infinity, or a finite value carried as a
  rational; comparisons follow the JavaScript rules (every comparison with NaN is false);
* `let` variables that the source mutates (`suspicionFlags`, `suspicionScore`) are passed
  explicitly from one step to the next;
* what is computed on floats or by the engine (the haversine distance of `geoService.js`,
  the `Date` constructor, `JSON.parse`) is a parameter, and the results of the calls to
  outside services (EXIF extraction, upload, image comparison, oracle) are explicit inputs;
  the `resolution_uploads` table is an explicit list of rows;
* flag strings are kept as constructors of `StrictFlag` / `StandardFlag`, one per
  `suspicionFlags.push` site, carrying the values the source formats into the text.
-/

namespace Yukti

/-! ## JavaScript values -/

/-- A JavaScript number: NaN, minus or plus infinity, or a finite value. -/
inductive JsNum where
  | nan
  | negInf
  | posInf
  | fin (q : ℚ)
  deriving DecidableEq

namespace JsNum

instance : OfNat JsNum n := ⟨JsNum.fin n⟩

/-- The JavaScript comparison `a < b`. -/
def lt : JsNum → JsNum → Bool
  | fin a, fin b => decide (a < b)
  | negInf, fin _ => true
  | negInf, posInf => true
  | fin _, posInf => true
  | _, _ => false

/-- The JavaScript comparison `a > b`. -/
def gt (a b : JsNum) : Bool := lt b a

/-- The JavaScript comparison `a <= b`: false when either side is NaN. -/
def le : JsNum → JsNum → Bool
  | nan, _ => false
  | _, nan => false
  | a, b => !(lt b a)

/-- The JavaScript comparison `a >= b`. -/
def ge (a b : JsNum) : Bool := le b a

/-- The JavaScript subtraction `a - b`. -/
def sub : JsNum → JsNum → JsNum
  | fin a, fin b => fin (a - b)
  | nan, _ => nan
  | _, nan => nan
  | posInf, posInf => nan
  | negInf, negInf => nan
  | posInf, _ => posInf
  | negInf, _ => negInf
  | fin _, posInf => negInf
  | fin _, negInf => posInf

/-- The JavaScript division `a / c` by a positive finite constant `c`. -/
def divPos (a : JsNum) (c : ℚ) : JsNum :=
  match a with
  | fin q => fin (q / c)
  | other => other

/-- Truthiness of a number: `0` and NaN are falsy. -/
def truthy : JsNum → Bool
  | nan => false
  | fin q => decide (q ≠ 0)
  | _ => true

end JsNum

/-- A JavaScript value as produced by `JSON.parse`, plus `undefined`. -/
inductive JsVal where
  | undefined
  | null
  | bool (b : Bool)
  | num (n : JsNum)
  | str (s : String)
  | arr (items : List JsVal)
  | obj (fields : List (String × JsVal))

namespace JsVal

/-- Truthiness of a value in a boolean context. -/
def truthy : JsVal → Bool
  | undefined => false
  | null => false
  | bool b => b
  | num n => n.truthy
  | str s => decide (s ≠ "")
  | arr _ => true
  | obj _ => true

/-- The expression `field in v` for an object; other values have none of the verdict fields. -/
def hasField (v : JsVal) (field : String) : Bool :=
  match v with
  | obj fields => fields.any (fun kv => kv.1 == field)
  | _ => false

/-- The property read `v.field`. -/
def get (v : JsVal) (field : String) : JsVal :=
  match v with
  | obj fields =>
    match fields.find? (fun kv => kv.1 == field) with
    | some kv => kv.2
    | none => undefined
  | _ => undefined

end JsVal

/-! ## Oracle verdicts -/

/-- The fields the strict controller reads from a verdict that passed
`validateStrictVerificationStructure`: four booleans, two numbers, and two
fields whose type the validation leaves open. -/
structure StrictVerdict where
  same_location : Bool
  issue_resolved : Bool
  fake_detected : Bool
  visual_consistency_score : JsNum
  resolution_confidence : JsNum
  suspicious : Bool
  suspicion_reason : JsVal
  analysis_summary : JsVal

/-- The fields the standard controller reads from a verdict that passed
`validateVerificationStructure`. -/
structure Verdict where
  same_location : Bool
  issue_resolved : Bool
  visual_similarity_score : JsNum
  resolution_confidence : JsNum
  suspicious : Bool
  suspicion_reason : JsVal
  analysis_summary : JsVal

/-- Final verification status of a submission. -/
inductive VerificationStatus where
  | verified
  | suspicious
  deriving DecidableEq, Repr

/-! ## EXIF metadata (`exifService.js`, result of `extractEXIFMetadata`) -/

/-- The `gps` record of the extracted metadata. -/
structure GpsData where
  latitude : JsNum
  longitude : JsNum

/-- The `camera` record of the extracted metadata. -/
structure CameraData where
  make : Option String
  model : Option String
  software : Option String

/-- The metadata record returned by `extractEXIFMetadata`; `none` is `null`. -/
structure ExifData where
  gps : Option GpsData
  camera : Option CameraData
  timestamp : Option String

/-- Truthiness of `exifData.timestamp`: a non-empty string. -/
def ExifData.hasTimestamp (e : ExifData) : Bool :=
  match e.timestamp with
  | some s => decide (s ≠ "")
  | none => false

/-- What the pipeline calls outside the scoring code: the haversine distance on floats
(`geoService.calculateDistance`) and the `Date` constructor applied to a string, giving
epoch milliseconds or NaN for an invalid date. -/
structure Env where
  calculateDistance : JsNum → JsNum → JsNum → JsNum → JsNum
  dateParse : String → JsNum

/-! ## Strict mode (`strictVerificationController.js`) -/

/-- STRICT: maximum allowed distance (20 meters). -/
def STRICT_MAX_LOCATION_DISTANCE : JsNum := 20

/-- STRICT: minimum confidence score (80%). -/
def STRICT_MIN_CONFIDENCE_SCORE : JsNum := 80

/-- STRICT: maximum EXIF GPS deviation (10 meters). -/
def MAX_EXIF_DEVIATION : JsNum := 10

/-- One constructor per `suspicionFlags.push` site of `strictVerifyResolution`. -/
inductive StrictFlag where
  | workerNotAtLocation (distance : JsNum)
  | exifGpsDiffers (deviation : JsNum)
  | noGpsMetadata
  | imageTimestampOld (hours : JsNum)
  | noTimestamp
  | nearlyIdentical
  | completelyUnrelated
  | aiReason (reason : JsVal)
  | aiFakeDetected
  | aiDifferentLocation
  | aiNotResolved

/-- The weight added to `suspicionScore` next to each push site. -/
def StrictFlag.weight : StrictFlag → Nat
  | workerNotAtLocation _ => 40
  | exifGpsDiffers _ => 30
  | noGpsMetadata => 20
  | imageTimestampOld _ => 15
  | noTimestamp => 10
  | nearlyIdentical => 50
  | completelyUnrelated => 40
  | aiReason _ => 30
  | aiFakeDetected => 50
  | aiDifferentLocation => 35
  | aiNotResolved => 30

/-- The two mutable variables `suspicionFlags` and `suspicionScore`. -/
structure Suspicion where
  suspicionFlags : List StrictFlag
  suspicionScore : Nat

/-- The pair `suspicionFlags.push(flag); suspicionScore += w`. -/
def Suspicion.push (s : Suspicion) (flag : StrictFlag) (w : Nat) : Suspicion :=
  { suspicionFlags := s.suspicionFlags ++ [flag], suspicionScore := s.suspicionScore + w }

/-- Initialize suspicion tracking: no flags, score 0. -/
def Suspicion.init : Suspicion := { suspicionFlags := [], suspicionScore := 0 }

/-- The string rewrite `exifTimestamp.replace(/:/g, '-')`. -/
def replaceColons (s : String) : String :=
  String.mk (s.data.map (fun c => if c = ':' then '-' else c))

/-- The string rewrite `.replace(' ', 'T')`: the first space only. -/
def replaceFirstSpaceAux : List Char → List Char
  | [] => []
  | c :: cs => if c = ' ' then 'T' :: cs else c :: replaceFirstSpaceAux cs

/-- The string rewrite `.replace(' ', 'T')` on strings. -/
def replaceFirstSpace (s : String) : String := String.mk (replaceFirstSpaceAux s.data)

/-- The computation of `hoursDiff`: `(now - exifDate) / (1000 * 60 * 60)`. -/
def hoursDiff (env : Env) (now : JsNum) (exifTimestamp : String) : JsNum :=
  let exifDate := env.dateParse (replaceFirstSpace (replaceColons exifTimestamp))
  (JsNum.sub now exifDate).divPos (1000 * 60 * 60)

/-- STEP 4: live GPS validation; returns the tracking state and `locationMatch`. -/
def stepLocation (locationDistance : JsNum) (s : Suspicion) : Suspicion × Bool :=
  if JsNum.gt locationDistance STRICT_MAX_LOCATION_DISTANCE then
    (s.push (.workerNotAtLocation locationDistance) 40, false)
  else
    (s, true)

/-- STEP 5, first block: EXIF GPS against the live GPS. -/
def stepExifGps (env : Env) (latitude longitude : JsNum) (exifData : ExifData)
    (s : Suspicion) : Suspicion :=
  match exifData.gps with
  | some gps =>
    let exifDeviation := env.calculateDistance latitude longitude gps.latitude gps.longitude
    if JsNum.gt exifDeviation MAX_EXIF_DEVIATION then
      s.push (.exifGpsDiffers exifDeviation) 30
    else
      s
  | none => s.push .noGpsMetadata 20

/-- STEP 5, second block: EXIF timestamp recency. -/
def stepExifTimestamp (env : Env) (now : JsNum) (exifData : ExifData)
    (s : Suspicion) : Suspicion :=
  if exifData.hasTimestamp then
    let h := hoursDiff env now (exifData.timestamp.getD "")
    if JsNum.gt h 24 then
      s.push (.imageTimestampOld h) 15
    else
      s
  else
    s.push .noTimestamp 10

/-- STEP 7: the two similarity checks, one after the other. -/
def stepSimilarity (similarity : JsNum) (s : Suspicion) : Suspicion :=
  let s1 := if JsNum.gt similarity 95 then s.push .nearlyIdentical 50 else s
  if JsNum.lt similarity 5 then s1.push .completelyUnrelated 40 else s1

/-- STEP 8: the four checks on the oracle verdict, in source order. -/
def stepAi (aiVerification : StrictVerdict) (s : Suspicion) : Suspicion :=
  let s1 := if aiVerification.suspicious then
      s.push (.aiReason aiVerification.suspicion_reason) 30 else s
  let s2 := if aiVerification.fake_detected then s1.push .aiFakeDetected 50 else s1
  let s3 := if !aiVerification.same_location then s2.push .aiDifferentLocation 35 else s2
  if !aiVerification.issue_resolved then s3.push .aiNotResolved 30 else s3

/-- STEP 9: the conjunction `allChecksPassed`. -/
def allChecksPassed (locationMatch : Bool) (locationDistance : JsNum)
    (aiVerification : StrictVerdict) (suspicionScore : Nat) : Bool :=
  locationMatch &&
  JsNum.le locationDistance STRICT_MAX_LOCATION_DISTANCE &&
  aiVerification.same_location &&
  aiVerification.issue_resolved &&
  !aiVerification.fake_detected &&
  !aiVerification.suspicious &&
  JsNum.ge aiVerification.resolution_confidence STRICT_MIN_CONFIDENCE_SCORE &&
  decide (suspicionScore < 30)

/-- STEP 9: the status chosen from `allChecksPassed`. -/
def strictStatus (locationMatch : Bool) (locationDistance : JsNum)
    (aiVerification : StrictVerdict) (suspicionScore : Nat) : VerificationStatus :=
  if allChecksPassed locationMatch locationDistance aiVerification suspicionScore then
    .verified
  else
    .suspicious

/-- Severity tier handed to `logSuspiciousAttempt`. -/
inductive Severity where
  | critical
  | high
  | medium
  deriving DecidableEq, Repr

/-- The expression `suspicionScore > 70 ? 'critical' : suspicionScore > 40 ? 'high' : 'medium'`. -/
def severityOf (suspicionScore : Nat) : Severity :=
  if suspicionScore > 70 then .critical else if suspicionScore > 40 then .high else .medium

/-- The values `strictVerifyResolution` has in hand from STEP 4 on. -/
structure StrictInputs where
  reportLatitude : JsNum
  reportLongitude : JsNum
  latitude : JsNum
  longitude : JsNum
  exifData : ExifData
  now : JsNum
  similarity : JsNum
  aiVerification : StrictVerdict

/-- The outcome of STEPs 4 to 9. `loggedSeverity` is the severity of the audit call made on
the suspicious branch, `none` when the branch is not taken. -/
structure StrictAssessment where
  locationDistance : JsNum
  locationMatch : Bool
  suspicionFlags : List StrictFlag
  suspicionScore : Nat
  allChecksPassed : Bool
  verificationStatus : VerificationStatus
  loggedSeverity : Option Severity

/-- STEPs 4 to 9 of `strictVerifyResolution`. -/
def strictAssess (env : Env) (i : StrictInputs) : StrictAssessment :=
  let locationDistance :=
    env.calculateDistance i.reportLatitude i.reportLongitude i.latitude i.longitude
  let (s4, locationMatch) := stepLocation locationDistance Suspicion.init
  let s5 := stepExifTimestamp env i.now i.exifData
    (stepExifGps env i.latitude i.longitude i.exifData s4)
  let s7 := stepSimilarity i.similarity s5
  let s8 := stepAi i.aiVerification s7
  let passed := allChecksPassed locationMatch locationDistance i.aiVerification s8.suspicionScore
  { locationDistance := locationDistance
    locationMatch := locationMatch
    suspicionFlags := s8.suspicionFlags
    suspicionScore := s8.suspicionScore
    allChecksPassed := passed
    verificationStatus := if passed then .verified else .suspicious
    loggedSeverity := if passed then none else some (severityOf s8.suspicionScore) }

/-! ## Standard mode (`verificationController.js`) -/

/-- Maximum allowed distance between before and after locations (in meters). -/
def MAX_LOCATION_DISTANCE : JsNum := 100

/-- Minimum confidence score to mark as verified. -/
def MIN_CONFIDENCE_SCORE : JsNum := 70

/-- One constructor per `suspicionFlags.push` site of `verifyResolution`. -/
inductive StandardFlag where
  | noGpsMetadata
  | locationMismatch (distance : JsNum)
  | reportHasNoCoordinates
  | nearlyIdentical
  | completelyUnrelated
  | aiReason (reason : JsVal)

/-- The values `verifyResolution` has in hand from STEP 4 on. The stored report coordinates
are a number or `null`. -/
structure StandardInputs where
  reportLatitude : Option JsNum
  reportLongitude : Option JsNum
  latitude : JsNum
  longitude : JsNum
  exifData : ExifData
  similarity : JsNum
  aiVerification : Verdict

/-- Truthiness of a stored coordinate: `null`, `0` and NaN are falsy. -/
def coordTruthy : Option JsNum → Bool
  | some n => n.truthy
  | none => false

/-- The outcome of STEPs 4 to 9 of `verifyResolution`. -/
structure StandardAssessment where
  locationDistance : Option JsNum
  locationMatch : Bool
  suspicionFlags : List StandardFlag
  isSuspicious : Bool
  verificationStatus : VerificationStatus

/-- STEP 4: the GPS metadata check. -/
def stdStepExif (exifData : ExifData) (flags : List StandardFlag) : List StandardFlag :=
  match exifData.gps with
  | some _ => flags
  | none => flags ++ [.noGpsMetadata]

/-- STEP 5: location validation; returns the flags, `locationDistance` and `locationMatch`. -/
def stdStepLocation (env : Env) (i : StandardInputs) (flags : List StandardFlag) :
    List StandardFlag × Option JsNum × Bool :=
  if coordTruthy i.reportLatitude && coordTruthy i.reportLongitude then
    let locationDistance := env.calculateDistance
      (i.reportLatitude.getD .nan) (i.reportLongitude.getD .nan) i.latitude i.longitude
    if JsNum.gt locationDistance MAX_LOCATION_DISTANCE then
      (flags ++ [.locationMismatch locationDistance], some locationDistance, false)
    else
      (flags, some locationDistance, true)
  else
    (flags ++ [.reportHasNoCoordinates], none, false)

/-- STEP 7: the two similarity checks. -/
def stdStepSimilarity (similarity : JsNum) (flags : List StandardFlag) : List StandardFlag :=
  let f1 := if JsNum.gt similarity 95 then flags ++ [.nearlyIdentical] else flags
  if JsNum.lt similarity 10 then f1 ++ [.completelyUnrelated] else f1

/-- STEP 8: `if (aiVerification.suspicious && aiVerification.suspicion_reason)`. -/
def stdStepAi (aiVerification : Verdict) (flags : List StandardFlag) : List StandardFlag :=
  if aiVerification.suspicious && aiVerification.suspicion_reason.truthy then
    flags ++ [.aiReason aiVerification.suspicion_reason]
  else
    flags

/-- STEP 9: the disjunction `isSuspicious`. -/
def isSuspicious (flags : List StandardFlag) (locationMatch : Bool) (aiVerification : Verdict) :
    Bool :=
  decide (flags.length > 0) ||
  !locationMatch ||
  !aiVerification.same_location ||
  !aiVerification.issue_resolved ||
  aiVerification.suspicious ||
  JsNum.lt aiVerification.resolution_confidence MIN_CONFIDENCE_SCORE

/-- STEPs 4 to 9 of `verifyResolution`. -/
def standardAssess (env : Env) (i : StandardInputs) : StandardAssessment :=
  let f4 := stdStepExif i.exifData []
  let (f5, locationDistance, locationMatch) := stdStepLocation env i f4
  let f7 := stdStepSimilarity i.similarity f5
  let f8 := stdStepAi i.aiVerification f7
  let susp := isSuspicious f8 locationMatch i.aiVerification
  { locationDistance := locationDistance
    locationMatch := locationMatch
    suspicionFlags := f8
    isSuspicious := susp
    verificationStatus := if susp then .suspicious else .verified }

/-! ## Oracle adapters (`strictGeminiService.js`, `geminiVerificationService.js`) -/

/-- The object returned by `getStrictFallbackVerification`. -/
def getStrictFallbackVerification : JsVal :=
  .obj [
    ("same_location", .bool false),
    ("issue_resolved", .bool false),
    ("fake_detected", .bool false),
    ("visual_consistency_score", .num 0),
    ("resolution_confidence", .num 0),
    ("suspicious", .bool true),
    ("suspicion_reason",
      .str "AI verification unavailable - automatic SUSPICIOUS marking for manual review"),
    ("analysis_summary",
      .str ("Automated verification could not be completed. " ++
        "Manual inspection required for security."))]

/-- The object returned by `getFallbackVerification`. -/
def getFallbackVerification : JsVal :=
  .obj [
    ("same_location", .bool false),
    ("issue_resolved", .bool false),
    ("visual_similarity_score", .num 0),
    ("resolution_confidence", .num 0),
    ("suspicious", .bool true),
    ("suspicion_reason", .str "AI verification unavailable - manual review required"),
    ("analysis_summary",
      .str ("Automated verification could not be completed. " ++
        "Manual inspection recommended."))]

/-- The test `typeof v === 'boolean'`. -/
def JsVal.isBoolean : JsVal → Bool
  | .bool _ => true
  | _ => false

/-- The test `typeof v === 'object'` (true of `null`, arrays and objects). -/
def JsVal.isObjectType : JsVal → Bool
  | .null => true
  | .arr _ => true
  | .obj _ => true
  | _ => false

/-- The test `typeof v !== 'number' || v < 0 || v > 100` of the two score fields. -/
def JsVal.badScore : JsVal → Bool
  | .num n => JsNum.lt n 0 || JsNum.gt n 100
  | _ => true

/-- The list `requiredFields` of `validateStrictVerificationStructure`. -/
def strictRequiredFields : List String :=
  ["same_location", "issue_resolved", "fake_detected", "visual_consistency_score",
   "resolution_confidence", "suspicious", "suspicion_reason", "analysis_summary"]

/-- The list `requiredFields` of `validateVerificationStructure`. -/
def requiredFields : List String :=
  ["same_location", "issue_resolved", "visual_similarity_score",
   "resolution_confidence", "suspicious", "suspicion_reason", "analysis_summary"]

/-- The function `validateStrictVerificationStructure`, check by check. -/
def validateStrictVerificationStructure (verification : JsVal) : Bool :=
  if !verification.truthy || !verification.isObjectType then false
  else if strictRequiredFields.any (fun field => !verification.hasField field) then false
  else if !(verification.get "same_location").isBoolean then false
  else if !(verification.get "issue_resolved").isBoolean then false
  else if !(verification.get "fake_detected").isBoolean then false
  else if !(verification.get "suspicious").isBoolean then false
  else if (verification.get "visual_consistency_score").badScore then false
  else if (verification.get "resolution_confidence").badScore then false
  else true

/-- The function `validateVerificationStructure`, check by check. -/
def validateVerificationStructure (verification : JsVal) : Bool :=
  if !verification.truthy || !verification.isObjectType then false
  else if requiredFields.any (fun field => !verification.hasField field) then false
  else if !(verification.get "same_location").isBoolean then false
  else if !(verification.get "issue_resolved").isBoolean then false
  else if !(verification.get "suspicious").isBoolean then false
  else if (verification.get "visual_similarity_score").badScore then false
  else if (verification.get "resolution_confidence").badScore then false
  else true

/-- Read a boolean field. -/
def JsVal.getBool? (v : JsVal) (field : String) : Option Bool :=
  match v.get field with
  | .bool b => some b
  | _ => none

/-- Read a numeric field. -/
def JsVal.getNum? (v : JsVal) (field : String) : Option JsNum :=
  match v.get field with
  | .num n => some n
  | _ => none

/-- The record of fields the strict controller reads off a verdict object. -/
def StrictVerdict.ofJs (v : JsVal) : Option StrictVerdict := do
  let same_location ← v.getBool? "same_location"
  let issue_resolved ← v.getBool? "issue_resolved"
  let fake_detected ← v.getBool? "fake_detected"
  let visual_consistency_score ← v.getNum? "visual_consistency_score"
  let resolution_confidence ← v.getNum? "resolution_confidence"
  let suspicious ← v.getBool? "suspicious"
  pure { same_location, issue_resolved, fake_detected, visual_consistency_score,
         resolution_confidence, suspicious,
         suspicion_reason := v.get "suspicion_reason",
         analysis_summary := v.get "analysis_summary" }

/-- The record of fields the standard controller reads off a verdict object. -/
def Verdict.ofJs (v : JsVal) : Option Verdict := do
  let same_location ← v.getBool? "same_location"
  let issue_resolved ← v.getBool? "issue_resolved"
  let visual_similarity_score ← v.getNum? "visual_similarity_score"
  let resolution_confidence ← v.getNum? "resolution_confidence"
  let suspicious ← v.getBool? "suspicious"
  pure { same_location, issue_resolved, visual_similarity_score,
         resolution_confidence, suspicious,
         suspicion_reason := v.get "suspicion_reason",
         analysis_summary := v.get "analysis_summary" }

/-! ### Response text cleaning and parsing -/

/-- The characters matched by `\s` and removed by `trim()`. -/
def isJsSpace (c : Char) : Bool :=
  let n := c.toNat
  n == 9 || n == 10 || n == 11 || n == 12 || n == 13 || n == 32 || n == 160 ||
  n == 5760 || (decide (8192 ≤ n) && decide (n ≤ 8202)) || n == 8232 || n == 8233 ||
  n == 8239 || n == 8287 || n == 12288 || n == 65279

/-- The string method `trim()` on the characters of a string. -/
def jsTrim (l : List Char) : List Char :=
  ((l.dropWhile isJsSpace).reverse.dropWhile isJsSpace).reverse

/-- The literal part of a regex as a sequence of character classes, tested at the head of
the remaining text. -/
def matchesAt : List (Char → Bool) → List Char → Bool
  | [], _ => true
  | _ :: _, [] => false
  | p :: ps, c :: cs => p c && matchesAt ps cs

/-- A global regex replacement by the empty string, for a regex made of a literal part
(the character classes `ps`) followed by `\s*`. The scan goes left to right. `skip` counts
the characters of the literal part of the current match still to drop; `eat` says that the
scan is inside the `\s*` of a match. -/
def removeMatches (ps : List (Char → Bool)) : Nat → Bool → List Char → List Char
  | _, _, [] => []
  | skip + 1, eat, _ :: cs => removeMatches ps skip eat cs
  | 0, eat, c :: cs =>
    if eat && isJsSpace c then removeMatches ps 0 true cs
    else if matchesAt ps (c :: cs) then removeMatches ps (ps.length - 1) true cs
    else c :: removeMatches ps 0 false cs

/-- The character class of one backtick. -/
def isBacktick (c : Char) : Bool := c == '`'

/-- The character class of a letter under the `i` flag. -/
def isLetter (lower upper : Char) (c : Char) : Bool := c == lower || c == upper

/-- The literal part of `/```json\s*/gi`: three backticks and the letters of `json` in
either case. -/
def jsonFencePattern : List (Char → Bool) :=
  [isBacktick, isBacktick, isBacktick, isLetter 'j' 'J', isLetter 's' 'S', isLetter 'o' 'O',
   isLetter 'n' 'N']

/-- The literal part of `/```\s*/g`: three backticks. -/
def fencePattern : List (Char → Bool) := [isBacktick, isBacktick, isBacktick]

/-- The rewrite `cleanText.replace(/```json\s*/gi, '')`. -/
def removeJsonFences (l : List Char) : List Char := removeMatches jsonFencePattern 0 false l

/-- The rewrite `cleanText.replace(/```\s*/g, '')`. -/
def removeFences (l : List Char) : List Char := removeMatches fencePattern 0 false l

/-- The match `cleanText.match(/\{[\s\S]*\}/)`: from the first opening brace to the last
closing brace after it, `none` when there is no such pair. -/
def matchObject (l : List Char) : Option (List Char) :=
  match l.dropWhile (fun c => c != '{') with
  | [] => none
  | _ :: rest =>
    if rest.contains '}' then
      some ('{' :: (rest.reverse.dropWhile (fun c => c != '}')).reverse)
    else
      none

/-- The text handed to `JSON.parse` by `parseStrictVerificationResponse` and by
`parseVerificationResponse` (the two bodies are the same up to the fallback). -/
def cleanResponseText (text : String) : String :=
  let cleanText := jsTrim text.data
  let cleanText := removeJsonFences cleanText
  let cleanText := removeFences cleanText
  match matchObject cleanText with
  | some jsonMatch => String.mk jsonMatch
  | none => String.mk cleanText

/-- The function `parseStrictVerificationResponse`; `jsonParse` is the engine's `JSON.parse`,
`none` standing for a thrown `SyntaxError`. -/
def parseStrictVerificationResponse (jsonParse : String → Option JsVal) (text : String) :
    JsVal :=
  match jsonParse (cleanResponseText text) with
  | some parsed => parsed
  | none => getStrictFallbackVerification

/-- The function `parseVerificationResponse`. -/
def parseVerificationResponse (jsonParse : String → Option JsVal) (text : String) : JsVal :=
  match jsonParse (cleanResponseText text) with
  | some parsed => parsed
  | none => getFallbackVerification

/-- The test `sub` occurs in the text, on characters. -/
def includesAux (sub : List Char) : List Char → Bool
  | [] => sub.isEmpty
  | c :: cs => sub.isPrefixOf (c :: cs) || includesAux sub cs

/-- The string method `s.includes(sub)`. -/
def includes (s sub : String) : Bool := includesAux sub.data s.data

/-- What happens inside the `try` block of the two oracle adapters before parsing: either
the oracle answered with a text, or an error with a message was raised (image download,
timeout, authentication, quota, anything else). -/
inductive OracleCall where
  | responded (text : String)
  | failed (message : String)

/-- The function `strictVerifyWithGemini`; `Except.error` is a thrown `Error`. -/
def strictVerifyWithGemini (jsonParse : String → Option JsVal) (call : OracleCall) :
    Except String JsVal :=
  match call with
  | .responded text =>
    let verification := parseStrictVerificationResponse jsonParse text
    if !validateStrictVerificationStructure verification then
      .ok getStrictFallbackVerification
    else
      .ok verification
  | .failed message =>
    if includes message "API key" then .error "Gemini API: Invalid API key"
    else if includes message "quota" then .error "Gemini API: Quota exceeded"
    else .ok getStrictFallbackVerification

/-- The function `verifyResolutionWithGemini`. -/
def verifyResolutionWithGemini (jsonParse : String → Option JsVal) (call : OracleCall) :
    Except String JsVal :=
  match call with
  | .responded text =>
    let verification := parseVerificationResponse jsonParse text
    if !validateVerificationStructure verification then
      .ok getFallbackVerification
    else
      .ok verification
  | .failed message =>
    if includes message "API key" then .error "Gemini API: Invalid API key"
    else if includes message "quota" then .error "Gemini API: Quota exceeded"
    else .ok getFallbackVerification

/-! ### A reference reading of flat JSON objects

`JSON.parse` belongs to the engine. The functions below read the subset of JSON that a
verdict uses (one object whose members are strings, booleans, `null` and plain decimal
numbers, no key repeated) and serve to evaluate concrete texts. -/

/-- JSON insignificant whitespace. -/
def isJsonWs (c : Char) : Bool := c == ' ' || c == '\t' || c == '\n' || c == '\r'

/-- Skip JSON whitespace. -/
def skipWs (l : List Char) : List Char := l.dropWhile isJsonWs

/-- The character denoted by a one-letter escape. -/
def unescape (e : Char) : Option Char :=
  if e == '"' then some '"'
  else if e == '\\' then some '\\'
  else if e == '/' then some '/'
  else if e == 'n' then some '\n'
  else if e == 't' then some '\t'
  else if e == 'r' then some '\r'
  else none

/-- Read a string body up to its closing quote; returns the content and the rest. -/
def readString : List Char → Option (List Char × List Char)
  | [] => none
  | c :: rest =>
    if c == '"' then some ([], rest)
    else if c == '\\' then
      match rest with
      | [] => none
      | e :: rest2 =>
        match unescape e, readString rest2 with
        | some d, some (content, r) => some (d :: content, r)
        | _, _ => none
    else if c.toNat < 32 then none
    else
      match readString rest with
      | some (content, r) => some (c :: content, r)
      | none => none

/-- Read a run of decimal digits as `(value, number of digits, rest)`. -/
def readDigits : Nat → Nat → List Char → Nat × Nat × List Char
  | acc, k, [] => (acc, k, [])
  | acc, k, c :: rest =>
    if c.isDigit then readDigits (acc * 10 + (c.toNat - 48)) (k + 1) rest
    else (acc, k, c :: rest)

/-- Read a plain decimal number (optional sign, digits, optional fraction). -/
def readNumber (l : List Char) : Option (JsVal × List Char) :=
  let (neg, l1) := match l with
    | '-' :: r => (true, r)
    | _ => (false, l)
  let (ip, k, l2) := readDigits 0 0 l1
  if k = 0 then none
  else
    let (q, l3) : ℚ × List Char := match l2 with
      | '.' :: r =>
        let (fp, m, r2) := readDigits 0 0 r
        ((ip : ℚ) + (fp : ℚ) / (10 ^ m : ℚ), r2)
      | _ => ((ip : ℚ), l2)
    some (.num (.fin (if neg then -q else q)), l3)

/-- Read one member value. -/
def readValue : List Char → Option (JsVal × List Char)
  | '"' :: rest =>
    match readString rest with
    | some (content, r) => some (.str (String.mk content), r)
    | none => none
  | 't' :: 'r' :: 'u' :: 'e' :: rest => some (.bool true, rest)
  | 'f' :: 'a' :: 'l' :: 's' :: 'e' :: rest => some (.bool false, rest)
  | 'n' :: 'u' :: 'l' :: 'l' :: rest => some (.null, rest)
  | l => readNumber l

/-- Read the members of an object up to and including its closing brace. -/
def readMembers : Nat → List Char → Option (List (String × JsVal) × List Char)
  | 0, _ => none
  | fuel + 1, l =>
    match l with
    | '"' :: rest =>
      match readString rest with
      | none => none
      | some (key, r1) =>
        match skipWs r1 with
        | ':' :: r2 =>
          match readValue (skipWs r2) with
          | none => none
          | some (v, r3) =>
            match skipWs r3 with
            | ',' :: r4 =>
              match readMembers fuel (skipWs r4) with
              | some (ms, r5) => some ((String.mk key, v) :: ms, r5)
              | none => none
            | '}' :: r4 => some ([(String.mk key, v)], r4)
            | _ => none
        | _ => none
    | _ => none

/-- Read a text as one flat JSON object; `none` when the text is not one. -/
def jsonParseFlat (text : String) : Option JsVal :=
  match skipWs text.data with
  | '{' :: r =>
    match skipWs r with
    | '}' :: r2 => if (skipWs r2).isEmpty then some (.obj []) else none
    | l =>
      match readMembers l.length l with
      | some (ms, r2) => if (skipWs r2).isEmpty then some (.obj ms) else none
      | none => none
  | _ => none

/-! ## Datastore (`strictResolutionService.js`), the table as an explicit list -/

/-- A row of `resolution_uploads` as inserted by `saveStrictResolution` (the generated
`id` and `created_at` are left out). -/
structure ResolutionRecord where
  report_id : String
  worker_email : String
  worker_id : String
  after_image_url : String
  live_lat : JsNum
  live_lng : JsNum
  exif_lat : Option JsNum
  exif_lng : Option JsNum
  exif_timestamp : Option String
  exif_camera : Option String
  distance_from_original : JsNum
  ai_same_location : Bool
  ai_issue_resolved : Bool
  ai_fake_detected : Bool
  ai_verification_status : VerificationStatus
  suspicion_reason : Option (List StrictFlag)
  suspicion_score : Nat
  ai_confidence_score : JsNum
  visual_consistency_score : JsNum
  image_similarity : JsNum
  analysis_summary : JsVal

/-- The string method `toLowerCase()` on ASCII letters. -/
def toLowerCase (s : String) : String := String.mk (s.data.map Char.toLower)

/-- The function `saveStrictResolution`: insert the row with its fields as given. -/
def saveStrictResolution (store : List ResolutionRecord) (resolutionData : ResolutionRecord) :
    List ResolutionRecord :=
  store ++ [resolutionData]

/-- The outcome of the `select` issued by `checkDuplicateResolution`. -/
inductive QueryResult where
  | rows (data : List ResolutionRecord)
  | error (message : String)
  | thrown (message : String)

/-- The query `.eq('report_id', reportId).eq('worker_email', workerEmail.toLowerCase())
.limit(1)` on the table. -/
def selectDuplicates (store : List ResolutionRecord) (reportId workerEmail : String) :
    List ResolutionRecord :=
  (store.filter (fun r =>
    r.report_id == reportId && r.worker_email == toLowerCase workerEmail)).take 1

/-- The body of `checkDuplicateResolution` after the query returned. -/
def checkDuplicateResult : QueryResult → Bool
  | .rows data => decide (data.length > 0)
  | .error _ => false
  | .thrown _ => false

/-- The function `checkDuplicateResolution` on a store that answers the query. -/
def checkDuplicateResolution (store : List ResolutionRecord) (reportId workerEmail : String) :
    Bool :=
  checkDuplicateResult (.rows (selectDuplicates store reportId workerEmail))

/-- A strict submission that passed input validation, worker authorization and the report
checks (STEPs 1 and 2), with the results of the external calls of the later steps. -/
structure StrictSubmission where
  reportId : String
  worker_email : String
  worker_id : String
  reportLatitude : JsNum
  reportLongitude : JsNum
  latitude : JsNum
  longitude : JsNum
  exifData : ExifData
  now : JsNum
  afterImageUrl : Option String
  similarity : JsNum
  oracle : Except String StrictVerdict

/-- The HTTP answer of `strictVerifyResolution` from STEP 3 on. -/
inductive StrictResponse where
  | duplicate
  | uploadFailed
  | unexpectedError
  | created (assessment : StrictAssessment)

/-- The value `exifCamera`: make and model joined and trimmed. -/
def exifCameraOf (exifData : ExifData) : Option String :=
  match exifData.camera with
  | some cam =>
    some (String.mk (jsTrim ((cam.make.getD "").data ++ [' '] ++ (cam.model.getD "").data)))
  | none => none

/-- STEPs 3 to 11 of `strictVerifyResolution` once `checkDuplicateResolution` has answered
`isDuplicate`: rejection, or assessment and save. Returns the table after the request and
the answer. -/
def strictVerifyResolutionAfterCheck (isDuplicate : Bool) (env : Env)
    (store : List ResolutionRecord) (r : StrictSubmission) :
    List ResolutionRecord × StrictResponse :=
  if isDuplicate then
    (store, .duplicate)
  else
    match r.afterImageUrl with
    | none => (store, .uploadFailed)
    | some afterImageUrl =>
      match r.oracle with
      | .error _ => (store, .unexpectedError)
      | .ok aiVerification =>
        let a := strictAssess env
          { reportLatitude := r.reportLatitude, reportLongitude := r.reportLongitude,
            latitude := r.latitude, longitude := r.longitude, exifData := r.exifData,
            now := r.now, similarity := r.similarity, aiVerification := aiVerification }
        let suspicionReason :=
          if a.suspicionFlags.length > 0 then some a.suspicionFlags else none
        let store1 := saveStrictResolution store
          { report_id := r.reportId
            worker_email := r.worker_email
            worker_id := r.worker_id
            after_image_url := afterImageUrl
            live_lat := r.latitude
            live_lng := r.longitude
            exif_lat := r.exifData.gps.map (fun g => g.latitude)
            exif_lng := r.exifData.gps.map (fun g => g.longitude)
            exif_timestamp := if r.exifData.hasTimestamp then r.exifData.timestamp else none
            exif_camera := exifCameraOf r.exifData
            distance_from_original := a.locationDistance
            ai_same_location := aiVerification.same_location
            ai_issue_resolved := aiVerification.issue_resolved
            ai_fake_detected := aiVerification.fake_detected
            ai_verification_status := a.verificationStatus
            suspicion_reason := suspicionReason
            suspicion_score := a.suspicionScore
            ai_confidence_score := aiVerification.resolution_confidence
            visual_consistency_score := aiVerification.visual_consistency_score
            image_similarity := r.similarity
            analysis_summary := aiVerification.analysis_summary }
        (store1, .created a)

/-- STEPs 3 to 11 of `strictVerifyResolution` on a table that answers the duplicate query. -/
def strictVerifyResolution (env : Env) (store : List ResolutionRecord)
    (r : StrictSubmission) : List ResolutionRecord × StrictResponse :=
  strictVerifyResolutionAfterCheck (checkDuplicateResolution store r.reportId r.worker_email)
    env store r

/-! ## Reference definitions that follow the specification's wording -/

/-- The verdict of the specification's strict decision example (confidence 85, all
positive signals true, nothing flagged). -/
def specExampleVerdict : StrictVerdict :=
  { same_location := true
    issue_resolved := true
    fake_detected := false
    visual_consistency_score := 90
    resolution_confidence := 85
    suspicious := false
    suspicion_reason := .str ""
    analysis_summary := .str "" }

/-- The strict score as the specification's weight table reads: each listed condition
contributes its weight once when it holds and nothing otherwise. -/
def specStrictScore (env : Env) (i : StrictInputs) : Nat :=
  let distance := env.calculateDistance i.reportLatitude i.reportLongitude i.latitude i.longitude
  let v := i.aiVerification
  (if JsNum.gt distance 20 then 40 else 0)
  + (match i.exifData.gps with
     | some g =>
       if JsNum.gt (env.calculateDistance i.latitude i.longitude g.latitude g.longitude) 10
       then 30 else 0
     | none => 0)
  + (match i.exifData.gps with
     | some _ => 0
     | none => 20)
  + (if i.exifData.hasTimestamp &&
        JsNum.gt (hoursDiff env i.now (i.exifData.timestamp.getD "")) 24 then 15 else 0)
  + (if i.exifData.hasTimestamp then 0 else 10)
  + (if JsNum.gt i.similarity 95 then 50 else 0)
  + (if JsNum.lt i.similarity 5 then 40 else 0)
  + (if v.suspicious then 30 else 0)
  + (if v.fake_detected then 50 else 0)
  + (if v.same_location then 0 else 35)
  + (if v.issue_resolved then 0 else 30)

/-- The score of a tracking state is the sum of the weights of its flags. -/
def Suspicion.balanced (s : Suspicion) : Prop :=
  s.suspicionScore = (s.suspicionFlags.map StrictFlag.weight).sum

/-- The standard decision as the specification words it: suspicious when a listed flag
condition holds (missing GPS metadata, missing report coordinates or location mismatch,
near-duplicate or unrelated images, oracle-reported suspicion), or the location did not
match, or the oracle denies same location or resolution, or its confidence is below 70. -/
def specStandardSuspicious (env : Env) (i : StandardInputs) (locationMatch : Bool) : Prop :=
  (i.exifData.gps.isNone = true ∨
    (coordTruthy i.reportLatitude && coordTruthy i.reportLongitude) = false ∨
    JsNum.gt (env.calculateDistance (i.reportLatitude.getD .nan) (i.reportLongitude.getD .nan)
      i.latitude i.longitude) 100 = true ∨
    JsNum.gt i.similarity 95 = true ∨
    JsNum.lt i.similarity 10 = true ∨
    i.aiVerification.suspicious = true) ∨
  locationMatch = false ∨
  i.aiVerification.same_location = false ∨
  i.aiVerification.issue_resolved = false ∨
  JsNum.lt i.aiVerification.resolution_confidence 70 = true

/-! ## Concrete inputs used in examples -/

/-- The record read off `getStrictFallbackVerification()`. -/
def strictFallbackVerdict : StrictVerdict :=
  { same_location := false
    issue_resolved := false
    fake_detected := false
    visual_consistency_score := 0
    resolution_confidence := 0
    suspicious := true
    suspicion_reason :=
      .str "AI verification unavailable - automatic SUSPICIOUS marking for manual review"
    analysis_summary :=
      .str ("Automated verification could not be completed. " ++
        "Manual inspection required for security.") }

/-- The record read off `getFallbackVerification()`. -/
def fallbackVerdict : Verdict :=
  { same_location := false
    issue_resolved := false
    visual_similarity_score := 0
    resolution_confidence := 0
    suspicious := true
    suspicion_reason := .str "AI verification unavailable - manual review required"
    analysis_summary :=
      .str ("Automated verification could not be completed. " ++
        "Manual inspection recommended.") }

/-- An environment in which the report and the live position are `d` metres apart, the
EXIF position deviates `dev` metres from the live one, and every timestamp parses to
`t` epoch milliseconds. The first two arguments of each distance call are the report
coordinates `(1, 1)` for the location check and the live coordinates `(2, 2)` for the
EXIF check. -/
def exampleEnv (d dev t : JsNum) : Env :=
  { calculateDistance := fun lat1 _ _ _ => if lat1 = 1 then d else dev
    dateParse := fun _ => t }

/-- An image without EXIF GPS and without timestamp. -/
def bareExif : ExifData := { gps := none, camera := none, timestamp := none }

/-- An image with EXIF GPS and no timestamp. -/
def gpsOnlyExif : ExifData :=
  { gps := some { latitude := 2, longitude := 2 }, camera := none, timestamp := none }

/-- An image with EXIF GPS and a timestamp. -/
def fullExif : ExifData :=
  { gps := some { latitude := 2, longitude := 2 }
    camera := none
    timestamp := some "2024:01:15 10:30:00" }

/-- Strict inputs with report at `(1, 1)`, live position `(2, 2)`, evaluated at epoch
millisecond 7200000. -/
def exampleInputs (exif : ExifData) (similarity : JsNum) (v : StrictVerdict) : StrictInputs :=
  { reportLatitude := 1, reportLongitude := 1, latitude := 2, longitude := 2
    exifData := exif, now := 7200000, similarity := similarity, aiVerification := v }

/-- Standard inputs with report at `(1, 1)` and live position `(2, 2)`. -/
def exampleStandardInputs (exif : ExifData) (similarity : JsNum) (v : Verdict) :
    StandardInputs :=
  { reportLatitude := some 1, reportLongitude := some 1, latitude := 2, longitude := 2
    exifData := exif, similarity := similarity, aiVerification := v }

/-- A standard verdict with every positive signal set and `suspicious` as given, with an
empty reason text. -/
def plainVerdict (suspicious : Bool) : Verdict :=
  { same_location := true
    issue_resolved := true
    visual_similarity_score := 60
    resolution_confidence := 90
    suspicious := suspicious
    suspicion_reason := .str ""
    analysis_summary := .str "" }

/-- A strict submission for report `r1` by the given worker email, with the oracle
unavailable and an image without metadata. -/
def exampleSubmission (worker_email : String) : StrictSubmission :=
  { reportId := "r1", worker_email := worker_email, worker_id := "w1"
    reportLatitude := 1, reportLongitude := 1, latitude := 2, longitude := 2
    exifData := bareExif, now := 7200000, afterImageUrl := some "after.jpg"
    similarity := 50, oracle := .ok strictFallbackVerdict }

/-- The answer is the duplicate rejection. -/
def StrictResponse.isDuplicate : StrictResponse → Bool
  | .duplicate => true
  | _ => false

/-- The answer is the 201 answer of a saved submission. -/
def StrictResponse.isCreated : StrictResponse → Bool
  | .created _ => true
  | _ => false

/-- The number of rows of the table for a (report, submitter) pair. -/
def countFor (store : List ResolutionRecord) (reportId workerEmail : String) : Nat :=
  (store.filter (fun r => r.report_id == reportId && r.worker_email == workerEmail)).length

/-- The text contains three backticks in a row somewhere. -/
def hasFence : List Char → Bool
  | [] => false
  | c :: cs => matchesAt fencePattern (c :: cs) || hasFence cs

/-- A verdict text whose `suspicion_reason` quotes a fenced snippet. -/
def fencedReasonText : String :=
  "\x7b\"same_location\": true, \"issue_resolved\": true, \"fake_detected\": false, " ++
  "\"visual_consistency_score\": 90, \"resolution_confidence\": 85, \"suspicious\": false, " ++
  "\"suspicion_reason\": \"sign reads ```closed``` today\", \"analysis_summary\": \"ok\"\x7d"

/-- A plain verdict text, with a space before and a line break after. -/
def plainVerdictText : String :=
  " \x7b\"same_location\": true, \"issue_resolved\": true, \"fake_detected\": false, " ++
  "\"visual_consistency_score\": 90, \"resolution_confidence\": 85, \"suspicious\": false, " ++
  "\"suspicion_reason\": \"\", \"analysis_summary\": \"pothole filled\"\x7d\n"

/-- The string content of a value, when it is a string. -/
def JsVal.asString? : JsVal → Option String
  | .str s => some s
  | _ => none

/-- A fenced answer that carries no JSON object. -/
def proseResponseText : String := "```\nUnable to compare the images.\n```"

/-- A verdict text with one field only. -/
def incompleteVerdictText : String := "\x7b\"same_location\": true\x7d"

/-! ## Great-circle distance (`geoService.js`) -/

/-- The constant and the functions of the engine's `Math` object that `calculateDistance`
calls. -/
structure JsMath (α : Type) where
  PI : α
  sin : α → α
  cos : α → α
  sqrt : α → α
  atan2 : α → α → α

/-- The function `calculateDistance` (haversine formula), over a field of numbers and a
`Math` object on it. -/
def calculateDistance {α : Type} [Field α] (m : JsMath α) (lat1 lng1 lat2 lng2 : α) : α :=
  let R : α := 6371000
  let φ1 := (lat1 * m.PI) / 180
  let φ2 := (lat2 * m.PI) / 180
  let Δφ := ((lat2 - lat1) * m.PI) / 180
  let Δlambda := ((lng2 - lng1) * m.PI) / 180
  let a :=
    m.sin (Δφ / 2) * m.sin (Δφ / 2) +
    m.cos φ1 * m.cos φ2 * m.sin (Δlambda / 2) * m.sin (Δlambda / 2)
  let c := 2 * m.atan2 (m.sqrt a) (m.sqrt (1 - a))
  let distance := R * c
  distance

/-- The `Math` object is the one of real arithmetic: `atan2 y x` is the angle of the point
`(x, y)`, in `(-π, π]`, and `0` at the origin. -/
def JsMath.IsReal (m : JsMath ℝ) : Prop :=
  m.PI = Real.pi ∧ m.sin = Real.sin ∧ m.cos = Real.cos ∧ m.sqrt = Real.sqrt ∧
  ∀ y x : ℝ, m.atan2 y x = Complex.arg ⟨x, y⟩

/-- The outcome of a call of `calculateDistance`: the body has no `throw` and calls only
`Math` functions, so every call returns its value. -/
def calculateDistanceOutcome {α : Type} [Field α] (m : JsMath α) (lat1 lng1 lat2 lng2 : α) :
    Except String α :=
  .ok (calculateDistance m lat1 lng1 lat2 lng2)

/-- The global function `isNaN` on a number. -/
def isNaN : JsNum → Bool
  | .nan => true
  | _ => false

/-- The function `validateCoordinates`. -/
def validateCoordinates (lat lng : JsVal) : Bool :=
  match lat, lng with
  | .num a, .num b =>
    JsNum.ge a (.fin (-90)) && JsNum.le a 90 && JsNum.ge b (.fin (-180)) && JsNum.le b 180 &&
    !isNaN a && !isNaN b
  | _, _ => false

/-! ## EXIF GPS conversion (`exifService.js`) -/

namespace JsNum

/-- The JavaScript negation `-a`. -/
def neg : JsNum → JsNum
  | nan => nan
  | negInf => posInf
  | posInf => negInf
  | fin q => fin (-q)

/-- The JavaScript addition `a + b` on numbers. -/
def add : JsNum → JsNum → JsNum
  | fin a, fin b => fin (a + b)
  | nan, _ => nan
  | _, nan => nan
  | posInf, negInf => nan
  | negInf, posInf => nan
  | posInf, _ => posInf
  | negInf, _ => negInf
  | fin _, posInf => posInf
  | fin _, negInf => negInf

end JsNum

/-- The value of a run of decimal digits. -/
def digitsValue (ds : List Char) : Nat :=
  ds.foldl (fun acc c => acc * 10 + (c.toNat - 48)) 0

/-- The function `parseFloat` after the sign: `Infinity`, or digits with an optional
fraction and an optional exponent; NaN when no digit is found. The value is the exact
decimal. -/
def parseFloatUnsigned (l : List Char) : JsNum :=
  if "Infinity".data.isPrefixOf l then .posInf
  else
    let d1 := l.takeWhile Char.isDigit
    let r1 := l.dropWhile Char.isDigit
    let d2 := match r1 with
      | '.' :: r => r.takeWhile Char.isDigit
      | _ => []
    let r2 := match r1 with
      | '.' :: r => r.dropWhile Char.isDigit
      | _ => r1
    if d1.isEmpty && d2.isEmpty then .nan
    else
      let mant : ℚ := (digitsValue d1 : ℚ) + (digitsValue d2 : ℚ) / (10 : ℚ) ^ d2.length
      match r2 with
      | e :: r3 =>
        if e == 'e' || e == 'E' then
          let neg := match r3 with
            | '-' :: _ => true
            | _ => false
          let r4 := match r3 with
            | '-' :: r => r
            | '+' :: r => r
            | _ => r3
          let d3 := r4.takeWhile Char.isDigit
          if d3.isEmpty then .fin mant
          else if neg then .fin (mant / (10 : ℚ) ^ digitsValue d3)
          else .fin (mant * (10 : ℚ) ^ digitsValue d3)
        else .fin mant
      | [] => .fin mant

/-- The global function `parseFloat` on the characters of a string: leading whitespace is
skipped, an optional sign is read, and the longest numeric prefix is taken. -/
def jsParseFloat (l : List Char) : JsNum :=
  match l.dropWhile isJsSpace with
  | '-' :: r => (parseFloatUnsigned r).neg
  | '+' :: r => parseFloatUnsigned r
  | r => parseFloatUnsigned r

/-- The string method `split(',')`. -/
def splitComma : List Char → List (List Char)
  | [] => [[]]
  | c :: cs =>
    if c == ',' then [] :: splitComma cs
    else
      match splitComma cs with
      | p :: ps => (c :: p) :: ps
      | [] => [[c]]

/-- The character class `[\d.]`. -/
def isDigitOrDot (c : Char) : Bool := c.isDigit || c == '.'

/-- The regex `/(\d+)°\s*(\d+)'\s*([\d.]+)"/` tried at the head of the text; returns the
three groups. Every part is a maximal run followed by a character outside the run, so the
greedy match is the only one. -/
def matchDmsAt (l : List Char) : Option (List Char × List Char × List Char) :=
  let d := l.takeWhile Char.isDigit
  if d.isEmpty then none
  else
    match l.dropWhile Char.isDigit with
    | c1 :: r2 =>
      if c1 == '°' then
        let r3 := r2.dropWhile isJsSpace
        let mi := r3.takeWhile Char.isDigit
        if mi.isEmpty then none
        else
          match r3.dropWhile Char.isDigit with
          | c2 :: r5 =>
            if c2 == '\'' then
              let r6 := r5.dropWhile isJsSpace
              let s := r6.takeWhile isDigitOrDot
              if s.isEmpty then none
              else
                match r6.dropWhile isDigitOrDot with
                | c3 :: _ => if c3 == '"' then some (d, mi, s) else none
                | [] => none
            else none
          | [] => none
      else none
    | [] => none

/-- The method call `dmsString.match(/(\d+)°\s*(\d+)'\s*([\d.]+)"/)`: the leftmost match. -/
def matchDms : List Char → Option (List Char × List Char × List Char)
  | [] => none
  | c :: cs =>
    match matchDmsAt (c :: cs) with
    | some groups => some groups
    | none => matchDms cs

/-- The steps `dd = degrees + minutes / 60 + seconds / 3600` and the sign flip for the
references `S` and `W`. -/
def dmsToDecimal (degrees minutes seconds : JsNum) (ref : String) : JsNum :=
  let dd := (degrees.add (minutes.divPos 60)).add (seconds.divPos 3600)
  if ref == "S" || ref == "W" then dd.neg else dd

/-- The function `convertDMSToDD` on a description string; `none` is `null`. -/
def convertDMSToDD (dmsString ref : String) : Option JsNum :=
  match matchDms dmsString.data with
  | none =>
    let altParts := (splitComma dmsString.data).map (fun s => jsParseFloat (jsTrim s))
    match altParts with
    | [degrees, minutes, seconds] => some (dmsToDecimal degrees minutes seconds ref)
    | _ => none
  | some (d, mi, s) =>
    some (dmsToDecimal (jsParseFloat d) (jsParseFloat mi) (jsParseFloat s) ref)

/-- The GPS tags read by `extractEXIFMetadata`: the two descriptions and the first
character of each reference when present. -/
structure GpsTags where
  latitudeDescription : String
  latitudeRef : Option String
  longitudeDescription : String
  longitudeRef : Option String

/-- The expression `ref || fallback`: an absent or empty reference gives the fallback. -/
def refOr (ref : Option String) (fallback : String) : String :=
  match ref with
  | some r => if r == "" then fallback else r
  | none => fallback

/-- The GPS block of `extractEXIFMetadata`: `none` stands for absent tags on the way in
and for `gps: null` on the way out. -/
def extractGps (tags : Option GpsTags) : Option GpsData :=
  match tags with
  | none => none
  | some t =>
    let lat := convertDMSToDD t.latitudeDescription (refOr t.latitudeRef "N")
    let lng := convertDMSToDD t.longitudeDescription (refOr t.longitudeRef "E")
    match lat, lng with
    | some la, some lo => some { latitude := la, longitude := lo }
    | _, _ => none

/-- The text of a non-negative decimal: the integer digits, then a dot and the fraction
digits when there are any. -/
def decimalText (intDigits fracDigits : List Char) : List Char :=
  if fracDigits.isEmpty then intDigits else intDigits ++ '.' :: fracDigits

/-- The value of a non-negative decimal given by its integer and fraction digits. -/
def decimalValue (intDigits fracDigits : List Char) : ℚ :=
  (digitsValue intDigits : ℚ) + (digitsValue fracDigits : ℚ) / (10 : ℚ) ^ fracDigits.length

/-- An environment whose distance is NaN as soon as the third argument is NaN and 0
otherwise, and in which no timestamp parses. -/
def nanEnv : Env :=
  { calculateDistance := fun _ _ lat2 _ => if lat2 = .nan then .nan else 0
    dateParse := fun _ => .nan }

/-- GPS tags whose latitude description is three comma-separated words. -/
def garbledLatitudeTags : GpsTags :=
  { latitudeDescription := "north, of, town"
    latitudeRef := some "N"
    longitudeDescription := "79° 58' 56\""
    longitudeRef := some "W" }

/-- GPS tags whose latitude description is words without a comma. -/
def proseLatitudeTags : GpsTags :=
  { latitudeDescription := "north of town"
    latitudeRef := some "N"
    longitudeDescription := "79° 58' 56\""
    longitudeRef := some "W" }

/-! ## Date parsing as the engine does it -/

/-- Days from 1970-01-01 to a civil date of the proleptic Gregorian calendar. -/
def daysFromCivil (y m d : Int) : Int :=
  let y1 := if m ≤ 2 then y - 1 else y
  let era := y1 / 400
  let yoe := y1 - era * 400
  let mp := if m > 2 then m - 3 else m + 9
  let doy := (153 * mp + 2) / 5 + d - 1
  let doe := yoe * 365 + yoe / 4 - yoe / 100 + doy
  era * 146097 + doe - 719468

/-- The value of two digit characters. -/
def twoDigits (a b : Char) : Int := ((a.toNat - 48) * 10 + (b.toNat - 48) : Nat)

/-- Epoch milliseconds of a date and time of day, read as UTC; NaN when a field is out of
range. -/
def epochMillis (y1 y2 y3 y4 m1 m2 d1 d2 h1 h2 n1 n2 s1 s2 : Char) : JsNum :=
  let year := twoDigits y1 y2 * 100 + twoDigits y3 y4
  let month := twoDigits m1 m2
  let day := twoDigits d1 d2
  let hour := twoDigits h1 h2
  let minute := twoDigits n1 n2
  let second := twoDigits s1 s2
  if [y1, y2, y3, y4, m1, m2, d1, d2, h1, h2, n1, n2, s1, s2].all Char.isDigit &&
      decide (1 ≤ month) && decide (month ≤ 12) && decide (1 ≤ day) && decide (day ≤ 31) &&
      decide (hour ≤ 24) && decide (minute ≤ 59) && decide (second ≤ 59) then
    .fin ((((daysFromCivil year month day * 24 + hour) * 60 + minute) * 60 + second) * 1000 : Int)
  else .nan

/-- The time value of `new Date(text)` for the texts an EXIF timestamp can turn into, as
V8 reads them: `YYYY-MM-DD` and `YYYY-MM-DDTHH:mm:ss` are dates of the ECMAScript
date-time format (read as UTC here); a text with the date, the `T` and two digits but no
colon after them is an invalid date (NaN). Other texts are outside this model and are
given NaN. -/
def isoDateParse (text : String) : JsNum :=
  match text.data with
  | [y1, y2, y3, y4, a, m1, m2, b, d1, d2] =>
    if a == '-' && b == '-' then epochMillis y1 y2 y3 y4 m1 m2 d1 d2 '0' '0' '0' '0' '0' '0'
    else .nan
  | [y1, y2, y3, y4, a, m1, m2, b, d1, d2, t, h1, h2, c, n1, n2, e, s1, s2] =>
    if a == '-' && b == '-' && (t == 'T' || t == 't') && c == ':' && e == ':' then
      epochMillis y1 y2 y3 y4 m1 m2 d1 d2 h1 h2 n1 n2 s1 s2
    else .nan
  | _ => .nan

/-- An environment whose `Date` constructor is `isoDateParse`, with no distance anywhere. -/
def isoEnv : Env :=
  { calculateDistance := fun _ _ _ _ => 0
    dateParse := isoDateParse }

/-- An image with EXIF GPS and the timestamp 2020-01-15 10:30:00 in the EXIF format. -/
def staleExif : ExifData :=
  { gps := some { latitude := 2, longitude := 2 }
    camera := none
    timestamp := some "2020:01:15 10:30:00" }

/-- Strict inputs evaluated on 2024-01-01 00:00:00 UTC (epoch millisecond 1704067200000)
for the image `staleExif`, with similarity 50 and the example verdict. -/
def staleInputs : StrictInputs :=
  { reportLatitude := 1, reportLongitude := 1, latitude := 2, longitude := 2
    exifData := staleExif, now := 1704067200000, similarity := 50
    aiVerification := specExampleVerdict }

/-! ## Perceptual hash comparison (`imageComparisonService.js`) -/

/-- The call `parseInt(chunk, 2)` on a chunk of a hash string: the value of the leading
binary digits, `none` (NaN) when there is none. -/
def parseIntBinary (chunk : List Char) : Option Nat :=
  let ds := chunk.takeWhile (fun c => c == '0' || c == '1')
  if ds.isEmpty then none else some (ds.foldl (fun acc c => acc * 2 + (c.toNat - 48)) 0)

/-- The call `n.toString(16)`; NaN prints as `NaN`. -/
def toHexString : Option Nat → List Char
  | some n => Nat.toDigits 16 n
  | none => "NaN".data

/-- The function `binaryToHex`: one `parseInt(chunk, 2).toString(16)` per chunk of four
characters, the last chunk being shorter when the length is not a multiple of four. -/
def binaryToHex : List Char → List Char
  | [] => []
  | a :: b :: c :: d :: rest => toHexString (parseIntBinary [a, b, c, d]) ++ binaryToHex rest
  | chunk => toHexString (parseIntBinary chunk)

/-- The call `parseInt(c, 16)` on one character; `none` is NaN. -/
def parseIntHexDigit (c : Char) : Option Nat :=
  if c.isDigit then some (c.toNat - 48)
  else if decide (97 ≤ c.toNat) && decide (c.toNat ≤ 102) then some (c.toNat - 87)
  else if decide (65 ≤ c.toNat) && decide (c.toNat ≤ 70) then some (c.toNat - 55)
  else none

/-- The loop of `countSetBits` with its two variables `n` and `count`. The operand is a
32-bit integer, so 32 rounds always reach `n = 0`. -/
def countSetBitsLoop : Nat → Nat → Nat → Nat
  | 0, _, count => count
  | rounds + 1, n, count =>
    if n > 0 then countSetBitsLoop rounds (n >>> 1) (count + (n &&& 1)) else count

/-- The function `countSetBits`. -/
def countSetBits (n : Nat) : Nat := countSetBitsLoop 32 n 0

/-- The `for` loop of `calculateHammingDistance` over the characters of the two hashes,
with its variable `distance`; the bitwise XOR reads NaN as 0. -/
def hammingLoop : List Char → List Char → Nat → Nat
  | c1 :: r1, c2 :: r2, distance =>
    let xor := (parseIntHexDigit c1).getD 0 ^^^ (parseIntHexDigit c2).getD 0
    hammingLoop r1 r2 (distance + countSetBits xor)
  | _, _, distance => distance

/-- The function `calculateHammingDistance`; `none` is a `null` hash. -/
def calculateHammingDistance (hash1 hash2 : Option String) : Nat :=
  match hash1, hash2 with
  | some h1, some h2 =>
    if h1.data.isEmpty || h2.data.isEmpty || h1.data.length != h2.data.length then 64
    else hammingLoop h1.data h2.data 0
  | _, _ => 64

/-- The hash string of a list of bits: `1` for a set bit, `0` otherwise. -/
def bitString (bits : List Bool) : List Char := bits.map (fun b => if b then '1' else '0')

/-- The number of positions at which two bit lists differ. -/
def bitDifferences : List Bool → List Bool → Nat
  | x :: xs, y :: ys => (if x = y then 0 else 1) + bitDifferences xs ys
  | _, _ => 0

/-! ## Perceptual hash and image comparison (`imageComparisonService.js`, continued) -/

/-- The test `pixels[index] < pixels[nextIndex]`; an index past the end reads `undefined`
and the comparison is false. -/
def pixelLess (pixels : List Nat) (index : Nat) : Bool :=
  match pixels[index]?, pixels[index + 1]? with
  | some a, some b => decide (a < b)
  | _, _ => false

/-- The two nested loops of `generatePerceptualHash`: rows 0 to 7, columns 0 to 7, one bit
per pixel of the 9 x 8 grid that has a right neighbour. -/
def dHashBits (pixels : List Nat) : List Bool :=
  (List.range 8).flatMap (fun row =>
    (List.range 8).map (fun col => pixelLess pixels (row * 9 + col)))

/-- The function `generatePerceptualHash` on the raw pixels that the resize to a 9 x 8
grayscale grid returns. -/
def generatePerceptualHash (pixels : List Nat) : String :=
  String.mk (binaryToHex (bitString (dHashBits pixels)))

/-- The function `Math.round`: the nearest integer, halves going up. -/
def jsRound (q : ℚ) : Int := ⌊q + 1 / 2⌋

/-- The value `Math.max(0, 100 - (hammingDistance / 64) * 100)`. -/
def similarityOf (hammingDistance : Nat) : ℚ :=
  max 0 (100 - ((hammingDistance : ℚ) / 64) * 100)

/-- The object returned by `compareImages`. -/
structure ImageComparison where
  similarity : Int
  hashDifference : Nat
  beforeHash : Option String
  afterHash : Option String
  error : Option String
  deriving DecidableEq

/-- The success path of `compareImages` once the two hashes are there. -/
def compareHashes (beforeHash afterHash : Option String) : ImageComparison :=
  let hammingDistance := calculateHammingDistance beforeHash afterHash
  let similarity := similarityOf hammingDistance
  { similarity := jsRound similarity
    hashDifference := hammingDistance
    beforeHash := beforeHash
    afterHash := afterHash
    error := none }

/-- The object returned by the `catch` block of `compareImages`. -/
def compareImagesFallback (message : String) : ImageComparison :=
  { similarity := 50, hashDifference := 32, beforeHash := none, afterHash := none
    error := some message }

/-- The function `compareImages`. Each argument is what downloading an image and resizing
it gives: its raw pixels, or the message of the error raised on the way. -/
def compareImages (before after : Except String (List Nat)) : ImageComparison :=
  match before, after with
  | .ok beforePixels, .ok afterPixels =>
    compareHashes (some (generatePerceptualHash beforePixels))
      (some (generatePerceptualHash afterPixels))
  | .error message, _ => compareImagesFallback message
  | .ok _, .error message => compareImagesFallback message

/-- The number `imageComparison.similarity` as the controllers compare it. -/
def ImageComparison.similarityNum (c : ImageComparison) : JsNum := .fin (c.similarity : ℚ)

/-- The bit of a hex hash at a position, counted from the left, four bits per digit. -/
def hashBit (hash : String) (position : Nat) : Bool :=
  ((parseIntHexDigit (hash.data.getD (position / 4) '0')).getD 0).testBit (3 - position % 4)

/-- The standard-mode query `.eq('report_id', reportId).eq('worker_id', workerId).limit(1)`
(`resolutionService.js`) on the same table. -/
def selectDuplicatesByWorker (store : List ResolutionRecord) (reportId workerId : String) :
    List ResolutionRecord :=
  (store.filter (fun r => r.report_id == reportId && r.worker_id == workerId)).take 1

/-- The standard-mode function `checkDuplicateResolution` (`resolutionService.js`) after
the query returned; its body is that of the strict one. -/
def checkDuplicateResultByWorker : QueryResult → Bool
  | .rows data => decide (data.length > 0)
  | .error _ => false
  | .thrown _ => false

/-- The flag is the near-duplicate one. -/
def StrictFlag.isNearlyIdentical : StrictFlag → Bool
  | .nearlyIdentical => true
  | _ => false

/-- The flag is the unrelated-images one. -/
def StrictFlag.isCompletelyUnrelated : StrictFlag → Bool
  | .completelyUnrelated => true
  | _ => false

/-- The flag comes from the distance check or from the oracle verdict. -/
def StrictFlag.isDistanceOrOracle : StrictFlag → Bool
  | .workerNotAtLocation _ => true
  | .aiReason _ => true
  | .aiFakeDetected => true
  | .aiDifferentLocation => true
  | .aiNotResolved => true
  | _ => false

/-- The standard flag is the near-duplicate or the unrelated-images one. -/
def StandardFlag.isSimilarityFlag : StandardFlag → Bool
  | .nearlyIdentical => true
  | .completelyUnrelated => true
  | _ => false

/-- The standard flag is the location-mismatch one. -/
def StandardFlag.isLocationMismatch : StandardFlag → Bool
  | .locationMismatch _ => true
  | _ => false

/-- The standard flag is the missing-report-coordinates one. -/
def StandardFlag.isReportHasNoCoordinates : StandardFlag → Bool
  | .reportHasNoCoordinates => true
  | _ => false

/-- A grid of equal pixels. -/
def flatGrid : List Nat := List.replicate 72 0

/-- A grid that differs from `flatGrid` by three brighter pixels in the first row. -/
def threeStepGrid : List Nat := [0, 1, 0, 1, 0, 1] ++ List.replicate 66 0

/-- A grid whose brightness rises from each pixel to the next. -/
def risingGrid : List Nat := List.range 72

/-- Standard inputs for a report stored on the equator, with the worker at the same
point. -/
def equatorInputs : StandardInputs :=
  { reportLatitude := some 0, reportLongitude := some 37, latitude := 0, longitude := 37
    exifData := fullExif, similarity := 50, aiVerification := plainVerdict false }

/-! ## Great-circle distance on JavaScript numbers (`geoService.js`, continued) -/

/-- A JavaScript number whose finite values are taken in `α`: NaN, minus or plus infinity,
or a finite value. Finite results are exact and zero carries no sign. -/
inductive JsNumber (α : Type) where
  | nan
  | negInf
  | posInf
  | fin (x : α)

namespace JsNumber

variable {α : Type} [LinearOrderedField α]

instance [OfNat α n] : OfNat (JsNumber α) n := ⟨.fin (OfNat.ofNat n)⟩

/-- The number is neither NaN nor an infinity (`Number.isFinite`). -/
def isFinite : JsNumber α → Bool
  | fin _ => true
  | _ => false

/-- The JavaScript product `a * b`. -/
def mul : JsNumber α → JsNumber α → JsNumber α
  | fin a, fin b => fin (a * b)
  | nan, _ => nan
  | _, nan => nan
  | posInf, posInf => posInf
  | negInf, negInf => posInf
  | posInf, negInf => negInf
  | negInf, posInf => negInf
  | posInf, fin b => if b = 0 then nan else if 0 < b then posInf else negInf
  | negInf, fin b => if b = 0 then nan else if 0 < b then negInf else posInf
  | fin a, posInf => if a = 0 then nan else if 0 < a then posInf else negInf
  | fin a, negInf => if a = 0 then nan else if 0 < a then negInf else posInf

/-- The JavaScript sum `a + b`. -/
def add : JsNumber α → JsNumber α → JsNumber α
  | fin a, fin b => fin (a + b)
  | nan, _ => nan
  | _, nan => nan
  | posInf, negInf => nan
  | negInf, posInf => nan
  | posInf, _ => posInf
  | negInf, _ => negInf
  | fin _, posInf => posInf
  | fin _, negInf => negInf

/-- The JavaScript difference `a - b`. -/
def sub : JsNumber α → JsNumber α → JsNumber α
  | fin a, fin b => fin (a - b)
  | nan, _ => nan
  | _, nan => nan
  | posInf, posInf => nan
  | negInf, negInf => nan
  | posInf, _ => posInf
  | negInf, _ => negInf
  | fin _, posInf => negInf
  | fin _, negInf => posInf

/-- The JavaScript quotient `a / b`. -/
def div : JsNumber α → JsNumber α → JsNumber α
  | fin a, fin b =>
    if b = 0 then (if a = 0 then nan else if 0 < a then posInf else negInf) else fin (a / b)
  | nan, _ => nan
  | _, nan => nan
  | fin _, posInf => fin 0
  | fin _, negInf => fin 0
  | posInf, fin b => if 0 ≤ b then posInf else negInf
  | negInf, fin b => if 0 ≤ b then negInf else posInf
  | posInf, posInf => nan
  | posInf, negInf => nan
  | negInf, posInf => nan
  | negInf, negInf => nan

instance : Mul (JsNumber α) := ⟨mul⟩

instance : Add (JsNumber α) := ⟨add⟩

instance : Sub (JsNumber α) := ⟨sub⟩

instance : Div (JsNumber α) := ⟨div⟩

end JsNumber

/-- The function `Math.sin` on JavaScript numbers: NaN at NaN and at the infinities. -/
def JsMath.sinJs {α : Type} (m : JsMath α) : JsNumber α → JsNumber α
  | .fin x => .fin (m.sin x)
  | _ => .nan

/-- The function `Math.cos` on JavaScript numbers: NaN at NaN and at the infinities. -/
def JsMath.cosJs {α : Type} (m : JsMath α) : JsNumber α → JsNumber α
  | .fin x => .fin (m.cos x)
  | _ => .nan

/-- The function `Math.sqrt` on JavaScript numbers: NaN below zero, at NaN and at minus
infinity. -/
def JsMath.sqrtJs {α : Type} [LinearOrderedField α] (m : JsMath α) :
    JsNumber α → JsNumber α
  | .fin x => if x < 0 then .nan else .fin (m.sqrt x)
  | .posInf => .posInf
  | _ => .nan

/-- The function `Math.atan2` on JavaScript numbers, with its values at the infinities. -/
def JsMath.atan2Js {α : Type} [LinearOrderedField α] (m : JsMath α) :
    JsNumber α → JsNumber α → JsNumber α
  | .fin y, .fin x => .fin (m.atan2 y x)
  | .nan, _ => .nan
  | _, .nan => .nan
  | .posInf, .posInf => .fin (m.PI / 4)
  | .posInf, .negInf => .fin (3 * m.PI / 4)
  | .posInf, .fin _ => .fin (m.PI / 2)
  | .negInf, .posInf => .fin (-(m.PI / 4))
  | .negInf, .negInf => .fin (-(3 * m.PI / 4))
  | .negInf, .fin _ => .fin (-(m.PI / 2))
  | .fin _, .posInf => .fin 0
  | .fin y, .negInf => if 0 ≤ y then .fin m.PI else .fin (-m.PI)

/-- The function `calculateDistance` on JavaScript numbers, NaN and the infinities
included. -/
def calculateDistanceJs {α : Type} [LinearOrderedField α] (m : JsMath α)
    (lat1 lng1 lat2 lng2 : JsNumber α) : JsNumber α :=
  let R : JsNumber α := 6371000
  let φ1 := (lat1 * .fin m.PI) / 180
  let φ2 := (lat2 * .fin m.PI) / 180
  let Δφ := ((lat2 - lat1) * .fin m.PI) / 180
  let Δlambda := ((lng2 - lng1) * .fin m.PI) / 180
  let a :=
    m.sinJs (Δφ / 2) * m.sinJs (Δφ / 2) +
    m.cosJs φ1 * m.cosJs φ2 * m.sinJs (Δlambda / 2) * m.sinJs (Δlambda / 2)
  let c := 2 * m.atan2Js (m.sqrtJs a) (m.sqrtJs (1 - a))
  let distance := R * c
  distance

/-- The answer of the two coordinate tests at the top of both handlers. -/
inductive CoordinateCheck where
  | invalid
  | outOfRange
  | accepted
  deriving DecidableEq

/-- The tests `isNaN(latitude) || isNaN(longitude)` and `latitude < -90 || latitude > 90 ||
longitude < -180 || longitude > 180` of `strictVerifyResolution` and `verifyResolution`,
on the parsed live coordinates; each answers 400 when it holds. -/
def checkLiveCoordinates (latitude longitude : JsNum) : CoordinateCheck :=
  if isNaN latitude || isNaN longitude then .invalid
  else if JsNum.lt latitude (.fin (-90)) || JsNum.gt latitude 90 ||
      JsNum.lt longitude (.fin (-180)) || JsNum.gt longitude 180 then .outOfRange
  else .accepted

/-! ## Properties -/

/-! ### Strict mode: gate and score -/

theorem Suspicion.balanced_init : Suspicion.init.balanced := by
  simp [Suspicion.balanced, Suspicion.init]

theorem Suspicion.balanced_push (s : Suspicion) (f : StrictFlag) (h : s.balanced) :
    (s.push f f.weight).balanced := by
  simp only [Suspicion.balanced, Suspicion.push] at *
  simp [h]

theorem stepLocation_score (d : JsNum) (s : Suspicion) :
    (stepLocation d s).1.suspicionScore =
      s.suspicionScore + (if JsNum.gt d 20 then 40 else 0) := by
  unfold stepLocation STRICT_MAX_LOCATION_DISTANCE
  split <;> simp [Suspicion.push]

theorem stepLocation_balanced (d : JsNum) (s : Suspicion) (h : s.balanced) :
    (stepLocation d s).1.balanced := by
  unfold stepLocation
  split
  · exact Suspicion.balanced_push s (.workerNotAtLocation d) h
  · exact h

theorem stepLocation_match (d : JsNum) (s : Suspicion) :
    (stepLocation d s).2 = !(JsNum.gt d 20) := by
  unfold stepLocation STRICT_MAX_LOCATION_DISTANCE
  split <;> simp_all

theorem stepExifGps_score (env : Env) (lat lng : JsNum) (e : ExifData) (s : Suspicion) :
    (stepExifGps env lat lng e s).suspicionScore =
      s.suspicionScore
      + (match e.gps with
         | some g => if JsNum.gt (env.calculateDistance lat lng g.latitude g.longitude) 10
                     then 30 else 0
         | none => 0)
      + (match e.gps with
         | some _ => 0
         | none => 20) := by
  unfold stepExifGps MAX_EXIF_DEVIATION
  cases e.gps with
  | none => simp [Suspicion.push]
  | some g =>
    simp only []
    split <;> simp [Suspicion.push]

theorem stepExifGps_balanced (env : Env) (lat lng : JsNum) (e : ExifData) (s : Suspicion)
    (h : s.balanced) : (stepExifGps env lat lng e s).balanced := by
  unfold stepExifGps
  cases e.gps with
  | none => exact Suspicion.balanced_push s .noGpsMetadata h
  | some g =>
    simp only []
    split
    · exact Suspicion.balanced_push s (.exifGpsDiffers _) h
    · exact h

theorem stepExifTimestamp_score (env : Env) (now : JsNum) (e : ExifData) (s : Suspicion) :
    (stepExifTimestamp env now e s).suspicionScore =
      s.suspicionScore
      + (if e.hasTimestamp && JsNum.gt (hoursDiff env now (e.timestamp.getD "")) 24
         then 15 else 0)
      + (if e.hasTimestamp then 0 else 10) := by
  unfold stepExifTimestamp
  cases e.hasTimestamp with
  | false => simp [Suspicion.push]
  | true =>
    simp only [if_true, Bool.true_and]
    split <;> simp [Suspicion.push]

theorem stepExifTimestamp_balanced (env : Env) (now : JsNum) (e : ExifData) (s : Suspicion)
    (h : s.balanced) : (stepExifTimestamp env now e s).balanced := by
  unfold stepExifTimestamp
  split
  · simp only []
    split
    · exact Suspicion.balanced_push s (.imageTimestampOld _) h
    · exact h
  · exact Suspicion.balanced_push s .noTimestamp h

theorem stepSimilarity_score (sim : JsNum) (s : Suspicion) :
    (stepSimilarity sim s).suspicionScore =
      s.suspicionScore + (if JsNum.gt sim 95 then 50 else 0)
      + (if JsNum.lt sim 5 then 40 else 0) := by
  unfold stepSimilarity
  by_cases h1 : JsNum.gt sim 95 = true <;> by_cases h2 : JsNum.lt sim 5 = true <;>
    simp [Suspicion.push, h1, h2]

theorem stepSimilarity_balanced (sim : JsNum) (s : Suspicion) (h : s.balanced) :
    (stepSimilarity sim s).balanced := by
  unfold stepSimilarity
  have h1 : (if JsNum.gt sim 95 = true then s.push .nearlyIdentical 50 else s).balanced := by
    split
    · exact Suspicion.balanced_push s .nearlyIdentical h
    · exact h
  simp only []
  split
  · exact Suspicion.balanced_push _ .completelyUnrelated h1
  · exact h1

theorem stepAi_score (v : StrictVerdict) (s : Suspicion) :
    (stepAi v s).suspicionScore =
      s.suspicionScore + (if v.suspicious then 30 else 0)
      + (if v.fake_detected then 50 else 0)
      + (if v.same_location then 0 else 35)
      + (if v.issue_resolved then 0 else 30) := by
  unfold stepAi
  cases v.suspicious <;> cases v.fake_detected <;> cases v.same_location <;>
    cases v.issue_resolved <;> simp [Suspicion.push]

theorem Suspicion.balanced_ite (p : Prop) [Decidable p] (s : Suspicion) (f : StrictFlag)
    (w : Nat) (hw : w = f.weight) (h : s.balanced) :
    (if p then s.push f w else s).balanced := by
  subst hw
  split
  · exact Suspicion.balanced_push s f h
  · exact h

theorem stepAi_balanced (v : StrictVerdict) (s : Suspicion) (h : s.balanced) :
    (stepAi v s).balanced := by
  unfold stepAi
  exact Suspicion.balanced_ite _ _ .aiNotResolved 30 rfl
    (Suspicion.balanced_ite _ _ .aiDifferentLocation 35 rfl
      (Suspicion.balanced_ite _ _ .aiFakeDetected 50 rfl
        (Suspicion.balanced_ite _ _ (.aiReason v.suspicion_reason) 30 rfl h)))

theorem strictAssess_score (env : Env) (i : StrictInputs) :
    (strictAssess env i).suspicionScore = specStrictScore env i := by
  simp only [strictAssess, specStrictScore, stepAi_score, stepSimilarity_score,
    stepExifTimestamp_score, stepExifGps_score, stepLocation_score, Suspicion.init]
  omega

theorem strictAssess_balanced (env : Env) (i : StrictInputs) :
    (strictAssess env i).suspicionScore =
      ((strictAssess env i).suspicionFlags.map StrictFlag.weight).sum := by
  have h := stepAi_balanced i.aiVerification _
    (stepSimilarity_balanced i.similarity _
      (stepExifTimestamp_balanced env i.now i.exifData _
        (stepExifGps_balanced env i.latitude i.longitude i.exifData _
          (stepLocation_balanced
            (env.calculateDistance i.reportLatitude i.reportLongitude i.latitude i.longitude)
            _ Suspicion.balanced_init))))
  exact h

theorem strictAssess_locationMatch (env : Env) (i : StrictInputs) :
    (strictAssess env i).locationMatch =
      !(JsNum.gt (strictAssess env i).locationDistance 20) := by
  simp only [strictAssess, stepLocation_match]

theorem strictAssess_status (env : Env) (i : StrictInputs) :
    (strictAssess env i).verificationStatus =
      strictStatus (strictAssess env i).locationMatch (strictAssess env i).locationDistance
        i.aiVerification (strictAssess env i).suspicionScore := by
  simp only [strictAssess, strictStatus]

theorem strictStatus_verified_iff (locationMatch : Bool) (d : JsNum) (v : StrictVerdict)
    (score : Nat) :
    strictStatus locationMatch d v score = .verified ↔
      (locationMatch = true ∧ JsNum.le d 20 = true ∧ v.same_location = true ∧
        v.issue_resolved = true ∧ v.fake_detected = false ∧ v.suspicious = false ∧
        JsNum.ge v.resolution_confidence 80 = true ∧ score < 30) := by
  unfold strictStatus allChecksPassed STRICT_MAX_LOCATION_DISTANCE STRICT_MIN_CONFIDENCE_SCORE
  split
  · rename_i h
    simp only [Bool.and_eq_true, Bool.not_eq_true', decide_eq_true_eq] at h
    simp only [true_iff]
    tauto
  · rename_i h
    simp only [Bool.and_eq_true, Bool.not_eq_true', decide_eq_true_eq] at h
    constructor
    · intro h1
      cases h1
    · intro h1
      exact absurd (by tauto) h

theorem strictStatus_cases (locationMatch : Bool) (d : JsNum) (v : StrictVerdict)
    (score : Nat) :
    strictStatus locationMatch d v score ≠ .verified →
      strictStatus locationMatch d v score = .suspicious := by
  unfold strictStatus
  split <;> simp

theorem strictStatus_cases_of_assess (env : Env) (i : StrictInputs) :
    (strictAssess env i).verificationStatus ≠ .verified →
      (strictAssess env i).verificationStatus = .suspicious := by
  rw [strictAssess_status]
  exact strictStatus_cases _ _ _ _

/-- C1: strict mode gate. For every location-match flag, distance, oracle verdict and
accumulated score the status is `verified` exactly when the location matched, the distance
is at most 20 m, the oracle reports same location and issue resolved, reports neither a
fake nor a suspicion, has confidence at least 80, and the score is below 30; in every
other case the status is `suspicious`. The same holds of the status computed by the
pipeline from its own distance and score. At distance 15 m, the example verdict with
confidence 85 and score 10 give `verified`, and setting only `fake_detected` gives
`suspicious`, at the gate with the score held at 10 and through the pipeline on an image
with EXIF GPS and no timestamp. -/
theorem strict_gate_verified_iff (env : Env) (i : StrictInputs) (locationMatch : Bool)
    (d : JsNum) (v : StrictVerdict) (score : Nat) :
    (strictStatus locationMatch d v score = .verified ↔
      (locationMatch = true ∧ JsNum.le d 20 = true ∧ v.same_location = true ∧
        v.issue_resolved = true ∧ v.fake_detected = false ∧ v.suspicious = false ∧
        JsNum.ge v.resolution_confidence 80 = true ∧ score < 30)) ∧
    (¬ (locationMatch = true ∧ JsNum.le d 20 = true ∧ v.same_location = true ∧
        v.issue_resolved = true ∧ v.fake_detected = false ∧ v.suspicious = false ∧
        JsNum.ge v.resolution_confidence 80 = true ∧ score < 30) →
      strictStatus locationMatch d v score = .suspicious) ∧
    ((strictAssess env i).verificationStatus = .verified ↔
      ((strictAssess env i).locationMatch = true ∧
        JsNum.le (strictAssess env i).locationDistance 20 = true ∧
        i.aiVerification.same_location = true ∧ i.aiVerification.issue_resolved = true ∧
        i.aiVerification.fake_detected = false ∧ i.aiVerification.suspicious = false ∧
        JsNum.ge i.aiVerification.resolution_confidence 80 = true ∧
        (strictAssess env i).suspicionScore < 30)) ∧
    ((strictAssess env i).verificationStatus ≠ .verified →
      (strictAssess env i).verificationStatus = .suspicious) ∧
    strictStatus true 15 specExampleVerdict 10 = .verified ∧
    strictStatus true 15 { specExampleVerdict with fake_detected := true } 10 = .suspicious ∧
    (strictAssess (exampleEnv 15 0 0)
      (exampleInputs gpsOnlyExif 50 specExampleVerdict)).suspicionScore = 10 ∧
    (strictAssess (exampleEnv 15 0 0)
      (exampleInputs gpsOnlyExif 50 specExampleVerdict)).verificationStatus = .verified ∧
    (strictAssess (exampleEnv 15 0 0)
      (exampleInputs gpsOnlyExif 50
        { specExampleVerdict with fake_detected := true })).verificationStatus =
      .suspicious := by
  refine ⟨strictStatus_verified_iff _ _ _ _, ?_, ?_, ?_, ?_, ?_, by decide, by decide,
    by decide⟩
  · intro h
    apply strictStatus_cases
    intro hv
    exact h ((strictStatus_verified_iff _ _ _ _).mp hv)
  · rw [strictAssess_status]
    exact strictStatus_verified_iff _ _ _ _
  · rw [strictAssess_status]
    exact strictStatus_cases _ _ _ _
  · decide
  · decide

/-- C2: strict mode score. For every input the score computed by the pipeline equals the
sum of the listed weights of the conditions that hold, each counted once (distance above
20 m: 40; EXIF GPS present and deviating more than 10 m: 30; no EXIF GPS: 20; timestamp
present and more than 24 h old: 15; no timestamp: 10; similarity above 95: 50; similarity
below 5: 40; oracle suspicious: 30; fake detected: 50; not same location: 35; not
resolved: 30), and it equals the sum of the weights of the flags raised. -/
theorem strict_score_eq_weight_sum (env : Env) (i : StrictInputs) :
    (strictAssess env i).suspicionScore = specStrictScore env i ∧
    (strictAssess env i).suspicionScore =
      ((strictAssess env i).suspicionFlags.map StrictFlag.weight).sum :=
  ⟨strictAssess_score env i, strictAssess_balanced env i⟩

/-! ### Standard mode decision -/

theorem standardAssess_locationMatch (env : Env) (i : StandardInputs) :
    (standardAssess env i).locationMatch =
      ((coordTruthy i.reportLatitude && coordTruthy i.reportLongitude) &&
        !(JsNum.gt (env.calculateDistance (i.reportLatitude.getD .nan)
          (i.reportLongitude.getD .nan) i.latitude i.longitude) 100)) := by
  simp only [standardAssess, stdStepLocation, MAX_LOCATION_DISTANCE]
  split <;> [split; skip] <;> simp_all

theorem standardAssess_flags_ne_nil (env : Env) (i : StandardInputs) :
    (standardAssess env i).suspicionFlags ≠ [] ↔
      (i.exifData.gps.isNone = true ∨
        (coordTruthy i.reportLatitude && coordTruthy i.reportLongitude) = false ∨
        JsNum.gt (env.calculateDistance (i.reportLatitude.getD .nan)
          (i.reportLongitude.getD .nan) i.latitude i.longitude) 100 = true ∨
        JsNum.gt i.similarity 95 = true ∨
        JsNum.lt i.similarity 10 = true ∨
        (i.aiVerification.suspicious = true ∧
          i.aiVerification.suspicion_reason.truthy = true)) := by
  simp only [standardAssess, stdStepLocation, stdStepExif, stdStepSimilarity, stdStepAi,
    MAX_LOCATION_DISTANCE]
  cases i.exifData.gps <;>
  cases (coordTruthy i.reportLatitude && coordTruthy i.reportLongitude) <;>
  cases JsNum.gt (env.calculateDistance (i.reportLatitude.getD .nan)
          (i.reportLongitude.getD .nan) i.latitude i.longitude) 100 <;>
  cases JsNum.gt i.similarity 95 <;>
  cases JsNum.lt i.similarity 10 <;>
  cases i.aiVerification.suspicious <;>
  cases i.aiVerification.suspicion_reason.truthy <;>
  simp

theorem isSuspicious_iff (flags : List StandardFlag) (locationMatch : Bool) (v : Verdict) :
    isSuspicious flags locationMatch v = true ↔
      (flags ≠ [] ∨ locationMatch = false ∨ v.same_location = false ∨
        v.issue_resolved = false ∨ v.suspicious = true ∨
        JsNum.lt v.resolution_confidence 70 = true) := by
  unfold isSuspicious MIN_CONFIDENCE_SCORE
  simp only [Bool.or_eq_true, decide_eq_true_eq, Bool.not_eq_true', gt_iff_lt,
    List.length_pos]
  tauto

theorem standardAssess_status (env : Env) (i : StandardInputs) :
    (standardAssess env i).verificationStatus = .suspicious ↔
      ((standardAssess env i).suspicionFlags ≠ [] ∨
        (standardAssess env i).locationMatch = false ∨
        i.aiVerification.same_location = false ∨
        i.aiVerification.issue_resolved = false ∨
        i.aiVerification.suspicious = true ∨
        JsNum.lt i.aiVerification.resolution_confidence 70 = true) := by
  have h : (standardAssess env i).verificationStatus =
      if isSuspicious (standardAssess env i).suspicionFlags (standardAssess env i).locationMatch
        i.aiVerification then .suspicious else .verified := by
    simp only [standardAssess]
  rw [h, ← isSuspicious_iff]
  split <;> simp_all

theorem standardAssess_status_cases (env : Env) (i : StandardInputs) :
    (standardAssess env i).verificationStatus ≠ .suspicious →
      (standardAssess env i).verificationStatus = .verified := by
  simp only [standardAssess]
  split <;> simp

/-- C3: standard mode decision. For every input the status is `suspicious` exactly when
one of the flag conditions holds (no EXIF GPS, missing report coordinates or distance above
100 m, similarity above 95, similarity below 10, oracle-reported suspicion), or
`locationMatch` is false, or the oracle denies same location or resolution, or its
confidence is below 70; otherwise the status is `verified`. A flag in the list always
comes from one of the flag conditions. -/
theorem standard_status_suspicious_iff (env : Env) (i : StandardInputs) :
    ((standardAssess env i).verificationStatus = .suspicious ↔
      specStandardSuspicious env i (standardAssess env i).locationMatch) ∧
    (¬ specStandardSuspicious env i (standardAssess env i).locationMatch →
      (standardAssess env i).verificationStatus = .verified) ∧
    ((standardAssess env i).suspicionFlags ≠ [] →
      specStandardSuspicious env i (standardAssess env i).locationMatch) := by
  have key : (standardAssess env i).verificationStatus = .suspicious ↔
      specStandardSuspicious env i (standardAssess env i).locationMatch := by
    rw [standardAssess_status, standardAssess_flags_ne_nil]
    unfold specStandardSuspicious
    tauto
  refine ⟨key, ?_, ?_⟩
  · intro h
    exact standardAssess_status_cases env i (fun hs => h (key.mp hs))
  · intro h
    rw [standardAssess_flags_ne_nil] at h
    unfold specStandardSuspicious
    tauto

theorem standardAssess_suspicion_without_flag :
    (standardAssess (exampleEnv 15 0 0)
      (exampleStandardInputs fullExif 50 (plainVerdict true))).suspicionFlags.length = 0 ∧
    (standardAssess (exampleEnv 15 0 0)
      (exampleStandardInputs fullExif 50 (plainVerdict true))).verificationStatus =
      .suspicious ∧
    (standardAssess (exampleEnv 15 0 0)
      (exampleStandardInputs fullExif 50 (plainVerdict false))).verificationStatus =
      .verified := by
  refine ⟨by decide, by decide, by decide⟩

/-! ### Fail-closed fallback -/

theorem strictAssess_fallback (env : Env) (i : StrictInputs) :
    (strictAssess env { i with aiVerification := strictFallbackVerdict }).verificationStatus =
      .suspicious := by
  apply strictStatus_cases_of_assess
  intro h
  have h2 := (strictStatus_verified_iff _ _ _ _).mp
    ((strictAssess_status env { i with aiVerification := strictFallbackVerdict }).symm.trans h)
  exact absurd h2.2.2.1 (by decide : ¬ strictFallbackVerdict.same_location = true)

theorem standardAssess_fallback (env : Env) (i : StandardInputs) :
    (standardAssess env { i with aiVerification := fallbackVerdict }).verificationStatus =
      .suspicious := by
  rw [standardAssess_status]
  right; right; left
  rfl

/-- C4: fail-closed fallback. The objects returned by `getStrictFallbackVerification` and
`getFallbackVerification` carry `same_location = false`, `issue_resolved = false`,
`suspicious = true` and `resolution_confidence = 0`, and for every distance, EXIF record
and image similarity the strict and the standard decision computed with the fallback
verdict are `suspicious`. -/
theorem fallback_is_fail_closed (env : Env) (i : StrictInputs) (j : StandardInputs) :
    StrictVerdict.ofJs getStrictFallbackVerification = some strictFallbackVerdict ∧
    Verdict.ofJs getFallbackVerification = some fallbackVerdict ∧
    (strictFallbackVerdict.same_location = false ∧
      strictFallbackVerdict.issue_resolved = false ∧
      strictFallbackVerdict.suspicious = true ∧
      strictFallbackVerdict.resolution_confidence = 0) ∧
    (fallbackVerdict.same_location = false ∧ fallbackVerdict.issue_resolved = false ∧
      fallbackVerdict.suspicious = true ∧ fallbackVerdict.resolution_confidence = 0) ∧
    (strictAssess env { i with aiVerification := strictFallbackVerdict }).verificationStatus =
      .suspicious ∧
    (standardAssess env { j with aiVerification := fallbackVerdict }).verificationStatus =
      .suspicious :=
  ⟨rfl, rfl, ⟨rfl, rfl, rfl, rfl⟩, ⟨rfl, rfl, rfl, rfl⟩,
    strictAssess_fallback env i, standardAssess_fallback env j⟩

/-! ### Oracle errors -/

theorem includes_api_key_throws (jsonParse : String → Option JsVal) (message : String)
    (h : includes message "API key" = true) :
    strictVerifyWithGemini jsonParse (.failed message) = .error "Gemini API: Invalid API key" ∧
    verifyResolutionWithGemini jsonParse (.failed message) =
      .error "Gemini API: Invalid API key" := by
  simp [strictVerifyWithGemini, verifyResolutionWithGemini, h]

/-- C5, as stated, fails: an authentication error (message containing `API key`) and a
quota error (message containing `quota`) make both adapters throw instead of returning a
verdict. -/
theorem oracle_auth_and_quota_errors_throw :
    strictVerifyWithGemini jsonParseFlat
        (.failed "API key not valid. Please pass a valid API key.") =
      .error "Gemini API: Invalid API key" ∧
    verifyResolutionWithGemini jsonParseFlat
        (.failed "API key not valid. Please pass a valid API key.") =
      .error "Gemini API: Invalid API key" ∧
    strictVerifyWithGemini jsonParseFlat (.failed "429 quota exceeded for this project") =
      .error "Gemini API: Quota exceeded" ∧
    verifyResolutionWithGemini jsonParseFlat (.failed "429 quota exceeded for this project") =
      .error "Gemini API: Quota exceeded" :=
  ⟨rfl, rfl, rfl, rfl⟩

/-- C5, amended: for every error raised while calling the oracle whose message contains
neither `API key` nor `quota`, `strictVerifyWithGemini` and `verifyResolutionWithGemini`
return their fallback verdict, which has `suspicious = true` and
`resolution_confidence = 0`. -/
theorem oracle_error_returns_fallback (jsonParse : String → Option JsVal) (message : String)
    (hk : includes message "API key" = false) (hq : includes message "quota" = false) :
    strictVerifyWithGemini jsonParse (.failed message) = .ok getStrictFallbackVerification ∧
    verifyResolutionWithGemini jsonParse (.failed message) = .ok getFallbackVerification ∧
    getStrictFallbackVerification.get "suspicious" = .bool true ∧
    getStrictFallbackVerification.get "resolution_confidence" = .num 0 ∧
    getFallbackVerification.get "suspicious" = .bool true ∧
    getFallbackVerification.get "resolution_confidence" = .num 0 := by
  refine ⟨?_, ?_, rfl, rfl, rfl, rfl⟩
  · simp [strictVerifyWithGemini, hk, hq]
  · simp [verifyResolutionWithGemini, hk, hq]

/-- C5, amended, at a timeout error. -/
theorem oracle_error_returns_fallback_witness :
    includes "timeout of 15000ms exceeded" "API key" = false ∧
    includes "timeout of 15000ms exceeded" "quota" = false ∧
    strictVerifyWithGemini jsonParseFlat (.failed "timeout of 15000ms exceeded") =
      .ok getStrictFallbackVerification ∧
    verifyResolutionWithGemini jsonParseFlat (.failed "timeout of 15000ms exceeded") =
      .ok getFallbackVerification :=
  have h := oracle_error_returns_fallback jsonParseFlat "timeout of 15000ms exceeded"
    (by decide) (by decide)
  ⟨by decide, by decide, h.1, h.2.1⟩

/-! ### Range of the strict score and severity tiers -/

/-- C6, at a failing input: an image without EXIF metadata submitted 5 m from the report
while the oracle is unavailable (fallback verdict) scores 20 + 10 + 30 + 35 + 30 = 125,
above the documented range of 0 to 100; that score is saved with the submission and
returned. -/
theorem strict_score_exceeds_100 :
    (strictAssess (exampleEnv 5 0 0)
      (exampleInputs bareExif 50 strictFallbackVerdict)).suspicionScore = 125 ∧
    ¬ (strictAssess (exampleEnv 5 0 0)
      (exampleInputs bareExif 50 strictFallbackVerdict)).suspicionScore ≤ 100 ∧
    ((strictVerifyResolution (exampleEnv 5 0 0) []
      (exampleSubmission "worker@city.gov")).1.map (fun r => r.suspicion_score)) = [125] := by
  refine ⟨by decide, by decide, by decide⟩

theorem strictAssess_severity (env : Env) (i : StrictInputs)
    (h : (strictAssess env i).verificationStatus = .suspicious) :
    (strictAssess env i).loggedSeverity =
      some (severityOf (strictAssess env i).suspicionScore) := by
  simp only [strictAssess] at h ⊢
  split at h
  · cases h
  · rename_i hp
    simp [hp]

/-- C7, as stated, fails: a submission 25 m from the report whose EXIF GPS deviates 15 m
(score 40 + 30 = 70) is classified `suspicious` and logged with severity `high`, not
`critical`; one that is only 25 m away (score 40) is logged `medium`, not `high`. -/
theorem severity_boundaries_are_strict :
    (strictAssess (exampleEnv 25 15 3600000)
      (exampleInputs fullExif 50 specExampleVerdict)).verificationStatus = .suspicious ∧
    (strictAssess (exampleEnv 25 15 3600000)
      (exampleInputs fullExif 50 specExampleVerdict)).suspicionScore = 70 ∧
    (strictAssess (exampleEnv 25 15 3600000)
      (exampleInputs fullExif 50 specExampleVerdict)).loggedSeverity = some .high ∧
    (strictAssess (exampleEnv 25 0 3600000)
      (exampleInputs fullExif 50 specExampleVerdict)).verificationStatus = .suspicious ∧
    (strictAssess (exampleEnv 25 0 3600000)
      (exampleInputs fullExif 50 specExampleVerdict)).suspicionScore = 40 ∧
    (strictAssess (exampleEnv 25 0 3600000)
      (exampleInputs fullExif 50 specExampleVerdict)).loggedSeverity = some .medium := by
  refine ⟨by decide!, by decide!, by decide!, by decide!, by decide!, by decide!⟩

/-- C7, amended: for every strict-mode outcome classified `suspicious` with score `s`, the
severity passed to the audit logger is `critical` when `s > 70`, `high` when
`40 < s ≤ 70`, and `medium` when `s ≤ 40`. -/
theorem strict_severity_tiers (env : Env) (i : StrictInputs)
    (h : (strictAssess env i).verificationStatus = .suspicious) :
    (70 < (strictAssess env i).suspicionScore →
      (strictAssess env i).loggedSeverity = some .critical) ∧
    (40 < (strictAssess env i).suspicionScore ∧ (strictAssess env i).suspicionScore ≤ 70 →
      (strictAssess env i).loggedSeverity = some .high) ∧
    ((strictAssess env i).suspicionScore ≤ 40 →
      (strictAssess env i).loggedSeverity = some .medium) := by
  rw [strictAssess_severity env i h]
  unfold severityOf
  refine ⟨?_, ?_, ?_⟩
  · intro h1
    simp [h1]
  · intro h1
    have h2 : ¬ (strictAssess env i).suspicionScore > 70 := by omega
    simp [h1.1, h2]
  · intro h1
    have h2 : ¬ (strictAssess env i).suspicionScore > 70 := by omega
    have h3 : ¬ (strictAssess env i).suspicionScore > 40 := by omega
    simp [h2, h3]

/-- C7, amended, at the unavailable-oracle submission of score 125: severity `critical`. -/
theorem strict_severity_tiers_witness :
    (strictAssess (exampleEnv 5 0 0)
      (exampleInputs bareExif 50 strictFallbackVerdict)).verificationStatus = .suspicious ∧
    (strictAssess (exampleEnv 5 0 0)
      (exampleInputs bareExif 50 strictFallbackVerdict)).loggedSeverity = some .critical :=
  ⟨by decide,
    (strict_severity_tiers (exampleEnv 5 0 0)
      (exampleInputs bareExif 50 strictFallbackVerdict) (by decide)).1 (by decide)⟩

/-! ### Duplicate guard -/

theorem checkDuplicate_after_save (store : List ResolutionRecord) (rec : ResolutionRecord)
    (h : toLowerCase rec.worker_email = rec.worker_email) :
    checkDuplicateResolution (saveStrictResolution store rec) rec.report_id rec.worker_email =
      true := by
  unfold checkDuplicateResolution checkDuplicateResult selectDuplicates saveStrictResolution
  simp only [decide_eq_true_eq, List.length_take, gt_iff_lt, lt_min_iff, Nat.lt_one_iff,
    Nat.pos_of_ne_zero, List.filter_append, List.length_append, h]
  simp

/-- C8, at a failing input: worker email `Worker@City.gov` (authorized, since the worker
lookup lower-cases it) submits twice for report `r1`. The first submission is saved with
the email as typed; the duplicate check looks for the lower-cased email, finds nothing,
and the second submission is saved too: the table holds two rows for the pair. With the
email typed in lower case the second submission is rejected and one row is kept. -/
theorem duplicate_guard_misses_mixed_case_email :
    (strictVerifyResolution (exampleEnv 5 0 0) []
      (exampleSubmission "Worker@City.gov")).2.isCreated = true ∧
    checkDuplicateResolution
      (strictVerifyResolution (exampleEnv 5 0 0) []
        (exampleSubmission "Worker@City.gov")).1 "r1" "Worker@City.gov" = false ∧
    (strictVerifyResolution (exampleEnv 5 0 0)
      (strictVerifyResolution (exampleEnv 5 0 0) []
        (exampleSubmission "Worker@City.gov")).1
      (exampleSubmission "Worker@City.gov")).2.isCreated = true ∧
    countFor (strictVerifyResolution (exampleEnv 5 0 0)
      (strictVerifyResolution (exampleEnv 5 0 0) []
        (exampleSubmission "Worker@City.gov")).1
      (exampleSubmission "Worker@City.gov")).1 "r1" "Worker@City.gov" = 2 ∧
    (strictVerifyResolution (exampleEnv 5 0 0)
      (strictVerifyResolution (exampleEnv 5 0 0) []
        (exampleSubmission "worker@city.gov")).1
      (exampleSubmission "worker@city.gov")).2.isDuplicate = true ∧
    countFor (strictVerifyResolution (exampleEnv 5 0 0)
      (strictVerifyResolution (exampleEnv 5 0 0) []
        (exampleSubmission "worker@city.gov")).1
      (exampleSubmission "worker@city.gov")).1 "r1" "worker@city.gov" = 1 := by
  refine ⟨by decide, by decide, by decide, by decide, by decide, by decide⟩

/-! ### Fence stripping -/

theorem matchesAt_ext (ps : List (Char → Bool)) (A B C : List Char) (h : ps.length ≤ A.length) :
    matchesAt ps (A ++ B) = matchesAt ps (A ++ C) := by
  induction ps generalizing A with
  | nil => simp [matchesAt]
  | cons p ps ih =>
    cases A with
    | nil => simp at h
    | cons a A =>
      have := ih A (by simpa using h)
      simp [matchesAt, this]

theorem matchesAt_short (ps : List (Char → Bool)) (x : Char) (hx : ∀ p ∈ ps, p x = false)
    (A B : List Char) (h : matchesAt ps (A ++ x :: B) = true) : ps.length ≤ A.length := by
  induction ps generalizing A with
  | nil => simp
  | cons p ps ih =>
    cases A with
    | nil =>
      simp only [List.nil_append, matchesAt, Bool.and_eq_true] at h
      have := hx p (List.mem_cons_self _ _)
      rw [this] at h
      exact absurd h.1 (by simp)
    | cons a A =>
      simp only [List.cons_append, matchesAt, Bool.and_eq_true] at h
      have := ih (fun q hq => hx q (List.mem_cons_of_mem _ hq)) A h.2
      simpa using this

theorem matchesAt_brace (ps : List (Char → Bool)) (x : Char) (hx : ∀ p ∈ ps, p x = false)
    (A B : List Char) : matchesAt ps (A ++ x :: B) = matchesAt ps (A ++ [x]) := by
  by_cases h : matchesAt ps (A ++ x :: B) = true
  · exact matchesAt_ext ps A _ _ (matchesAt_short ps x hx A B h)
  · by_cases h2 : matchesAt ps (A ++ [x]) = true
    · have := matchesAt_ext ps A (x :: B) [x] (matchesAt_short ps x hx A [] h2)
      rw [this]
    · simp only [Bool.not_eq_true] at h h2
      rw [h, h2]

theorem matchesAt_head_false (ps : List (Char → Bool)) (hne : ps ≠ []) (x : Char)
    (hx : ∀ p ∈ ps, p x = false) (l : List Char) : matchesAt ps (x :: l) = false := by
  cases ps with
  | nil => exact absurd rfl hne
  | cons p ps =>
    simp only [matchesAt, hx p (List.mem_cons_self _ _), Bool.false_and]

/-- Scanning up to a closing brace that no match can contain: the scan of the part before
the brace does not depend on what follows it, and the scan resumes afresh after it. -/
theorem removeMatches_brace (ps : List (Char → Bool)) (hne : ps ≠ [])
    (hx : ∀ p ∈ ps, p '}' = false) (A : List Char) :
    ∀ (k : Nat) (e : Bool), k ≤ A.length →
      ∃ A1, ∀ B, removeMatches ps k e (A ++ '}' :: B) =
        A1 ++ '}' :: removeMatches ps 0 false B := by
  induction A with
  | nil =>
    intro k e hk
    have hk0 : k = 0 := by simpa using hk
    subst hk0
    refine ⟨[], fun B => ?_⟩
    have hs : isJsSpace '}' = false := by decide
    simp [removeMatches, hs, matchesAt_head_false ps hne '}' hx]
  | cons c cs ih =>
    intro k e hk
    cases k with
    | succ k =>
      obtain ⟨A1, h1⟩ := ih k e (by simpa using hk)
      exact ⟨A1, fun B => by simpa [removeMatches] using h1 B⟩
    | zero =>
      by_cases hsp : (e && isJsSpace c) = true
      · obtain ⟨A1, h1⟩ := ih 0 true (Nat.zero_le _)
        exact ⟨A1, fun B => by simpa [removeMatches, hsp] using h1 B⟩
      · by_cases hm : matchesAt ps (c :: cs ++ ['}']) = true
        · have hlen := matchesAt_short ps '}' hx (c :: cs) [] hm
          obtain ⟨A1, h1⟩ := ih (ps.length - 1) true (by simp at hlen; omega)
          refine ⟨A1, fun B => ?_⟩
          have hm2 : matchesAt ps (c :: (cs ++ '}' :: B)) = true := by
            have := matchesAt_brace ps '}' hx (c :: cs) B
            simp only [List.cons_append] at this hm
            rw [this, hm]
          rw [List.cons_append, removeMatches, if_neg hsp, if_pos hm2]
          exact h1 B
        · obtain ⟨A1, h1⟩ := ih 0 false (Nat.zero_le _)
          refine ⟨c :: A1, fun B => ?_⟩
          have hm2 : ¬ matchesAt ps (c :: (cs ++ '}' :: B)) = true := by
            have := matchesAt_brace ps '}' hx (c :: cs) B
            simp only [List.cons_append] at this hm
            rw [this]
            exact hm
          rw [List.cons_append, removeMatches, if_neg hsp, if_neg hm2, h1 B]
          rfl
theorem removeMatches_open (ps : List (Char → Bool))
    (hhead : ∀ c l, matchesAt ps (c :: l) = true → c = '`') (e : Bool) (l : List Char) :
    removeMatches ps 0 e ('{' :: l) = '{' :: removeMatches ps 0 false l := by
  have hs : ¬ (e && isJsSpace '{') = true := by
    have : isJsSpace '{' = false := by decide
    simp [this]
  have hm : ¬ matchesAt ps ('{' :: l) = true := fun h => absurd (hhead _ _ h) (by decide)
  rw [removeMatches, if_neg hs, if_neg hm]

theorem removeMatches_eat (ps : List (Char → Bool)) (ws l : List Char)
    (hws : ∀ c ∈ ws, isJsSpace c = true) :
    removeMatches ps 0 true (ws ++ l) = removeMatches ps 0 true l := by
  induction ws with
  | nil => rfl
  | cons c cs ih =>
    have hc : (true && isJsSpace c) = true := by simp [hws c (List.mem_cons_self _ _)]
    rw [List.cons_append, removeMatches, if_pos hc]
    exact ih (fun d hd => hws d (List.mem_cons_of_mem _ hd))

theorem isJsSpace_ne_backtick (c : Char) (h : isJsSpace c = true) : c ≠ '`' := by
  intro hc
  subst hc
  exact absurd h (by decide)

theorem isJsSpace_ne_brace (c : Char) (h : isJsSpace c = true) : c ≠ '}' := by
  intro hc
  subst hc
  exact absurd h (by decide)

theorem removeMatches_spaces (ps : List (Char → Bool))
    (hhead : ∀ c l, matchesAt ps (c :: l) = true → c = '`') (ws l : List Char)
    (hws : ∀ c ∈ ws, isJsSpace c = true) :
    removeMatches ps 0 false (ws ++ l) = ws ++ removeMatches ps 0 false l := by
  induction ws with
  | nil => rfl
  | cons c cs ih =>
    have hc : ¬ (false && isJsSpace c) = true := by simp
    have hm : ¬ matchesAt ps (c :: (cs ++ l)) = true := fun h =>
      isJsSpace_ne_backtick c (hws c (List.mem_cons_self _ _)) (hhead _ _ h)
    rw [List.cons_append, removeMatches, if_neg hc, if_neg hm,
      ih (fun d hd => hws d (List.mem_cons_of_mem _ hd))]
    rfl

theorem dropWhile_leading (p : Char → Bool) (ws : List Char) (x : Char) (l : List Char)
    (hws : ∀ c ∈ ws, p c = true) (hx : p x = false) :
    (ws ++ x :: l).dropWhile p = x :: l := by
  induction ws with
  | nil => simp [List.dropWhile, hx]
  | cons c cs ih =>
    rw [List.cons_append, List.dropWhile_cons_of_pos (hws c (List.mem_cons_self _ _))]
    exact ih (fun d hd => hws d (List.mem_cons_of_mem _ hd))

theorem jsTrim_framed (ws1 ws2 M : List Char) (a b : Char)
    (h1 : ∀ c ∈ ws1, isJsSpace c = true) (h2 : ∀ c ∈ ws2, isJsSpace c = true)
    (ha : isJsSpace a = false) (hb : isJsSpace b = false) :
    jsTrim (ws1 ++ a :: (M ++ b :: ws2)) = a :: (M ++ [b]) := by
  unfold jsTrim
  rw [dropWhile_leading isJsSpace ws1 a _ h1 ha]
  have hr : (a :: (M ++ b :: ws2)).reverse = ws2.reverse ++ b :: (M.reverse ++ [a]) := by
    simp
  rw [hr, dropWhile_leading isJsSpace ws2.reverse b _ (fun c hc => h2 c (List.mem_reverse.mp hc))
    hb]
  simp

theorem matchObject_framed (M W : List Char) (hW : ∀ c ∈ W, c ≠ '}') :
    matchObject ('{' :: (M ++ '}' :: W)) = some ('{' :: (M ++ ['}'])) := by
  unfold matchObject
  have h0 : ('{' :: (M ++ '}' :: W)).dropWhile (fun c => c != '{') = '{' :: (M ++ '}' :: W) := by
    simp [List.dropWhile]
  rw [h0]
  have hc : (M ++ '}' :: W).contains '}' = true := by simp
  simp only [hc, if_true]
  have hr : (M ++ '}' :: W).reverse = W.reverse ++ '}' :: M.reverse := by simp
  rw [hr, dropWhile_leading (fun c => c != '}') W.reverse '}' _
    (fun c hc => by simpa using hW c (List.mem_reverse.mp hc)) (by simp)]
  simp

theorem jsonFencePattern_head (c : Char) (l : List Char)
    (h : matchesAt jsonFencePattern (c :: l) = true) : c = '`' := by
  simp only [jsonFencePattern, matchesAt, Bool.and_eq_true, isBacktick, beq_iff_eq] at h
  exact h.1

theorem fencePattern_head (c : Char) (l : List Char)
    (h : matchesAt fencePattern (c :: l) = true) : c = '`' := by
  simp only [fencePattern, matchesAt, Bool.and_eq_true, isBacktick, beq_iff_eq] at h
  exact h.1

theorem jsonFencePattern_brace : ∀ p ∈ jsonFencePattern, p '}' = false := by
  decide

theorem fencePattern_brace : ∀ p ∈ fencePattern, p '}' = false := by
  decide
theorem removeMatches_skip (ps : List (Char → Bool)) (e : Bool) (pre rest : List Char) :
    removeMatches ps pre.length e (pre ++ rest) = removeMatches ps 0 e rest := by
  induction pre with
  | nil => rfl
  | cons c cs ih =>
    rw [List.cons_append, List.length_cons, removeMatches]
    exact ih

/-- The cleaning steps before the object match, on a text that is an opening brace, a
body and a closing brace up to surrounding whitespace, bare and inside a json fence: the
same stripped object, followed in the fenced case by the whitespace left over. -/
theorem strip_framed (ws1 ws2 M : List Char)
    (h1 : ∀ c ∈ ws1, isJsSpace c = true) (h2 : ∀ c ∈ ws2, isJsSpace c = true) :
    ∃ M2,
      removeFences (removeJsonFences (jsTrim (ws1 ++ '{' :: (M ++ '}' :: ws2)))) =
        '{' :: (M2 ++ ['}']) ∧
      removeFences (removeJsonFences (jsTrim
        (['`', '`', '`', 'j', 's', 'o', 'n', '\n'] ++ (ws1 ++ '{' :: (M ++ '}' :: ws2)) ++
          ['\n', '`', '`', '`']))) =
        '{' :: (M2 ++ '}' :: (ws2 ++ ['\n'])) := by
  obtain ⟨M1, hM1⟩ := removeMatches_brace jsonFencePattern (by simp [jsonFencePattern])
    jsonFencePattern_brace M 0 false (Nat.zero_le _)
  obtain ⟨M2, hM2⟩ := removeMatches_brace fencePattern (by simp [fencePattern])
    fencePattern_brace M1 0 false (Nat.zero_le _)
  have hnil : ∀ ps, removeMatches ps 0 false [] = [] := fun ps => by simp [removeMatches]
  refine ⟨M2, ?_, ?_⟩
  · rw [jsTrim_framed ws1 ws2 M '{' '}' h1 h2 (by decide) (by decide)]
    unfold removeJsonFences removeFences
    rw [removeMatches_open _ jsonFencePattern_head, hM1 [], hnil,
      removeMatches_open _ fencePattern_head, hM2 [], hnil]
  · have hF : ['`', '`', '`', 'j', 's', 'o', 'n', '\n'] ++ (ws1 ++ '{' :: (M ++ '}' :: ws2)) ++
          ['\n', '`', '`', '`'] =
        [] ++ '`' :: ((['`', '`', 'j', 's', 'o', 'n', '\n'] ++
          (ws1 ++ '{' :: (M ++ '}' :: ws2)) ++ ['\n', '`', '`']) ++ '`' :: []) := by
      simp
    have hT : jsTrim (['`', '`', '`', 'j', 's', 'o', 'n', '\n'] ++
        (ws1 ++ '{' :: (M ++ '}' :: ws2)) ++ ['\n', '`', '`', '`']) =
        '`' :: '`' :: '`' :: 'j' :: 's' :: 'o' :: 'n' ::
          (('\n' :: ws1) ++ '{' :: (M ++ '}' :: (ws2 ++ ['\n', '`', '`', '`']))) := by
      rw [hF, jsTrim_framed [] [] _ '`' '`' (by simp) (by simp) (by decide) (by decide)]
      simp
    rw [hT]
    have hJ : removeJsonFences ('`' :: '`' :: '`' :: 'j' :: 's' :: 'o' :: 'n' ::
          (('\n' :: ws1) ++ '{' :: (M ++ '}' :: (ws2 ++ ['\n', '`', '`', '`'])))) =
        '{' :: (M1 ++ '}' :: (ws2 ++ ['\n', '`', '`', '`'])) := by
      unfold removeJsonFences
      have hm : matchesAt jsonFencePattern ('`' :: '`' :: '`' :: 'j' :: 's' :: 'o' :: 'n' ::
          (('\n' :: ws1) ++ '{' :: (M ++ '}' :: (ws2 ++ ['\n', '`', '`', '`'])))) = true := by
        rfl
      rw [removeMatches, if_neg (by simp), if_pos hm]
      have hskip := removeMatches_skip jsonFencePattern true ['`', '`', 'j', 's', 'o', 'n']
        (('\n' :: ws1) ++ '{' :: (M ++ '}' :: (ws2 ++ ['\n', '`', '`', '`'])))
      have hlen : jsonFencePattern.length - 1 = ['`', '`', 'j', 's', 'o', 'n'].length := rfl
      rw [hlen]
      refine Eq.trans hskip ?_
      rw [removeMatches_eat _ ('\n' :: ws1) _ (by
          intro c hc
          rcases List.mem_cons.mp hc with h | h
          · subst h; decide
          · exact h1 c h),
        removeMatches_open _ jsonFencePattern_head, hM1,
        removeMatches_spaces _ jsonFencePattern_head ws2 _ h2]
      rfl
    rw [hJ]
    unfold removeFences
    rw [removeMatches_open _ fencePattern_head, hM2,
      removeMatches_spaces _ fencePattern_head ws2 _ h2]
    rfl

/-- The text handed to `JSON.parse` is the same for a fenced object text and the bare one. -/
theorem cleanResponseText_fenced (J : String) (ws1 ws2 M : List Char)
    (hJ : J.data = ws1 ++ '{' :: (M ++ '}' :: ws2))
    (h1 : ∀ c ∈ ws1, isJsSpace c = true) (h2 : ∀ c ∈ ws2, isJsSpace c = true) :
    cleanResponseText ("```json\n" ++ J ++ "\n```") = cleanResponseText J := by
  obtain ⟨M2, hb, hf⟩ := strip_framed ws1 ws2 M h1 h2
  have hd : ("```json\n" ++ J ++ "\n```").data =
      ['`', '`', '`', 'j', 's', 'o', 'n', '\n'] ++ (ws1 ++ '{' :: (M ++ '}' :: ws2)) ++
        ['\n', '`', '`', '`'] := by
    rw [String.data_append, String.data_append, hJ]
  unfold cleanResponseText
  simp only [hd, hJ, hb, hf]
  rw [matchObject_framed M2 (ws2 ++ ['\n']) (by
    intro c hc
    rcases List.mem_append.mp hc with h | h
    · exact isJsSpace_ne_brace c (h2 c h)
    · simp at h; subst h; decide)]
  rw [matchObject_framed M2 [] (by simp)]
/-- C9: fenced and bare oracle responses parse identically. For every text `J` that is,
up to surrounding whitespace, an opening brace, a body and a closing brace (every JSON
object text is), `parseStrictVerificationResponse` and `parseVerificationResponse` applied
to the text wrapped in a json fence return what they return on `J`, whatever `JSON.parse`
does. -/
theorem fenced_response_parses_like_bare (jsonParse : String → Option JsVal) (J : String)
    (ws1 ws2 M : List Char) (hJ : J.data = ws1 ++ '{' :: (M ++ '}' :: ws2))
    (h1 : ∀ c ∈ ws1, isJsSpace c = true) (h2 : ∀ c ∈ ws2, isJsSpace c = true) :
    parseStrictVerificationResponse jsonParse ("```json\n" ++ J ++ "\n```") =
      parseStrictVerificationResponse jsonParse J ∧
    parseVerificationResponse jsonParse ("```json\n" ++ J ++ "\n```") =
      parseVerificationResponse jsonParse J := by
  unfold parseStrictVerificationResponse parseVerificationResponse
  rw [cleanResponseText_fenced J ws1 ws2 M hJ h1 h2]
  exact ⟨rfl, rfl⟩

/-- C9 at a plain verdict text with a leading space and a trailing line break. -/
theorem fenced_response_parses_like_bare_witness :
    parseStrictVerificationResponse jsonParseFlat ("```json\n" ++ plainVerdictText ++ "\n```") =
      parseStrictVerificationResponse jsonParseFlat plainVerdictText ∧
    parseVerificationResponse jsonParseFlat ("```json\n" ++ plainVerdictText ++ "\n```") =
      parseVerificationResponse jsonParseFlat plainVerdictText ∧
    ((parseStrictVerificationResponse jsonParseFlat
      ("```json\n" ++ plainVerdictText ++ "\n```")).get "analysis_summary").asString? =
      some "pothole filled" :=
  have h := fenced_response_parses_like_bare jsonParseFlat plainVerdictText [' '] ['\n']
    ((plainVerdictText.data.drop 2).take (plainVerdictText.data.length - 4))
    (by decide!) (by decide) (by decide)
  ⟨h.1, h.2, by decide!⟩

theorem matchesAt_append (ps : List (Char → Bool)) (A B : List Char)
    (h : matchesAt ps A = true) : matchesAt ps (A ++ B) = true := by
  induction ps generalizing A with
  | nil => simp [matchesAt]
  | cons p ps ih =>
    cases A with
    | nil => simp [matchesAt] at h
    | cons a A =>
      simp only [matchesAt, Bool.and_eq_true] at h
      simp [matchesAt, h.1, ih A h.2]

theorem hasFence_append_right (A B : List Char) (h : hasFence (A ++ B) = false) :
    hasFence B = false := by
  induction A with
  | nil => exact h
  | cons a A ih =>
    simp only [List.cons_append, hasFence, Bool.or_eq_false_iff] at h
    exact ih h.2

theorem hasFence_append_left (A B : List Char) (h : hasFence (A ++ B) = false) :
    hasFence A = false := by
  induction A with
  | nil => rfl
  | cons a A ih =>
    simp only [List.cons_append, hasFence, Bool.or_eq_false_iff] at h ⊢
    refine ⟨?_, ih h.2⟩
    cases hm : matchesAt fencePattern (a :: A) with
    | false => rfl
    | true =>
      have := matchesAt_append fencePattern (a :: A) B hm
      exact absurd (this.symm.trans h.1) (by simp)

theorem jsonFence_is_fence (t : List Char) (h : matchesAt jsonFencePattern t = true) :
    matchesAt fencePattern t = true := by
  rcases t with _ | ⟨a, _ | ⟨b, _ | ⟨c, t⟩⟩⟩ <;>
    simp_all [jsonFencePattern, fencePattern, matchesAt]

theorem removeMatches_no_fence (ps : List (Char → Bool))
    (hsub : ∀ t, matchesAt ps t = true → matchesAt fencePattern t = true) (l : List Char)
    (h : hasFence l = false) : removeMatches ps 0 false l = l := by
  induction l with
  | nil => simp [removeMatches]
  | cons c cs ih =>
    simp only [hasFence, Bool.or_eq_false_iff] at h
    have hm : ¬ matchesAt ps (c :: cs) = true := fun hm => by
      have := hsub _ hm
      rw [h.1] at this
      exact absurd this (by simp)
    rw [removeMatches, if_neg (by simp), if_neg hm, ih h.2]

/-- A text without three backticks in a row is handed to `JSON.parse` as it is, minus the
surrounding whitespace. -/
theorem cleanResponseText_no_fence (J : String) (ws1 ws2 M : List Char)
    (hJ : J.data = ws1 ++ '{' :: (M ++ '}' :: ws2))
    (h1 : ∀ c ∈ ws1, isJsSpace c = true) (h2 : ∀ c ∈ ws2, isJsSpace c = true)
    (hnf : hasFence J.data = false) :
    cleanResponseText J = String.mk ('{' :: (M ++ ['}'])) := by
  have hT : hasFence ('{' :: (M ++ ['}'])) = false := by
    rw [hJ] at hnf
    have h3 := hasFence_append_right ws1 _ hnf
    have h4 : '{' :: (M ++ '}' :: ws2) = ('{' :: (M ++ ['}'])) ++ ws2 := by simp
    rw [h4] at h3
    exact hasFence_append_left _ ws2 h3
  unfold cleanResponseText
  simp only [hJ]
  rw [jsTrim_framed ws1 ws2 M '{' '}' h1 h2 (by decide) (by decide)]
  unfold removeJsonFences removeFences
  rw [removeMatches_no_fence jsonFencePattern jsonFence_is_fence _ hT,
    removeMatches_no_fence fencePattern (fun _ h => h) _ hT,
    matchObject_framed M [] (by simp)]

/-- C10, as stated, fails: in a valid verdict text whose `suspicion_reason` string
contains three backticks in a row, the cleaning removes them (and the whitespace after
them) from inside the string, so the parsed `suspicion_reason` differs from the one the
text denotes. -/
theorem fence_stripping_alters_string_field :
    (jsonParseFlat fencedReasonText).map validateStrictVerificationStructure = some true ∧
    (jsonParseFlat fencedReasonText).map (fun v => (v.get "suspicion_reason").asString?) =
      some (some "sign reads ```closed``` today") ∧
    ((parseStrictVerificationResponse jsonParseFlat fencedReasonText).get
      "suspicion_reason").asString? = some "sign reads closedtoday" ∧
    ((parseVerificationResponse jsonParseFlat fencedReasonText).get
      "suspicion_reason").asString? = some "sign reads closedtoday" := by
  refine ⟨by decide!, by decide!, by decide!, by decide!⟩

/-- C10, amended: for every object text `J` (an opening brace, a body and a closing brace
up to surrounding whitespace) that contains no three backticks in a row, the text that
`parseStrictVerificationResponse` and `parseVerificationResponse` hand to `JSON.parse` is
`J` without its surrounding whitespace, character for character, so the parsed result is
the object `J` denotes. -/
theorem fence_stripping_keeps_fence_free_text (jsonParse : String → Option JsVal)
    (J : String) (ws1 ws2 M : List Char)
    (hJ : J.data = ws1 ++ '{' :: (M ++ '}' :: ws2))
    (h1 : ∀ c ∈ ws1, isJsSpace c = true) (h2 : ∀ c ∈ ws2, isJsSpace c = true)
    (hnf : hasFence J.data = false) :
    cleanResponseText J = String.mk ('{' :: (M ++ ['}'])) ∧
    parseStrictVerificationResponse jsonParse J =
      (jsonParse (String.mk ('{' :: (M ++ ['}'])))).getD getStrictFallbackVerification ∧
    parseVerificationResponse jsonParse J =
      (jsonParse (String.mk ('{' :: (M ++ ['}'])))).getD getFallbackVerification := by
  have h := cleanResponseText_no_fence J ws1 ws2 M hJ h1 h2 hnf
  unfold parseStrictVerificationResponse parseVerificationResponse
  rw [h]
  refine ⟨rfl, ?_, ?_⟩ <;> cases jsonParse (String.mk ('{' :: (M ++ ['}']))) <;> rfl

/-- C10, amended, at a plain verdict text: the parsed fields are those of the text. -/
theorem fence_stripping_keeps_fence_free_text_witness :
    hasFence plainVerdictText.data = false ∧
    cleanResponseText plainVerdictText =
      String.mk ((plainVerdictText.data.drop 1).take (plainVerdictText.data.length - 2)) ∧
    ((parseStrictVerificationResponse jsonParseFlat plainVerdictText).get
      "analysis_summary").asString? = some "pothole filled" :=
  have h := fence_stripping_keeps_fence_free_text jsonParseFlat plainVerdictText [' '] ['\n']
    ((plainVerdictText.data.drop 2).take (plainVerdictText.data.length - 4))
    (by decide!) (by decide) (by decide) (by decide!)
  ⟨by decide!, h.1.trans (by decide!), by decide!⟩


theorem fenceAt_cons_ne (c : Char) (l : List Char) (hc : c ≠ '`') :
    matchesAt fencePattern (c :: l) = false := by
  simp [fencePattern, matchesAt, isBacktick, hc]

theorem removeFences_emit (c : Char) (l : List Char) (hc : c ≠ '`') :
    removeMatches fencePattern 0 false (c :: l) = c :: removeMatches fencePattern 0 false l := by
  rw [removeMatches, if_neg (by simp), if_neg (by simp [fenceAt_cons_ne c l hc])]

theorem fenceAt_after_emit (c : Char) (cs : List Char)
    (h : ¬ matchesAt fencePattern (c :: cs) = true) :
    matchesAt fencePattern (c :: removeMatches fencePattern 0 false cs) = false := by
  by_cases hc : c = '`'
  · subst hc
    cases cs with
    | nil => simp [removeMatches, matchesAt, fencePattern]
    | cons d ds =>
      by_cases hd : d = '`'
      · subst hd
        cases ds with
        | nil =>
          have : removeMatches fencePattern 0 false ['`'] = ['`'] := by
            simp [removeMatches, matchesAt, fencePattern]
          rw [this]
          simp [matchesAt, fencePattern]
        | cons x xs =>
          have hx : x ≠ '`' := by
            intro hx
            subst hx
            exact h (by simp [matchesAt, fencePattern, isBacktick])
          have h2 : ¬ matchesAt fencePattern ('`' :: x :: xs) = true := by
            simp [matchesAt, fencePattern, isBacktick, hx]
          rw [removeMatches, if_neg (by simp), if_neg h2, removeFences_emit x xs hx]
          simp [matchesAt, fencePattern, isBacktick, hx]
      · rw [removeFences_emit d ds hd]
        simp [matchesAt, fencePattern, isBacktick, hd]
  · exact fenceAt_cons_ne c _ hc

/-- The text left by `replace(/```\s*/g, '')` contains no three backticks in a row. -/
theorem removeMatches_fence_free (l : List Char) :
    ∀ (k : Nat) (e : Bool), hasFence (removeMatches fencePattern k e l) = false := by
  induction l with
  | nil =>
    intro k e
    cases k <;> simp [removeMatches, hasFence]
  | cons c cs ih =>
    intro k e
    cases k with
    | succ k =>
      rw [removeMatches]
      exact ih k e
    | zero =>
      rw [removeMatches]
      split
      · exact ih 0 true
      · split
        · exact ih _ true
        · rename_i h1 h2
          rw [hasFence, fenceAt_after_emit c cs h2, ih 0 false]
          rfl
theorem dropWhile_cons_split (p : Char → Bool) (l : List Char) (x : Char) (r : List Char)
    (h : l.dropWhile p = x :: r) : p x = false ∧ l = l.takeWhile p ++ x :: r := by
  induction l with
  | nil => simp at h
  | cons a as ih =>
    by_cases ha : p a = true
    · rw [List.dropWhile_cons_of_pos ha] at h
      obtain ⟨h1, h2⟩ := ih h
      refine ⟨h1, ?_⟩
      rw [List.takeWhile_cons_of_pos ha, List.cons_append, ← h2]
    · rw [List.dropWhile_cons_of_neg ha] at h
      cases h
      refine ⟨by simpa using ha, ?_⟩
      rw [List.takeWhile_cons_of_neg ha]
      rfl

theorem jsTrim_split (l : List Char) : ∃ ws1 ws2, l = ws1 ++ (jsTrim l ++ ws2) := by
  refine ⟨l.takeWhile isJsSpace,
    ((l.dropWhile isJsSpace).reverse.takeWhile isJsSpace).reverse, ?_⟩
  unfold jsTrim
  rw [← List.reverse_append, List.takeWhile_append_dropWhile, List.reverse_reverse,
    List.takeWhile_append_dropWhile]

theorem matchObject_some (l m : List Char) (h : matchObject l = some m) :
    ∃ pre M W, l = pre ++ '{' :: (M ++ '}' :: W) ∧ m = '{' :: (M ++ ['}']) := by
  unfold matchObject at h
  split at h
  · cases h
  · rename_i x rest hd
    obtain ⟨hx, hl⟩ := dropWhile_cons_split _ l x rest hd
    have hx2 : x = '{' := by simpa using hx
    subst hx2
    split at h
    · rename_i hc
      cases h
      cases hr : rest.reverse.dropWhile (fun c => c != '}') with
      | nil =>
        have hmem : '}' ∈ rest.reverse := by simpa using hc
        have : ∀ c ∈ rest.reverse, (c != '}') = true := by
          intro c hcm
          by_contra hcon
          have := List.dropWhile_eq_nil_iff.mp hr c hcm
          exact hcon this
        have := this '}' hmem
        simp at this
      | cons y R =>
        obtain ⟨hy, hsplit⟩ := dropWhile_cons_split _ rest.reverse y R hr
        have hy2 : y = '}' := by simpa using hy
        subst hy2
        refine ⟨l.takeWhile (fun c => c != '{'), R.reverse,
          (rest.reverse.takeWhile (fun c => c != '}')).reverse, ?_, ?_⟩
        · have hrest : rest = R.reverse ++ '}' ::
              (rest.reverse.takeWhile (fun c => c != '}')).reverse := by
            have := congrArg List.reverse hsplit
            simpa using this
          rw [← hrest]
          exact hl
        · simp
    · cases h

theorem matchObject_isSome (A Y : List Char) (h : '}' ∈ Y) :
    matchObject (A ++ '{' :: Y) ≠ none := by
  have key : ∀ A : List Char, ∃ rest, (A ++ '{' :: Y).dropWhile (fun c => c != '{') =
      '{' :: rest ∧ '}' ∈ rest := by
    intro A
    induction A with
    | nil => exact ⟨Y, by simp [List.dropWhile], h⟩
    | cons a A ih =>
      by_cases ha : a = '{'
      · subst ha
        exact ⟨A ++ '{' :: Y, by simp [List.dropWhile], by simp [h]⟩
      · obtain ⟨rest, h1, h2⟩ := ih
        refine ⟨rest, ?_, h2⟩
        rw [List.cons_append, List.dropWhile_cons_of_pos (by simpa using ha)]
        exact h1
  obtain ⟨rest, h1, h2⟩ := key A
  unfold matchObject
  rw [h1]
  have hc : rest.contains '}' = true := by simpa using h2
  simp only [hc, if_true]
  exact fun hcon => Option.noConfusion hcon

theorem matchObject_jsTrim_none (l : List Char) (h : matchObject l = none) :
    matchObject (jsTrim l) = none := by
  cases hm : matchObject (jsTrim l) with
  | none => rfl
  | some m =>
    obtain ⟨pre, M, W, hl, _⟩ := matchObject_some _ m hm
    obtain ⟨ws1, ws2, hsplit⟩ := jsTrim_split l
    rw [hl] at hsplit
    have : l = (ws1 ++ pre) ++ '{' :: (M ++ '}' :: (W ++ ws2)) := by
      rw [hsplit]
      simp
    rw [this] at h
    exact absurd h (matchObject_isSome _ _ (by simp))

/-- Cleaning an already cleaned text only trims it; when the first cleaning found an
object span the text is left as it is. -/
theorem cleanResponseText_twice (t : String) :
    cleanResponseText (cleanResponseText t) = String.mk (jsTrim (cleanResponseText t).data) ∧
    (matchObject (removeFences (removeJsonFences (jsTrim t.data))) ≠ none →
      cleanResponseText (cleanResponseText t) = cleanResponseText t) := by
  have hff : hasFence (removeFences (removeJsonFences (jsTrim t.data))) = false :=
    removeMatches_fence_free _ 0 false
  cases hm : matchObject (removeFences (removeJsonFences (jsTrim t.data))) with
  | some m =>
    obtain ⟨pre, M, W, hl, hmM⟩ := matchObject_some _ m hm
    have hclean : cleanResponseText t = String.mk m := by
      unfold cleanResponseText
      simp only [hm]
    have hfm : hasFence ('{' :: (M ++ ['}'])) = false := by
      rw [hl] at hff
      have h3 := hasFence_append_right pre _ hff
      have h4 : '{' :: (M ++ '}' :: W) = ('{' :: (M ++ ['}'])) ++ W := by simp
      rw [h4] at h3
      exact hasFence_append_left _ W h3
    have hidem := cleanResponseText_no_fence (String.mk m) [] [] M (by simp [hmM])
      (by simp) (by simp) (by simpa [hmM] using hfm)
    have htrim : jsTrim m = m := by
      rw [hmM]
      exact jsTrim_framed [] [] M '{' '}' (by simp) (by simp) (by decide) (by decide)
    rw [hclean, hidem, ← hmM]
    exact ⟨by simp [htrim], fun _ => rfl⟩
  | none =>
    have hclean : cleanResponseText t =
        String.mk (removeFences (removeJsonFences (jsTrim t.data))) := by
      unfold cleanResponseText
      simp only [hm]
    refine ⟨?_, fun h => absurd rfl h⟩
    rw [hclean]
    obtain ⟨ws1, ws2, hsplit⟩ := jsTrim_split (removeFences (removeJsonFences (jsTrim t.data)))
    have hft : hasFence (jsTrim (removeFences (removeJsonFences (jsTrim t.data)))) = false := by
      rw [hsplit] at hff
      exact hasFence_append_left _ ws2 (hasFence_append_right ws1 _ hff)
    unfold cleanResponseText
    simp only []
    have e1 : removeJsonFences (jsTrim (removeFences (removeJsonFences (jsTrim t.data)))) =
        jsTrim (removeFences (removeJsonFences (jsTrim t.data))) :=
      removeMatches_no_fence jsonFencePattern jsonFence_is_fence _ hft
    have e2 : removeFences (jsTrim (removeFences (removeJsonFences (jsTrim t.data)))) =
        jsTrim (removeFences (removeJsonFences (jsTrim t.data))) :=
      removeMatches_no_fence fencePattern (fun _ h => h) _ hft
    rw [e1, e2, matchObject_jsTrim_none _ hm]

theorem JsNum.score_ok_iff (n : JsNum) (hn : n ≠ .nan) :
    (JsNum.lt n 0 || JsNum.gt n 100) = false ↔
      (JsNum.le 0 n = true ∧ JsNum.le n 100 = true) := by
  have e0 : (0 : JsNum) = JsNum.fin 0 := by
    show JsNum.fin ((0 : ℕ) : ℚ) = JsNum.fin 0
    simp
  have e100 : (100 : JsNum) = JsNum.fin 100 := by
    show JsNum.fin ((100 : ℕ) : ℚ) = JsNum.fin 100
    simp
  rw [e0, e100]
  cases n with
  | nan => exact absurd rfl hn
  | negInf => simp [JsNum.lt, JsNum.gt, JsNum.le]
  | posInf => simp [JsNum.lt, JsNum.gt, JsNum.le]
  | fin q => simp [JsNum.lt, JsNum.gt, JsNum.le]

theorem JsVal.badScore_false_iff (x : JsVal) (hx : x ≠ .num .nan) :
    x.badScore = false ↔
      ∃ n, x = .num n ∧ JsNum.le 0 n = true ∧ JsNum.le n 100 = true := by
  cases x with
  | num n =>
    have hn : n ≠ .nan := fun h => hx (by rw [h])
    simp only [JsVal.badScore, JsNum.score_ok_iff n hn]
    constructor
    · intro h
      exact ⟨n, rfl, h⟩
    · rintro ⟨m, hm, h⟩
      cases hm
      exact h
  | undefined => simp [JsVal.badScore]
  | null => simp [JsVal.badScore]
  | bool b => simp [JsVal.badScore]
  | str s => simp [JsVal.badScore]
  | arr a => simp [JsVal.badScore]
  | obj o => simp [JsVal.badScore]

theorem JsVal.isBoolean_iff (x : JsVal) : x.isBoolean = true ↔ ∃ b, x = .bool b := by
  cases x <;> simp [JsVal.isBoolean]

theorem JsVal.hasField_obj (v : JsVal) (f : String) (h : v.hasField f = true) :
    ∃ fields, v = .obj fields := by
  cases v <;> simp [JsVal.hasField] at h
  exact ⟨_, rfl⟩

theorem validateStrict_iff (v : JsVal)
    (h1 : v.get "visual_consistency_score" ≠ .num .nan)
    (h2 : v.get "resolution_confidence" ≠ .num .nan) :
    validateStrictVerificationStructure v = true ↔
      ((∃ fields, v = .obj fields) ∧
        (∀ f ∈ strictRequiredFields, v.hasField f = true) ∧
        (∃ b, v.get "same_location" = .bool b) ∧
        (∃ b, v.get "issue_resolved" = .bool b) ∧
        (∃ b, v.get "fake_detected" = .bool b) ∧
        (∃ b, v.get "suspicious" = .bool b) ∧
        (∃ n, v.get "visual_consistency_score" = .num n ∧
          JsNum.le 0 n = true ∧ JsNum.le n 100 = true) ∧
        (∃ n, v.get "resolution_confidence" = .num n ∧
          JsNum.le 0 n = true ∧ JsNum.le n 100 = true)) := by
  rw [← JsVal.badScore_false_iff _ h1, ← JsVal.badScore_false_iff _ h2,
    ← JsVal.isBoolean_iff, ← JsVal.isBoolean_iff, ← JsVal.isBoolean_iff, ← JsVal.isBoolean_iff]
  unfold validateStrictVerificationStructure
  constructor
  · intro h
    split at h
    · cases h
    · rename_i h0
      split at h
      · cases h
      · rename_i hf
        simp only [List.any_eq_true, Bool.not_eq_true', not_exists, not_and,
          Bool.not_eq_false] at hf
        have hobj := JsVal.hasField_obj v "same_location" (hf _ (by simp [strictRequiredFields]))
        refine ⟨hobj, hf, ?_⟩
        revert h
        cases (v.get "same_location").isBoolean <;> cases (v.get "issue_resolved").isBoolean <;>
          cases (v.get "fake_detected").isBoolean <;> cases (v.get "suspicious").isBoolean <;>
          cases (v.get "visual_consistency_score").badScore <;>
          cases (v.get "resolution_confidence").badScore <;> simp
  · rintro ⟨⟨fields, hv⟩, hf, a, b, c, d, e, f⟩
    have h0 : ¬ ((!v.truthy || !v.isObjectType) = true) := by
      rw [hv]
      simp [JsVal.truthy, JsVal.isObjectType]
    have hf2 : ¬ (strictRequiredFields.any (fun field => !v.hasField field) = true) := by
      simp only [List.any_eq_true, Bool.not_eq_true', not_exists, not_and, Bool.not_eq_false]
      exact hf
    rw [if_neg h0, if_neg hf2]
    simp [a, b, c, d, e, f]

/-- C11, as stated, fails: a fenced answer without a JSON object is cleaned to a text that
still ends with the line break left before the closing fence, and cleaning that text
again trims it, so the second application changes the output. -/
theorem fence_stripping_not_idempotent_on_prose :
    cleanResponseText proseResponseText = "Unable to compare the images.\n" ∧
    cleanResponseText (cleanResponseText proseResponseText) =
      "Unable to compare the images." ∧
    cleanResponseText (cleanResponseText proseResponseText) ≠
      cleanResponseText proseResponseText := by
  refine ⟨by decide!, by decide!, by decide!⟩

/-- C11, amended: the cleaning step of `parseStrictVerificationResponse` is idempotent on
every response text in which it finds a span from an opening brace to a later closing
brace (in particular on every JSON object text, bare or fenced): applying it to its own
output returns that output unchanged. On any other text a second application returns the
output trimmed. -/
theorem fence_stripping_idempotent_on_objects (t : String) :
    (matchObject (removeFences (removeJsonFences (jsTrim t.data))) ≠ none →
      cleanResponseText (cleanResponseText t) = cleanResponseText t) ∧
    (∀ ws1 ws2 M : List Char, t.data = ws1 ++ '{' :: (M ++ '}' :: ws2) →
      (∀ c ∈ ws1, isJsSpace c = true) → (∀ c ∈ ws2, isJsSpace c = true) →
      cleanResponseText (cleanResponseText t) = cleanResponseText t ∧
      cleanResponseText (cleanResponseText ("```json\n" ++ t ++ "\n```")) =
        cleanResponseText ("```json\n" ++ t ++ "\n```")) ∧
    cleanResponseText (cleanResponseText t) =
      String.mk (jsTrim (cleanResponseText t).data) := by
  refine ⟨(cleanResponseText_twice t).2, ?_, (cleanResponseText_twice t).1⟩
  intro ws1 ws2 M ht h1 h2
  obtain ⟨M2, hb, _⟩ := strip_framed ws1 ws2 M h1 h2
  have hbare : cleanResponseText (cleanResponseText t) = cleanResponseText t := by
    apply (cleanResponseText_twice t).2
    rw [ht, hb, matchObject_framed M2 [] (by simp)]
    exact fun h => Option.noConfusion h
  refine ⟨hbare, ?_⟩
  rw [cleanResponseText_fenced t ws1 ws2 M ht h1 h2]
  exact hbare

/-- C12: verdict schema validation. For every parsed value (a value of `JSON.parse`, so
its scores are not NaN), `validateStrictVerificationStructure` returns true exactly when
the value is an object in which all eight required fields are present, the four flags are
booleans, and the two scores are numbers within 0 to 100 inclusive; and
`strictVerifyWithGemini` returns the parsed verdict when it passes this validation and the
fallback verdict when it fails it. -/
theorem strict_schema_validation (jsonParse : String → Option JsVal) (text : String)
    (v : JsVal) (h1 : v.get "visual_consistency_score" ≠ .num .nan)
    (h2 : v.get "resolution_confidence" ≠ .num .nan) :
    (validateStrictVerificationStructure v = true ↔
      ((∃ fields, v = .obj fields) ∧
        (∀ f ∈ strictRequiredFields, v.hasField f = true) ∧
        (∃ b, v.get "same_location" = .bool b) ∧
        (∃ b, v.get "issue_resolved" = .bool b) ∧
        (∃ b, v.get "fake_detected" = .bool b) ∧
        (∃ b, v.get "suspicious" = .bool b) ∧
        (∃ n, v.get "visual_consistency_score" = .num n ∧
          JsNum.le 0 n = true ∧ JsNum.le n 100 = true) ∧
        (∃ n, v.get "resolution_confidence" = .num n ∧
          JsNum.le 0 n = true ∧ JsNum.le n 100 = true))) ∧
    strictVerifyWithGemini jsonParse (.responded text) =
      .ok (if validateStrictVerificationStructure
          (parseStrictVerificationResponse jsonParse text) = true
        then parseStrictVerificationResponse jsonParse text
        else getStrictFallbackVerification) := by
  refine ⟨validateStrict_iff v h1 h2, ?_⟩
  unfold strictVerifyWithGemini
  simp only []
  cases validateStrictVerificationStructure (parseStrictVerificationResponse jsonParse text) <;>
    simp

/-- C12 at the fallback object (valid) and at a verdict text that lacks seven of the
eight fields (replaced by the fallback). -/
theorem strict_schema_validation_witness :
    validateStrictVerificationStructure getStrictFallbackVerification = true ∧
    validateStrictVerificationStructure
      (parseStrictVerificationResponse jsonParseFlat incompleteVerdictText) = false ∧
    strictVerifyWithGemini jsonParseFlat (.responded incompleteVerdictText) =
      .ok getStrictFallbackVerification :=
  have h := strict_schema_validation jsonParseFlat incompleteVerdictText
    getStrictFallbackVerification
    (by simp [getStrictFallbackVerification, JsVal.get])
    (by simp [getStrictFallbackVerification, JsVal.get])
  ⟨by decide, by decide!, h.2.trans (by rfl)⟩

/-! ### Great-circle distance -/

theorem calculateDistance_symm (m : JsMath ℝ) (hm : m.IsReal) (lat1 lng1 lat2 lng2 : ℝ) :
    calculateDistance m lat1 lng1 lat2 lng2 = calculateDistance m lat2 lng2 lat1 lng1 := by
  obtain ⟨_, hsin, _, _, _⟩ := hm
  unfold calculateDistance
  simp only [hsin]
  have e1 : (lat1 - lat2) * m.PI / 180 / 2 = -((lat2 - lat1) * m.PI / 180 / 2) := by ring
  have e2 : (lng1 - lng2) * m.PI / 180 / 2 = -((lng2 - lng1) * m.PI / 180 / 2) := by ring
  rw [e1, e2, Real.sin_neg, Real.sin_neg]
  ring_nf

theorem calculateDistance_self (m : JsMath ℝ) (hm : m.IsReal) (lat lng : ℝ) :
    calculateDistance m lat lng lat lng = 0 := by
  obtain ⟨_, hsin, _, hsqrt, hatan⟩ := hm
  unfold calculateDistance
  simp only [hsin, hsqrt, hatan, sub_self, zero_mul, zero_div, Real.sin_zero, mul_zero,
    add_zero, Real.sqrt_zero, sub_zero, Real.sqrt_one]
  have : (⟨1, 0⟩ : ℂ) = 1 := rfl
  rw [this, Complex.arg_one]
  ring

theorem point_on_unit_circle (θ : ℝ) :
    (⟨Real.cos θ, Real.sin θ⟩ : ℂ) = Complex.cos θ + Complex.sin θ * Complex.I := by
  apply Complex.ext
  · simp [Complex.cos_ofReal_re, Complex.sin_ofReal_im]
  · simp [Complex.cos_ofReal_im, Complex.sin_ofReal_re]

theorem calculateDistance_one_degree (m : JsMath ℝ) (hm : m.IsReal) :
    calculateDistance m 0 0 0 1 = 6371000 * Real.pi / 180 := by
  obtain ⟨hpi, hsin, hcos, hsqrt, hatan⟩ := hm
  unfold calculateDistance
  simp only [hpi, hsin, hcos, hsqrt, hatan, sub_self, zero_mul, zero_div, Real.sin_zero,
    mul_zero, zero_add, Real.cos_zero, one_mul, sub_zero]
  have hθ1 : 0 ≤ Real.pi / 180 / 2 := by positivity
  have hθ2 : Real.pi / 180 / 2 ≤ Real.pi / 2 := by
    have := Real.pi_pos
    linarith
  have hs : 0 ≤ Real.sin (Real.pi / 180 / 2) :=
    Real.sin_nonneg_of_nonneg_of_le_pi hθ1 (by linarith [Real.pi_pos])
  have e1 : Real.sqrt (Real.sin (Real.pi / 180 / 2) * Real.sin (Real.pi / 180 / 2)) =
      Real.sin (Real.pi / 180 / 2) := Real.sqrt_mul_self hs
  have e2 : Real.sqrt (1 - Real.sin (Real.pi / 180 / 2) * Real.sin (Real.pi / 180 / 2)) =
      Real.cos (Real.pi / 180 / 2) := by
    rw [Real.cos_eq_sqrt_one_sub_sin_sq (by linarith [Real.pi_pos]) hθ2, sq]
  rw [e1, e2]
  rw [point_on_unit_circle, Complex.arg_cos_add_sin_mul_I ⟨by linarith [Real.pi_pos], by linarith [Real.pi_pos]⟩]
  ring

/-- C13: haversine symmetry. Over real arithmetic, for all coordinates (in range or not),
`calculateDistance(lat1, lng1, lat2, lng2) = calculateDistance(lat2, lng2, lat1, lng1)`. -/
theorem haversine_symmetric (m : JsMath ℝ) (hm : m.IsReal) (lat1 lng1 lat2 lng2 : ℝ) :
    calculateDistance m lat1 lng1 lat2 lng2 = calculateDistance m lat2 lng2 lat1 lng1 :=
  calculateDistance_symm m hm lat1 lng1 lat2 lng2

/-- C13 at the points (10, 20) and (30, 40), with the real `Math` functions. -/
theorem haversine_symmetric_witness :
    calculateDistance
      (⟨Real.pi, Real.sin, Real.cos, Real.sqrt, fun y x => Complex.arg ⟨x, y⟩⟩ : JsMath ℝ)
      10 20 30 40 =
    calculateDistance
      (⟨Real.pi, Real.sin, Real.cos, Real.sqrt, fun y x => Complex.arg ⟨x, y⟩⟩ : JsMath ℝ)
      30 40 10 20 :=
  haversine_symmetric _ ⟨rfl, rfl, rfl, rfl, fun _ _ => rfl⟩ 10 20 30 40

/-- C14: haversine identity. Over real arithmetic, for every latitude and longitude,
`calculateDistance(lat, lng, lat, lng) = 0`. -/
theorem haversine_zero_at_same_point (m : JsMath ℝ) (hm : m.IsReal) (lat lng : ℝ) :
    calculateDistance m lat lng lat lng = 0 :=
  calculateDistance_self m hm lat lng

/-- C14 at the point (12, 77), with the real `Math` functions. -/
theorem haversine_zero_at_same_point_witness :
    calculateDistance
      (⟨Real.pi, Real.sin, Real.cos, Real.sqrt, fun y x => Complex.arg ⟨x, y⟩⟩ : JsMath ℝ)
      12 77 12 77 = 0 :=
  haversine_zero_at_same_point _ ⟨rfl, rfl, rfl, rfl, fun _ _ => rfl⟩ 12 77

/-- C15: haversine reference value. Over real arithmetic `calculateDistance(0, 0, 0, 1)`
equals `6371000 * π / 180` and lies within 1% of 111,195 m. -/
theorem haversine_one_degree (m : JsMath ℝ) (hm : m.IsReal) :
    calculateDistance m 0 0 0 1 = 6371000 * Real.pi / 180 ∧
    |calculateDistance m 0 0 0 1 - 111195| ≤ 111195 / 100 := by
  have h := calculateDistance_one_degree m hm
  refine ⟨h, ?_⟩
  rw [h, abs_le]
  have h1 := Real.pi_gt_d2
  have h2 := Real.pi_lt_d2
  constructor <;> linarith

/-- C15 with the real `Math` functions. -/
theorem haversine_one_degree_witness :
    |calculateDistance
      (⟨Real.pi, Real.sin, Real.cos, Real.sqrt, fun y x => Complex.arg ⟨x, y⟩⟩ : JsMath ℝ)
      0 0 0 1 - 111195| ≤ 111195 / 100 :=
  (haversine_one_degree _ ⟨rfl, rfl, rfl, rfl, fun _ _ => rfl⟩).2

theorem validateCoordinates_iff (lat lng : JsVal) :
    validateCoordinates lat lng = true ↔
      ∃ a b, lat = .num a ∧ lng = .num b ∧
        JsNum.le (.fin (-90)) a = true ∧ JsNum.le a 90 = true ∧
        JsNum.le (.fin (-180)) b = true ∧ JsNum.le b 180 = true := by
  cases lat <;> cases lng <;> simp [validateCoordinates]
  rename_i a b
  cases a <;> cases b <;> simp [JsNum.ge, JsNum.le, isNaN]
  all_goals tauto

/-- C16, as stated, fails: latitude 91 is out of range (`validateCoordinates` says so), yet
`calculateDistance(91, 0, 0, 0)` signals nothing and returns a number. -/
theorem haversine_does_not_check_range :
    validateCoordinates (.num (.fin 91)) (.num (.fin 0)) = false ∧
    (∃ d, calculateDistanceOutcome
      (⟨Real.pi, Real.sin, Real.cos, Real.sqrt, fun y x => Complex.arg ⟨x, y⟩⟩ : JsMath ℝ)
      91 0 0 0 = .ok d) ∧
    ∀ e, calculateDistanceOutcome
      (⟨Real.pi, Real.sin, Real.cos, Real.sqrt, fun y x => Complex.arg ⟨x, y⟩⟩ : JsMath ℝ)
      91 0 0 0 ≠ .error e := by
  refine ⟨by decide, ⟨_, rfl⟩, ?_⟩
  intro e h
  cases h

/-! ### The distance on JavaScript numbers -/

theorem JsNumber.fin_mul_fin {α : Type} [LinearOrderedField α] (a b : α) :
    (JsNumber.fin a * JsNumber.fin b : JsNumber α) = .fin (a * b) := rfl

theorem JsNumber.fin_add_fin {α : Type} [LinearOrderedField α] (a b : α) :
    (JsNumber.fin a + JsNumber.fin b : JsNumber α) = .fin (a + b) := rfl

theorem JsNumber.fin_sub_fin {α : Type} [LinearOrderedField α] (a b : α) :
    (JsNumber.fin a - JsNumber.fin b : JsNumber α) = .fin (a - b) := rfl

theorem JsNumber.fin_div_fin {α : Type} [LinearOrderedField α] (a b : α) (hb : b ≠ 0) :
    (JsNumber.fin a / JsNumber.fin b : JsNumber α) = .fin (a / b) := by
  show JsNumber.div _ _ = _
  simp only [JsNumber.div, if_neg hb]

theorem JsNumber.ofNat_eq_fin {α : Type} [LinearOrderedField α] (n : Nat) [OfNat α n] :
    (OfNat.ofNat n : JsNumber α) = .fin (OfNat.ofNat n) := rfl

/-- The quantity `a` of the haversine formula lies between 0 and 1, for all angles. -/
theorem haversine_a_range (p q t : ℝ) :
    0 ≤ Real.sin ((q - p) / 2) * Real.sin ((q - p) / 2) +
        Real.cos p * Real.cos q * Real.sin t * Real.sin t ∧
    Real.sin ((q - p) / 2) * Real.sin ((q - p) / 2) +
        Real.cos p * Real.cos q * Real.sin t * Real.sin t ≤ 1 := by
  have h1 : Real.sin ((q - p) / 2) * Real.sin ((q - p) / 2) = 1 / 2 - Real.cos (q - p) / 2 := by
    have := Real.sin_sq_eq_half_sub ((q - p) / 2)
    have e2 : 2 * ((q - p) / 2) = q - p := by ring
    rw [sq, e2] at this
    exact this
  have h2 : Real.cos (q - p) = Real.cos q * Real.cos p + Real.sin q * Real.sin p :=
    Real.cos_sub q p
  have h3 : Real.cos (q + p) = Real.cos q * Real.cos p - Real.sin q * Real.sin p :=
    Real.cos_add q p
  have b1 := Real.cos_le_one (q - p)
  have b2 := Real.neg_one_le_cos (q - p)
  have b3 := Real.cos_le_one (q + p)
  have b4 := Real.neg_one_le_cos (q + p)
  have s0 : 0 ≤ Real.sin t * Real.sin t := mul_self_nonneg _
  have s1 : Real.sin t * Real.sin t ≤ 1 := by
    have := Real.sin_sq_le_one t
    rwa [sq] at this
  rw [h1, h2]
  rw [h2] at b1 b2
  rw [h3] at b3 b4
  set C := Real.cos q * Real.cos p with hC
  set S := Real.sin q * Real.sin p with hS
  set s2 := Real.sin t * Real.sin t with hs2
  have e : Real.cos p * Real.cos q * Real.sin t * Real.sin t = C * s2 := by
    rw [hC, hs2]; ring
  rw [e]
  constructor
  · have k1 : 0 ≤ (1 - s2) * (1 - (C + S)) := mul_nonneg (by linarith) (by linarith)
    have k2 : 0 ≤ s2 * (1 + (C - S)) := mul_nonneg s0 (by linarith)
    nlinarith
  · have k1 : 0 ≤ (1 - s2) * (1 + (C + S)) := mul_nonneg (by linarith) (by linarith)
    have k2 : 0 ≤ s2 * (1 - (C - S)) := mul_nonneg s0 (by linarith)
    nlinarith

/-- Over real arithmetic the distance lies between 0 and half the circumference, for all
coordinates, in range or not. -/
theorem calculateDistance_range (m : JsMath ℝ) (hm : m.IsReal) (lat1 lng1 lat2 lng2 : ℝ) :
    0 ≤ calculateDistance m lat1 lng1 lat2 lng2 ∧
    calculateDistance m lat1 lng1 lat2 lng2 ≤ 6371000 * Real.pi := by
  obtain ⟨hpi, hsin, hcos, hsqrt, hatan⟩ := hm
  unfold calculateDistance
  simp only [hsin, hcos, hsqrt, hatan]
  have h0 : 0 ≤ Complex.arg ⟨Real.sqrt (1 - (Real.sin ((lat2 - lat1) * m.PI / 180 / 2) *
      Real.sin ((lat2 - lat1) * m.PI / 180 / 2) +
      Real.cos (lat1 * m.PI / 180) * Real.cos (lat2 * m.PI / 180) *
        Real.sin ((lng2 - lng1) * m.PI / 180 / 2) *
        Real.sin ((lng2 - lng1) * m.PI / 180 / 2))),
      Real.sqrt (Real.sin ((lat2 - lat1) * m.PI / 180 / 2) *
      Real.sin ((lat2 - lat1) * m.PI / 180 / 2) +
      Real.cos (lat1 * m.PI / 180) * Real.cos (lat2 * m.PI / 180) *
        Real.sin ((lng2 - lng1) * m.PI / 180 / 2) *
        Real.sin ((lng2 - lng1) * m.PI / 180 / 2))⟩ :=
    Complex.arg_nonneg_iff.mpr (Real.sqrt_nonneg _)
  have h1 : Complex.arg ⟨Real.sqrt (1 - (Real.sin ((lat2 - lat1) * m.PI / 180 / 2) *
      Real.sin ((lat2 - lat1) * m.PI / 180 / 2) +
      Real.cos (lat1 * m.PI / 180) * Real.cos (lat2 * m.PI / 180) *
        Real.sin ((lng2 - lng1) * m.PI / 180 / 2) *
        Real.sin ((lng2 - lng1) * m.PI / 180 / 2))),
      Real.sqrt (Real.sin ((lat2 - lat1) * m.PI / 180 / 2) *
      Real.sin ((lat2 - lat1) * m.PI / 180 / 2) +
      Real.cos (lat1 * m.PI / 180) * Real.cos (lat2 * m.PI / 180) *
        Real.sin ((lng2 - lng1) * m.PI / 180 / 2) *
        Real.sin ((lng2 - lng1) * m.PI / 180 / 2))⟩ ≤ Real.pi / 2 :=
    Complex.arg_le_pi_div_two_iff.mpr (Or.inl (Real.sqrt_nonneg _))
  constructor
  · positivity
  · nlinarith [Real.pi_pos]

theorem calculateDistanceJs_fin (m : JsMath ℝ) (hm : m.IsReal) (lat1 lng1 lat2 lng2 : ℝ) :
    calculateDistanceJs m (.fin lat1) (.fin lng1) (.fin lat2) (.fin lng2) =
      .fin (calculateDistance m lat1 lng1 lat2 lng2) := by
  have h180 : (180 : ℝ) ≠ 0 := by norm_num
  have h2 : (2 : ℝ) ≠ 0 := by norm_num
  obtain ⟨ha0, ha1⟩ := haversine_a_range (lat1 * m.PI / 180) (lat2 * m.PI / 180)
    ((lng2 - lng1) * m.PI / 180 / 2)
  have e : (lat2 * m.PI / 180 - lat1 * m.PI / 180) / 2 = (lat2 - lat1) * m.PI / 180 / 2 := by
    ring
  rw [e] at ha0 ha1
  rw [← hm.2.1, ← hm.2.2.1] at ha0 ha1
  unfold calculateDistanceJs calculateDistance
  simp only [JsNumber.ofNat_eq_fin, JsNumber.fin_mul_fin, JsNumber.fin_sub_fin,
    JsNumber.fin_div_fin _ _ h180, JsNumber.fin_div_fin _ _ h2, JsMath.sinJs, JsMath.cosJs,
    JsNumber.fin_add_fin, JsMath.sqrtJs, JsMath.atan2Js, if_neg (not_lt.mpr ha0),
    if_neg (not_lt.mpr (sub_nonneg.mpr ha1))]

theorem JsNumber.mul_not_finite {α : Type} [LinearOrderedField α] (a b : JsNumber α)
    (h : a.isFinite = false) : (a * b).isFinite = false := by
  show (JsNumber.mul a b).isFinite = false
  cases a <;> cases b <;> simp_all [JsNumber.mul, JsNumber.isFinite] <;>
    split_ifs <;> rfl

theorem JsNumber.sub_not_finite {α : Type} [LinearOrderedField α] (a b : JsNumber α)
    (h : a.isFinite = false ∨ b.isFinite = false) : (a - b).isFinite = false := by
  show (JsNumber.sub a b).isFinite = false
  cases a <;> cases b <;> simp_all [JsNumber.sub, JsNumber.isFinite]

theorem JsNumber.div_not_finite {α : Type} [LinearOrderedField α] (a b : JsNumber α)
    (hb : b.isFinite = true) (h : a.isFinite = false) : (a / b).isFinite = false := by
  show (JsNumber.div a b).isFinite = false
  cases a <;> cases b <;> simp_all [JsNumber.div, JsNumber.isFinite] <;> split_ifs <;> rfl

theorem JsMath.sinJs_not_finite {α : Type} (m : JsMath α) (a : JsNumber α)
    (h : a.isFinite = false) : m.sinJs a = .nan := by
  cases a <;> simp_all [JsMath.sinJs, JsNumber.isFinite]

theorem JsMath.cosJs_not_finite {α : Type} (m : JsMath α) (a : JsNumber α)
    (h : a.isFinite = false) : m.cosJs a = .nan := by
  cases a <;> simp_all [JsMath.cosJs, JsNumber.isFinite]

theorem JsNumber.nan_mul {α : Type} [LinearOrderedField α] (b : JsNumber α) :
    (JsNumber.nan * b : JsNumber α) = .nan := by
  show JsNumber.mul _ _ = _
  cases b <;> rfl

theorem JsNumber.mul_nan {α : Type} [LinearOrderedField α] (a : JsNumber α) :
    (a * JsNumber.nan : JsNumber α) = .nan := by
  show JsNumber.mul _ _ = _
  cases a <;> rfl

theorem JsNumber.nan_add {α : Type} [LinearOrderedField α] (b : JsNumber α) :
    (JsNumber.nan + b : JsNumber α) = .nan := by
  show JsNumber.add _ _ = _
  cases b <;> rfl

theorem JsNumber.add_nan {α : Type} [LinearOrderedField α] (a : JsNumber α) :
    (a + JsNumber.nan : JsNumber α) = .nan := by
  show JsNumber.add _ _ = _
  cases a <;> rfl

theorem JsNumber.minus_nan {α : Type} [LinearOrderedField α] (a : JsNumber α) :
    (a - JsNumber.nan : JsNumber α) = .nan := by
  show JsNumber.sub _ _ = _
  cases a <;> rfl

/-- The tail of `calculateDistance` once `a` is NaN. -/
theorem calculateDistanceJs_tail {α : Type} [LinearOrderedField α] (m : JsMath α) :
    (6371000 : JsNumber α) *
      (2 * m.atan2Js (m.sqrtJs .nan) (m.sqrtJs (1 - .nan))) = .nan := by
  rw [JsNumber.minus_nan]
  simp only [JsMath.sqrtJs, JsMath.atan2Js, JsNumber.mul_nan]

theorem calculateDistanceJs_not_finite {α : Type} [LinearOrderedField α] (m : JsMath α)
    (lat1 lng1 lat2 lng2 : JsNumber α)
    (h : (lat1.isFinite && lng1.isFinite && lat2.isFinite && lng2.isFinite) = false) :
    calculateDistanceJs m lat1 lng1 lat2 lng2 = .nan := by
  have key : m.sinJs (((lat2 - lat1) * .fin m.PI) / 180 / 2) *
        m.sinJs (((lat2 - lat1) * .fin m.PI) / 180 / 2) +
      m.cosJs ((lat1 * .fin m.PI) / 180) * m.cosJs ((lat2 * .fin m.PI) / 180) *
        m.sinJs (((lng2 - lng1) * .fin m.PI) / 180 / 2) *
        m.sinJs (((lng2 - lng1) * .fin m.PI) / 180 / 2) = .nan := by
    have h180 : (180 : JsNumber α).isFinite = true := rfl
    have h2 : (2 : JsNumber α).isFinite = true := rfl
    simp only [Bool.and_eq_false_iff] at h
    rcases h with ((h | h) | h) | h
    · rw [m.cosJs_not_finite _ (JsNumber.div_not_finite _ _ h180
        (JsNumber.mul_not_finite _ _ h))]
      simp only [JsNumber.nan_mul, JsNumber.add_nan]
    · rw [m.sinJs_not_finite (((lng2 - lng1) * .fin m.PI) / 180 / 2)
        (JsNumber.div_not_finite _ _ h2 (JsNumber.div_not_finite _ _ h180
          (JsNumber.mul_not_finite _ _ (JsNumber.sub_not_finite _ _ (Or.inr h)))))]
      simp only [JsNumber.mul_nan, JsNumber.add_nan]
    · rw [m.cosJs_not_finite ((lat2 * .fin m.PI) / 180) (JsNumber.div_not_finite _ _ h180
        (JsNumber.mul_not_finite _ _ h))]
      simp only [JsNumber.nan_mul, JsNumber.mul_nan, JsNumber.add_nan]
    · rw [m.sinJs_not_finite (((lng2 - lng1) * .fin m.PI) / 180 / 2)
        (JsNumber.div_not_finite _ _ h2 (JsNumber.div_not_finite _ _ h180
          (JsNumber.mul_not_finite _ _ (JsNumber.sub_not_finite _ _ (Or.inl h)))))]
      simp only [JsNumber.mul_nan, JsNumber.add_nan]
  unfold calculateDistanceJs
  simp only []
  rw [key]
  exact calculateDistanceJs_tail m

theorem checkLiveCoordinates_accepted_iff (latitude longitude : JsNum) :
    checkLiveCoordinates latitude longitude = .accepted ↔
      validateCoordinates (.num latitude) (.num longitude) = true := by
  unfold checkLiveCoordinates validateCoordinates
  cases latitude <;> cases longitude <;>
    simp [isNaN, JsNum.lt, JsNum.gt, JsNum.ge, JsNum.le]

/-- C16, amended: `calculateDistance` does not test its input. Over real
arithmetic it returns a distance between 0 and half the circumference of the sphere for
all finite coordinates, in range or not, and NaN as soon as one coordinate is NaN or
infinite. The range test is `validateCoordinates`, which returns true exactly when both
arguments are numbers with latitude in [-90, 90] and longitude in [-180, 180] (hence not
NaN); the two tests that the handlers run on the parsed live coordinates accept exactly
the pairs that `validateCoordinates` accepts. -/
theorem haversine_total_and_range_test (m : JsMath ℝ) (hm : m.IsReal) :
    (∀ lat1 lng1 lat2 lng2 : ℝ,
      calculateDistanceJs m (.fin lat1) (.fin lng1) (.fin lat2) (.fin lng2) =
        .fin (calculateDistance m lat1 lng1 lat2 lng2) ∧
      0 ≤ calculateDistance m lat1 lng1 lat2 lng2 ∧
      calculateDistance m lat1 lng1 lat2 lng2 ≤ 6371000 * Real.pi) ∧
    (∀ lat1 lng1 lat2 lng2 : JsNumber ℝ,
      (lat1.isFinite && lng1.isFinite && lat2.isFinite && lng2.isFinite) = false →
      calculateDistanceJs m lat1 lng1 lat2 lng2 = .nan) ∧
    (∀ lat lng : JsVal, validateCoordinates lat lng = true ↔
      ∃ a b, lat = .num a ∧ lng = .num b ∧
        JsNum.le (.fin (-90)) a = true ∧ JsNum.le a 90 = true ∧
        JsNum.le (.fin (-180)) b = true ∧ JsNum.le b 180 = true) ∧
    (∀ latitude longitude : JsNum,
      checkLiveCoordinates latitude longitude = .accepted ↔
        validateCoordinates (.num latitude) (.num longitude) = true) :=
  ⟨fun lat1 lng1 lat2 lng2 =>
      ⟨calculateDistanceJs_fin m hm lat1 lng1 lat2 lng2,
        calculateDistance_range m hm lat1 lng1 lat2 lng2⟩,
    calculateDistanceJs_not_finite m, validateCoordinates_iff,
    checkLiveCoordinates_accepted_iff⟩

theorem haversine_total_and_range_test_witness :
    validateCoordinates (.num (.fin 91)) (.num (.fin 0)) = false ∧
    calculateDistanceJs
      (⟨Real.pi, Real.sin, Real.cos, Real.sqrt, fun y x => Complex.arg ⟨x, y⟩⟩ : JsMath ℝ)
      (.fin 91) (.fin 0) (.fin 0) (.fin 0) =
    .fin (calculateDistance
      (⟨Real.pi, Real.sin, Real.cos, Real.sqrt, fun y x => Complex.arg ⟨x, y⟩⟩ : JsMath ℝ)
      91 0 0 0) ∧
    calculateDistanceJs
      (⟨Real.pi, Real.sin, Real.cos, Real.sqrt, fun y x => Complex.arg ⟨x, y⟩⟩ : JsMath ℝ)
      .posInf (.fin 0) (.fin 0) (.fin 0) = .nan ∧
    checkLiveCoordinates (.fin 91) (.fin 0) = .outOfRange :=
  ⟨by decide,
    ((haversine_total_and_range_test _ ⟨rfl, rfl, rfl, rfl, fun _ _ => rfl⟩).1 91 0 0 0).1,
    (haversine_total_and_range_test _ ⟨rfl, rfl, rfl, rfl, fun _ _ => rfl⟩).2.1
      .posInf (.fin 0) (.fin 0) (.fin 0) rfl,
    by decide!⟩


/-! ### EXIF GPS conversion -/

theorem isDigit_toNat (c : Char) (h : c.isDigit = true) : 48 ≤ c.toNat ∧ c.toNat ≤ 57 := by
  simp only [Char.isDigit, Bool.and_eq_true, decide_eq_true_eq, ge_iff_le] at h
  have h1 : (48 : UInt32).toNat ≤ c.val.toNat := h.1
  have h2 : c.val.toNat ≤ (57 : UInt32).toNat := h.2
  exact ⟨h1, h2⟩

theorem isDigit_not_space (c : Char) (h : c.isDigit = true) : isJsSpace c = false := by
  have := isDigit_toNat c h
  simp only [isJsSpace, Bool.or_eq_false_iff, beq_eq_false_iff_ne, ne_eq, Bool.and_eq_false_imp,
    decide_eq_true_eq, decide_eq_false_iff_not, not_le]
  omega

theorem takeWhile_leading (p : Char → Bool) (A : List Char) (x : Char) (l : List Char)
    (hA : ∀ c ∈ A, p c = true) (hx : p x = false) : (A ++ x :: l).takeWhile p = A := by
  induction A with
  | nil => simp [List.takeWhile, hx]
  | cons c cs ih =>
    rw [List.cons_append, List.takeWhile_cons_of_pos (hA c (List.mem_cons_self _ _)),
      ih (fun d hd => hA d (List.mem_cons_of_mem _ hd))]

theorem takeWhile_all (p : Char → Bool) (A : List Char) (hA : ∀ c ∈ A, p c = true) :
    A.takeWhile p = A ∧ A.dropWhile p = [] := by
  induction A with
  | nil => simp
  | cons c cs ih =>
    have hc := hA c (List.mem_cons_self _ _)
    obtain ⟨h1, h2⟩ := ih (fun d hd => hA d (List.mem_cons_of_mem _ hd))
    rw [List.takeWhile_cons_of_pos hc, List.dropWhile_cons_of_pos hc, h1, h2]
    exact ⟨rfl, rfl⟩

theorem parseFloatUnsigned_decimal (c0 : Char) (dI dF : List Char)
    (h0 : c0.isDigit = true) (hI : ∀ c ∈ dI, c.isDigit = true)
    (hF : ∀ c ∈ dF, c.isDigit = true) :
    parseFloatUnsigned (decimalText (c0 :: dI) dF) = .fin (decimalValue (c0 :: dI) dF) := by
  have hall : ∀ c ∈ c0 :: dI, c.isDigit = true := by
    intro c hc
    rcases List.mem_cons.mp hc with h | h
    · rw [h]; exact h0
    · exact hI c h
  have hinf : "Infinity".data.isPrefixOf (decimalText (c0 :: dI) dF) = false := by
    have hne : ('I' == c0) = false := by
      cases hq : ('I' == c0) with
      | false => rfl
      | true =>
        have : c0 = 'I' := (beq_iff_eq.mp hq).symm
        subst this
        exact absurd h0 (by decide)
    unfold decimalText
    split <;> simp [List.isPrefixOf, hne]
  unfold parseFloatUnsigned
  rw [hinf]
  simp only [Bool.false_eq_true, if_false]
  unfold decimalText decimalValue
  cases dF with
  | nil =>
    obtain ⟨h1, h2⟩ := takeWhile_all Char.isDigit (c0 :: dI) hall
    simp [h1, h2, digitsValue]
  | cons f fs =>
    have hdot : Char.isDigit '.' = false := by decide
    have h1 := takeWhile_leading Char.isDigit (c0 :: dI) '.' (f :: fs) hall hdot
    have h2 := dropWhile_leading Char.isDigit (c0 :: dI) '.' (f :: fs) hall hdot
    obtain ⟨h3, h4⟩ := takeWhile_all Char.isDigit (f :: fs) hF
    simp only [List.isEmpty_cons, Bool.false_eq_true, if_false]
    rw [h1, h2]
    simp only [h3, h4, List.isEmpty_cons, Bool.false_and, Bool.false_eq_true, if_false]

theorem jsParseFloat_decimal (c0 : Char) (dI dF : List Char)
    (h0 : c0.isDigit = true) (hI : ∀ c ∈ dI, c.isDigit = true)
    (hF : ∀ c ∈ dF, c.isDigit = true) :
    jsParseFloat (decimalText (c0 :: dI) dF) = .fin (decimalValue (c0 :: dI) dF) := by
  have hform : ∃ rest, decimalText (c0 :: dI) dF = c0 :: rest := by
    unfold decimalText
    split
    · exact ⟨dI, rfl⟩
    · exact ⟨dI ++ '.' :: dF, rfl⟩
  obtain ⟨rest, hrest⟩ := hform
  have hdrop : (decimalText (c0 :: dI) dF).dropWhile isJsSpace = decimalText (c0 :: dI) dF := by
    rw [hrest, List.dropWhile_cons_of_neg (by simp [isDigit_not_space c0 h0])]
  unfold jsParseFloat
  rw [hdrop]
  have hminus : c0 ≠ '-' := by
    intro h; subst h; exact absurd h0 (by decide)
  have hplus : c0 ≠ '+' := by
    intro h; subst h; exact absurd h0 (by decide)
  rw [hrest]
  split
  · rename_i r heq
    cases heq
    exact absurd rfl hminus
  · rename_i r heq
    cases heq
    exact absurd rfl hplus
  · rw [← hrest]
    exact parseFloatUnsigned_decimal c0 dI dF h0 hI hF
theorem decimalText_cons (i0 : Char) (dI dF : List Char) :
    ∃ rest, decimalText (i0 :: dI) dF = i0 :: rest := by
  unfold decimalText
  split
  · exact ⟨dI, rfl⟩
  · exact ⟨dI ++ '.' :: dF, rfl⟩

theorem decimalText_digitOrDot (i0 : Char) (dI dF : List Char)
    (h0 : i0.isDigit = true) (hI : ∀ c ∈ dI, c.isDigit = true)
    (hF : ∀ c ∈ dF, c.isDigit = true) :
    ∀ c ∈ decimalText (i0 :: dI) dF, isDigitOrDot c = true := by
  intro c hc
  unfold decimalText at hc
  unfold isDigitOrDot
  split at hc
  · rcases List.mem_cons.mp hc with h | h
    · simp [h, h0]
    · simp [hI c h]
  · rcases List.mem_append.mp hc with h | h
    · rcases List.mem_cons.mp h with h | h
      · simp [h, h0]
      · simp [hI c h]
    · rcases List.mem_cons.mp h with h | h
      · simp [h]
      · simp [hF c h]

theorem mem_cons_digit (c0 : Char) (ds : List Char) (h0 : c0.isDigit = true)
    (hs : ∀ c ∈ ds, c.isDigit = true) : ∀ c ∈ c0 :: ds, c.isDigit = true := by
  intro c hc
  rcases List.mem_cons.mp hc with h | h
  · rw [h]; exact h0
  · exact hs c h

theorem matchDms_form (d0 m0 i0 : Char) (dD dM dI dF ws1 ws2 : List Char)
    (hd0 : d0.isDigit = true) (hD : ∀ c ∈ dD, c.isDigit = true)
    (hm0 : m0.isDigit = true) (hM : ∀ c ∈ dM, c.isDigit = true)
    (hi0 : i0.isDigit = true) (hI : ∀ c ∈ dI, c.isDigit = true)
    (hF : ∀ c ∈ dF, c.isDigit = true)
    (h1 : ∀ c ∈ ws1, isJsSpace c = true) (h2 : ∀ c ∈ ws2, isJsSpace c = true) :
    matchDms ((d0 :: dD) ++ '°' :: (ws1 ++ ((m0 :: dM) ++ '\'' ::
      (ws2 ++ (decimalText (i0 :: dI) dF ++ ['"']))))) =
      some (d0 :: dD, m0 :: dM, decimalText (i0 :: dI) dF) := by
  obtain ⟨rest, hrest⟩ := decimalText_cons i0 dI dF
  have hDall := mem_cons_digit d0 dD hd0 hD
  have hMall := mem_cons_digit m0 dM hm0 hM
  have hSall := decimalText_digitOrDot i0 dI dF hi0 hI hF
  have e1 := takeWhile_leading Char.isDigit (d0 :: dD) '°'
    (ws1 ++ ((m0 :: dM) ++ '\'' :: (ws2 ++ (decimalText (i0 :: dI) dF ++ ['"']))))
    hDall (by decide)
  have e2 := dropWhile_leading Char.isDigit (d0 :: dD) '°'
    (ws1 ++ ((m0 :: dM) ++ '\'' :: (ws2 ++ (decimalText (i0 :: dI) dF ++ ['"']))))
    hDall (by decide)
  have e3 : (ws1 ++ ((m0 :: dM) ++ '\'' :: (ws2 ++ (decimalText (i0 :: dI) dF ++
      ['"'])))).dropWhile isJsSpace =
      (m0 :: dM) ++ '\'' :: (ws2 ++ (decimalText (i0 :: dI) dF ++ ['"'])) :=
    dropWhile_leading isJsSpace ws1 m0 _ h1 (isDigit_not_space m0 hm0)
  have e4 := takeWhile_leading Char.isDigit (m0 :: dM) '\''
    (ws2 ++ (decimalText (i0 :: dI) dF ++ ['"'])) hMall (by decide)
  have e5 := dropWhile_leading Char.isDigit (m0 :: dM) '\''
    (ws2 ++ (decimalText (i0 :: dI) dF ++ ['"'])) hMall (by decide)
  have e6 : (ws2 ++ (decimalText (i0 :: dI) dF ++ ['"'])).dropWhile isJsSpace =
      decimalText (i0 :: dI) dF ++ ['"'] := by
    rw [hrest]
    exact dropWhile_leading isJsSpace ws2 i0 _ h2 (isDigit_not_space i0 hi0)
  have e7 := takeWhile_leading isDigitOrDot (decimalText (i0 :: dI) dF) '"' [] hSall (by decide)
  have e8 := dropWhile_leading isDigitOrDot (decimalText (i0 :: dI) dF) '"' [] hSall
    (by decide)
  have hat : matchDmsAt ((d0 :: dD) ++ '°' :: (ws1 ++ ((m0 :: dM) ++ '\'' ::
      (ws2 ++ (decimalText (i0 :: dI) dF ++ ['"']))))) =
      some (d0 :: dD, m0 :: dM, decimalText (i0 :: dI) dF) := by
    unfold matchDmsAt
    simp only [e1, e2, e3, e4, e5, e6, e7, e8]
    simp [hrest]
  have hcons : (d0 :: dD) ++ '°' :: (ws1 ++ ((m0 :: dM) ++ '\'' ::
      (ws2 ++ (decimalText (i0 :: dI) dF ++ ['"'])))) =
      d0 :: (dD ++ '°' :: (ws1 ++ ((m0 :: dM) ++ '\'' ::
      (ws2 ++ (decimalText (i0 :: dI) dF ++ ['"']))))) := rfl
  rw [hcons, matchDms, ← hcons, hat]

theorem dmsToDecimal_fin (D M S : ℚ) (ref : String) :
    dmsToDecimal (.fin D) (.fin M) (.fin S) ref =
      if (ref == "S" || ref == "W") = true then .fin (-(D + M / 60 + S / 3600))
      else .fin (D + M / 60 + S / 3600) := by
  unfold dmsToDecimal
  simp only [JsNum.divPos, JsNum.add]
  split <;> simp [JsNum.neg]

theorem jsParseFloat_digits (c0 : Char) (ds : List Char) (h0 : c0.isDigit = true)
    (hs : ∀ c ∈ ds, c.isDigit = true) :
    jsParseFloat (c0 :: ds) = .fin (digitsValue (c0 :: ds) : ℚ) := by
  have h := jsParseFloat_decimal c0 ds [] h0 hs (by simp)
  have e1 : decimalText (c0 :: ds) [] = c0 :: ds := rfl
  rw [e1] at h
  rw [h]
  simp [decimalValue, digitsValue]

/-- C17: DMS to decimal. For every string made of degree digits, the degree sign, optional
whitespace, minute digits, an apostrophe, optional whitespace, a non-negative decimal and
a double quote, `convertDMSToDD` returns `D + M/60 + S/3600` for the references `N` and
`E`, and the negation of that value for `S` and `W` (numbers as exact decimals). -/
theorem dms_to_decimal_degrees (s ref : String) (d0 m0 i0 : Char)
    (dD dM dI dF ws1 ws2 : List Char)
    (hs : s.data = (d0 :: dD) ++ '°' :: (ws1 ++ ((m0 :: dM) ++ '\'' ::
      (ws2 ++ (decimalText (i0 :: dI) dF ++ ['"'])))))
    (hd0 : d0.isDigit = true) (hD : ∀ c ∈ dD, c.isDigit = true)
    (hm0 : m0.isDigit = true) (hM : ∀ c ∈ dM, c.isDigit = true)
    (hi0 : i0.isDigit = true) (hI : ∀ c ∈ dI, c.isDigit = true)
    (hF : ∀ c ∈ dF, c.isDigit = true)
    (h1 : ∀ c ∈ ws1, isJsSpace c = true) (h2 : ∀ c ∈ ws2, isJsSpace c = true) :
    ((ref = "N" ∨ ref = "E") → convertDMSToDD s ref =
      some (.fin ((digitsValue (d0 :: dD) : ℚ) + (digitsValue (m0 :: dM) : ℚ) / 60 +
        decimalValue (i0 :: dI) dF / 3600))) ∧
    ((ref = "S" ∨ ref = "W") → convertDMSToDD s ref =
      some (.fin (-((digitsValue (d0 :: dD) : ℚ) + (digitsValue (m0 :: dM) : ℚ) / 60 +
        decimalValue (i0 :: dI) dF / 3600)))) := by
  have hconv : convertDMSToDD s ref = some (dmsToDecimal
      (.fin (digitsValue (d0 :: dD) : ℚ)) (.fin (digitsValue (m0 :: dM) : ℚ))
      (.fin (decimalValue (i0 :: dI) dF)) ref) := by
    unfold convertDMSToDD
    rw [hs, matchDms_form d0 m0 i0 dD dM dI dF ws1 ws2 hd0 hD hm0 hM hi0 hI hF h1 h2]
    simp only []
    rw [jsParseFloat_digits d0 dD hd0 hD, jsParseFloat_digits m0 dM hm0 hM,
      jsParseFloat_decimal i0 dI dF hi0 hI hF]
  rw [hconv, dmsToDecimal_fin]
  constructor
  · rintro (h | h) <;> subst h <;> rfl
  · rintro (h | h) <;> subst h <;> rfl
/-- C17 at the string of the specification: 40 degrees, 26 minutes, 46.302 seconds is
40.446195 degrees, north positive and south negative. -/
theorem dms_to_decimal_degrees_witness :
    convertDMSToDD "40° 26' 46.302\"" "N" = some (.fin (8089239 / 200000)) ∧
    convertDMSToDD "40° 26' 46.302\"" "S" = some (.fin (-(8089239 / 200000))) :=
  have h := dms_to_decimal_degrees "40° 26' 46.302\"" "N" '4' '2' '4' ['0'] ['6'] ['6']
    ['3', '0', '2'] [' '] [' '] (by decide) (by decide) (by decide) (by decide) (by decide)
    (by decide) (by decide) (by decide) (by decide) (by decide)
  have h2 := dms_to_decimal_degrees "40° 26' 46.302\"" "S" '4' '2' '4' ['0'] ['6'] ['6']
    ['3', '0', '2'] [' '] [' '] (by decide) (by decide) (by decide) (by decide) (by decide)
    (by decide) (by decide) (by decide) (by decide) (by decide)
  ⟨(h.1 (Or.inl rfl)).trans (by decide!),
    (h2.2 (Or.inl rfl)).trans (by decide!)⟩

theorem convertDMSToDD_null (s ref : String) (hm : matchDms s.data = none)
    (hparts : (splitComma s.data).length ≠ 3) : convertDMSToDD s ref = none := by
  unfold convertDMSToDD
  rw [hm]
  simp only []
  split
  · rename_i a b c heq
    have := congrArg List.length heq
    simp at this
    exact absurd this hparts
  · rfl

/-- C18, at a failing input: the description `north, of, town` matches neither encoding,
but it has three comma-separated parts, so `convertDMSToDD` returns NaN instead of `null`
and `extractEXIFMetadata` builds a GPS record whose latitude is NaN (here next to a valid
longitude); the strict pipeline then raises neither the missing-GPS flag nor, the
deviation being NaN, the deviation flag. A description with another number of parts is
answered with `null` and gives `gps = null`. -/
theorem dms_three_parts_give_nan :
    convertDMSToDD "north, of, town" "N" = some .nan ∧
    (extractGps (some garbledLatitudeTags)).map (fun g => decide (g.latitude = .nan)) =
      some true ∧
    (stepExifGps nanEnv 2 2
      { gps := extractGps (some garbledLatitudeTags), camera := none, timestamp := none }
      Suspicion.init).suspicionScore = 0 ∧
    convertDMSToDD "north of town" "N" = none ∧
    (extractGps (some proseLatitudeTags)).isNone = true := by
  refine ⟨by decide!, by decide!, by decide!, by decide!, by decide!⟩


/-! ### Recency check -/

theorem JsNum.sub_nan (a : JsNum) : JsNum.sub a .nan = .nan := by
  cases a <;> rfl

theorem isDigit_ne_colon_space (c : Char) (h : c.isDigit = true) : c ≠ ':' ∧ c ≠ ' ' := by
  constructor
  · intro hc; subst hc; exact absurd h (by decide)
  · intro hc; subst hc; exact absurd h (by decide)

/-- For every timestamp of the EXIF form `YYYY:MM:DD HH:MM:SS`, the text handed to the
`Date` constructor is `YYYY-MM-DDTHH-MM-SS`, an invalid date, so `hoursDiff` is NaN
whatever the evaluation time is. -/
theorem hoursDiff_exif_format (env : Env) (henv : env.dateParse = isoDateParse) (now : JsNum)
    (ts : String) (y1 y2 y3 y4 m1 m2 d1 d2 h1 h2 n1 n2 s1 s2 : Char)
    (hts : ts.data = [y1, y2, y3, y4, ':', m1, m2, ':', d1, d2, ' ', h1, h2, ':', n1, n2, ':',
      s1, s2])
    (hd : ∀ c ∈ [y1, y2, y3, y4, m1, m2, d1, d2, h1, h2, n1, n2, s1, s2], c.isDigit = true) :
    replaceFirstSpace (replaceColons ts) =
      String.mk [y1, y2, y3, y4, '-', m1, m2, '-', d1, d2, 'T', h1, h2, '-', n1, n2, '-',
        s1, s2] ∧
    hoursDiff env now ts = .nan := by
  have k : ∀ c ∈ [y1, y2, y3, y4, m1, m2, d1, d2, h1, h2, n1, n2, s1, s2],
      c ≠ ':' ∧ c ≠ ' ' := fun c hc => isDigit_ne_colon_space c (hd c hc)
  have ky1 := k y1 (by simp)
  have ky2 := k y2 (by simp)
  have ky3 := k y3 (by simp)
  have ky4 := k y4 (by simp)
  have km1 := k m1 (by simp)
  have km2 := k m2 (by simp)
  have kd1 := k d1 (by simp)
  have kd2 := k d2 (by simp)
  have kh1 := k h1 (by simp)
  have kh2 := k h2 (by simp)
  have kn1 := k n1 (by simp)
  have kn2 := k n2 (by simp)
  have ks1 := k s1 (by simp)
  have ks2 := k s2 (by simp)
  have hmunge : replaceFirstSpace (replaceColons ts) =
      String.mk [y1, y2, y3, y4, '-', m1, m2, '-', d1, d2, 'T', h1, h2, '-', n1, n2, '-',
        s1, s2] := by
    unfold replaceFirstSpace replaceColons
    rw [hts]
    simp [replaceFirstSpaceAux, ky1, ky2, ky3, ky4, km1, km2, kd1, kd2, kh1, kh2, kn1, kn2,
      ks1, ks2]
  refine ⟨hmunge, ?_⟩
  unfold hoursDiff
  simp only [hmunge, henv]
  have hparse : isoDateParse (String.mk [y1, y2, y3, y4, '-', m1, m2, '-', d1, d2, 'T', h1, h2,
      '-', n1, n2, '-', s1, s2]) = .nan := by
    simp [isoDateParse]
  rw [hparse, JsNum.sub_nan]
  rfl

/-- C19, at a failing input: an image whose EXIF timestamp is `2020:01:15 10:30:00`,
checked on 2024-01-01, almost four years later. The code rewrites every colon, so the
`Date` constructor gets `2020-01-15T10-30-00`, an invalid date; the age in hours is NaN,
the comparison with 24 is false, no stale-timestamp flag is raised and nothing is added:
the submission is verified with score 0. Had the colons of the time been kept, the age
would be 34717.5 hours. -/
theorem stale_timestamp_is_not_flagged :
    replaceFirstSpace (replaceColons "2020:01:15 10:30:00") = "2020-01-15T10-30-00" ∧
    isoDateParse "2020-01-15T10-30-00" = .nan ∧
    hoursDiff isoEnv 1704067200000 "2020:01:15 10:30:00" = .nan ∧
    (stepExifTimestamp isoEnv 1704067200000 staleExif Suspicion.init).suspicionScore = 0 ∧
    (strictAssess isoEnv staleInputs).suspicionFlags.length = 0 ∧
    (strictAssess isoEnv staleInputs).suspicionScore = 0 ∧
    (strictAssess isoEnv staleInputs).verificationStatus = .verified ∧
    ((JsNum.fin 1704067200000).sub (isoDateParse "2020-01-15T10:30:00")).divPos
      (1000 * 60 * 60) = .fin (69435 / 2) := by
  refine ⟨by decide!, by decide!, by decide!, by decide!, by decide!, by decide!, by decide!,
    by decide!⟩


/-! ### Hamming distance -/

theorem nibble_hex_single : ∀ a1 a2 a3 a4 : Bool,
    (toHexString (parseIntBinary (bitString [a1, a2, a3, a4]))).length = 1 := by
  decide

theorem nibble_popcount : ∀ a1 a2 a3 a4 b1 b2 b3 b4 : Bool,
    countSetBits
      ((parseIntHexDigit
          ((toHexString (parseIntBinary (bitString [a1, a2, a3, a4]))).headD '0')).getD 0 ^^^
        (parseIntHexDigit
          ((toHexString (parseIntBinary (bitString [b1, b2, b3, b4]))).headD '0')).getD 0) =
      bitDifferences [a1, a2, a3, a4] [b1, b2, b3, b4] := by
  decide!

theorem nibble_hex_eq (a1 a2 a3 a4 : Bool) :
    toHexString (parseIntBinary (bitString [a1, a2, a3, a4])) =
      [(toHexString (parseIntBinary (bitString [a1, a2, a3, a4]))).headD '0'] := by
  have h := nibble_hex_single a1 a2 a3 a4
  cases hl : toHexString (parseIntBinary (bitString [a1, a2, a3, a4])) with
  | nil => rw [hl] at h; simp at h
  | cons c cs =>
    rw [hl] at h
    cases cs with
    | nil => rfl
    | cons d ds => simp at h

theorem binaryToHex_chunk (a1 a2 a3 a4 : Bool) (rest : List Bool) :
    binaryToHex (bitString (a1 :: a2 :: a3 :: a4 :: rest)) =
      (toHexString (parseIntBinary (bitString [a1, a2, a3, a4]))).headD '0' ::
        binaryToHex (bitString rest) := by
  have h : binaryToHex (bitString (a1 :: a2 :: a3 :: a4 :: rest)) =
      toHexString (parseIntBinary (bitString [a1, a2, a3, a4])) ++
        binaryToHex (bitString rest) := by
    simp [bitString, binaryToHex]
  rw [h, nibble_hex_eq a1 a2 a3 a4]
  rfl

theorem bitDifferences_chunk (a1 a2 a3 a4 b1 b2 b3 b4 : Bool) (as bs : List Bool) :
    bitDifferences (a1 :: a2 :: a3 :: a4 :: as) (b1 :: b2 :: b3 :: b4 :: bs) =
      bitDifferences [a1, a2, a3, a4] [b1, b2, b3, b4] + bitDifferences as bs := by
  simp only [bitDifferences]
  omega

/-- The loop over the hex encodings of two bit lists of the same length, a multiple of
four, adds the number of differing bits; each encoding has one digit per four bits. -/
theorem hammingLoop_bits (n : Nat) :
    ∀ (a b : List Bool), a.length = 4 * n → b.length = 4 * n →
      (∀ distance, hammingLoop (binaryToHex (bitString a)) (binaryToHex (bitString b))
        distance = distance + bitDifferences a b) ∧
      (binaryToHex (bitString a)).length = n ∧ (binaryToHex (bitString b)).length = n := by
  induction n with
  | zero =>
    intro a b ha hb
    have ha0 : a = [] := List.length_eq_zero.mp (by simpa using ha)
    have hb0 : b = [] := List.length_eq_zero.mp (by simpa using hb)
    subst ha0 hb0
    exact ⟨fun d => rfl, rfl, rfl⟩
  | succ n ih =>
    intro a b ha hb
    rcases a with _ | ⟨a1, _ | ⟨a2, _ | ⟨a3, _ | ⟨a4, as⟩⟩⟩⟩
    · simp at ha
    · simp at ha; omega
    · simp at ha; omega
    · simp at ha; omega
    rcases b with _ | ⟨b1, _ | ⟨b2, _ | ⟨b3, _ | ⟨b4, bs⟩⟩⟩⟩
    · simp at hb
    · simp at hb; omega
    · simp at hb; omega
    · simp at hb; omega
    have ha2 : as.length = 4 * n := by simp at ha; omega
    have hb2 : bs.length = 4 * n := by simp at hb; omega
    obtain ⟨h1, h2, h3⟩ := ih as bs ha2 hb2
    rw [binaryToHex_chunk, binaryToHex_chunk]
    refine ⟨?_, by simp [h2], by simp [h3]⟩
    intro distance
    rw [hammingLoop, h1, nibble_popcount, bitDifferences_chunk a1 a2 a3 a4 b1 b2 b3 b4 as bs]
    omega

/-- C20: Hamming distance correctness. For all 64-bit bit strings `a` and `b`,
`calculateHammingDistance(binaryToHex(a), binaryToHex(b))` is the number of positions at
which `a` and `b` differ. -/
theorem hamming_distance_counts_differing_bits (a b : List Bool)
    (ha : a.length = 64) (hb : b.length = 64) :
    calculateHammingDistance (some (String.mk (binaryToHex (bitString a))))
      (some (String.mk (binaryToHex (bitString b)))) = bitDifferences a b := by
  obtain ⟨h1, h2, h3⟩ := hammingLoop_bits 16 a b (by omega) (by omega)
  unfold calculateHammingDistance
  have e1 : (binaryToHex (bitString a)).isEmpty = false := by
    cases hl : binaryToHex (bitString a) with
    | nil => rw [hl] at h2; simp at h2
    | cons c cs => rfl
  have e2 : (binaryToHex (bitString b)).isEmpty = false := by
    cases hl : binaryToHex (bitString b) with
    | nil => rw [hl] at h3; simp at h3
    | cons c cs => rfl
  simp only [e1, e2, h2, h3, bne_self_eq_false, Bool.or_self, Bool.false_eq_true, if_false,
    h1, Nat.zero_add]

/-- C20 at the all-zero string against the string with bits 0, 5 and 63 set: distance 3. -/
theorem hamming_distance_counts_differing_bits_witness :
    calculateHammingDistance
      (some (String.mk (binaryToHex (bitString (List.replicate 64 false)))))
      (some (String.mk (binaryToHex (bitString
        ([true, false, false, false, false, true] ++ List.replicate 57 false ++ [true]))))) =
      3 :=
  (hamming_distance_counts_differing_bits (List.replicate 64 false)
    ([true, false, false, false, false, true] ++ List.replicate 57 false ++ [true])
    (by decide) (by decide)).trans (by decide)

/-! ## Perceptual hash -/

theorem dHashBits_length (pixels : List Nat) : (dHashBits pixels).length = 64 := rfl

theorem dHashBits_getD (pixels : List Nat) (r c : Nat) (hr : r < 8) (hc : c < 8) :
    (dHashBits pixels).getD (8 * r + c) false = pixelLess pixels (r * 9 + c) := by
  interval_cases r <;> interval_cases c <;> rfl

theorem pixelLess_inside (pixels : List Nat) (i : Nat) (hi : i + 1 < pixels.length) :
    pixelLess pixels i = decide (pixels.getD i 0 < pixels.getD (i + 1) 0) := by
  have h0 : i < pixels.length := by omega
  simp [pixelLess, List.getD_eq_getElem?_getD, List.getElem?_eq_getElem h0,
    List.getElem?_eq_getElem hi]

theorem bitDifferences_self (a : List Bool) : bitDifferences a a = 0 := by
  induction a with
  | nil => rfl
  | cons x xs ih => simp [bitDifferences, ih]

theorem nibble_bit : ∀ a1 a2 a3 a4 : Bool, ∀ j : Fin 4,
    ((parseIntHexDigit
        ((toHexString (parseIntBinary (bitString [a1, a2, a3, a4]))).headD '0')).getD
      0).testBit (3 - j.val) = [a1, a2, a3, a4].getD j.val false := by
  decide!

/-- Reading the hex encoding of a bit list back, four bits per digit, gives the bits. -/
theorem hashBit_bits (n : Nat) :
    ∀ (a : List Bool), a.length = 4 * n → ∀ i, i < 4 * n →
      hashBit (String.mk (binaryToHex (bitString a))) i = a.getD i false := by
  induction n with
  | zero => intro a _ i hi; omega
  | succ n ih =>
    intro a ha i hi
    rcases a with _ | ⟨a1, _ | ⟨a2, _ | ⟨a3, _ | ⟨a4, as⟩⟩⟩⟩
    · simp at ha
    · simp at ha; omega
    · simp at ha; omega
    · simp at ha; omega
    · have hlen : as.length = 4 * n := by simp at ha; omega
      by_cases h4 : i < 4
      · have hb := nibble_bit a1 a2 a3 a4 ⟨i, h4⟩
        have hd : i / 4 = 0 := by omega
        have hm : i % 4 = i := by omega
        simp only [hashBit, binaryToHex_chunk, hd, hm, List.getD_cons_zero]
        rw [hb]
        interval_cases i <;> rfl
      · obtain ⟨j, rfl⟩ : ∃ j, i = j + 4 := ⟨i - 4, by omega⟩
        have hj := ih as hlen j (by omega)
        have hd : (j + 4) / 4 = j / 4 + 1 := by omega
        have hm : (j + 4) % 4 = j % 4 := by omega
        simp only [hashBit, binaryToHex_chunk, hd, hm, List.getD_cons_succ] at hj ⊢
        exact hj

/-- The hex encodings of two lists of 64 bits are 16 digits long and their Hamming
distance is the number of differing bits. -/
theorem hammingDistance_of_bits (a b : List Bool) (ha : a.length = 64) (hb : b.length = 64) :
    (binaryToHex (bitString a)).length = 16 ∧
    calculateHammingDistance (some (String.mk (binaryToHex (bitString a))))
      (some (String.mk (binaryToHex (bitString b)))) = bitDifferences a b := by
  obtain ⟨h1, h2, h3⟩ := hammingLoop_bits 16 a b (by omega) (by omega)
  refine ⟨h2, ?_⟩
  unfold calculateHammingDistance
  have e1 : (binaryToHex (bitString a)).isEmpty = false := by
    cases hl : binaryToHex (bitString a) with
    | nil => rw [hl] at h2; simp at h2
    | cons c cs => rfl
  have e2 : (binaryToHex (bitString b)).isEmpty = false := by
    cases hl : binaryToHex (bitString b) with
    | nil => rw [hl] at h3; simp at h3
    | cons c cs => rfl
  simp only [e1, e2, h2, h3, bne_self_eq_false, Bool.or_self, Bool.false_eq_true, if_false]
  rw [h1 0, Nat.zero_add]

theorem generatePerceptualHash_length (pixels : List Nat) :
    (generatePerceptualHash pixels).length = 16 :=
  (hammingDistance_of_bits (dHashBits pixels) (dHashBits pixels) rfl rfl).1

theorem hammingDistance_same_pixels (pixels : List Nat) :
    calculateHammingDistance (some (generatePerceptualHash pixels))
      (some (generatePerceptualHash pixels)) = 0 :=
  ((hammingDistance_of_bits (dHashBits pixels) (dHashBits pixels) rfl rfl).2).trans
    (bitDifferences_self _)

theorem jsRound_similarityOf_zero : jsRound (similarityOf 0) = 100 := by decide!

theorem jsRound_similarityOf_full : jsRound (similarityOf 64) = 0 := by decide!

theorem similarityOf_range (h : Nat) : 0 ≤ similarityOf h ∧ similarityOf h ≤ 100 := by
  refine ⟨le_max_left _ _, max_le (by norm_num) ?_⟩
  have : (0 : ℚ) ≤ (h : ℚ) / 64 * 100 := by positivity
  linarith

theorem jsRound_similarityOf_range (h : Nat) :
    0 ≤ jsRound (similarityOf h) ∧ jsRound (similarityOf h) ≤ 100 := by
  obtain ⟨h0, h1⟩ := similarityOf_range h
  constructor
  · exact Int.floor_nonneg.mpr (by linarith)
  · have : jsRound (similarityOf h) < 101 := Int.floor_lt.mpr (by push_cast; linarith)
    omega

/-- C21: two images that resize to the same pixel values get the same hash of 16 hex
digits, Hamming distance 0, and `compareImages` reports similarity 100. -/
theorem identical_images_compare_equal (pixels : List Nat) :
    (compareImages (.ok pixels) (.ok pixels)).beforeHash =
      (compareImages (.ok pixels) (.ok pixels)).afterHash ∧
    (compareImages (.ok pixels) (.ok pixels)).beforeHash =
      some (generatePerceptualHash pixels) ∧
    (generatePerceptualHash pixels).length = 16 ∧
    calculateHammingDistance (some (generatePerceptualHash pixels))
      (some (generatePerceptualHash pixels)) = 0 ∧
    (compareImages (.ok pixels) (.ok pixels)).hashDifference = 0 ∧
    (compareImages (.ok pixels) (.ok pixels)).similarity = 100 := by
  refine ⟨rfl, rfl, generatePerceptualHash_length pixels, hammingDistance_same_pixels pixels,
    hammingDistance_same_pixels pixels, ?_⟩
  show jsRound (similarityOf (calculateHammingDistance (some (generatePerceptualHash pixels))
    (some (generatePerceptualHash pixels)))) = 100
  rw [hammingDistance_same_pixels]
  exact jsRound_similarityOf_zero

/-- C22: on a grid of 72 pixels `generatePerceptualHash` computes 64 bits, written as 16
hex digits, and the bit of row `r` and column `c` is 1 exactly when the pixel at
`(r, c)` is darker than the pixel at `(r, c + 1)`. -/
theorem dhash_bits_compare_neighbours (pixels : List Nat) (h : pixels.length = 72) :
    (dHashBits pixels).length = 64 ∧
    (generatePerceptualHash pixels).length = 16 ∧
    ∀ r c, r < 8 → c < 8 →
      (hashBit (generatePerceptualHash pixels) (8 * r + c) = true ↔
        pixels.getD (9 * r + c) 0 < pixels.getD (9 * r + (c + 1)) 0) := by
  refine ⟨rfl, generatePerceptualHash_length pixels, ?_⟩
  intro r c hr hc
  have hb := hashBit_bits 16 (dHashBits pixels) rfl (8 * r + c) (by omega)
  have hp := pixelLess_inside pixels (r * 9 + c) (by omega)
  have e1 : r * 9 + c = 9 * r + c := by omega
  have e2 : r * 9 + c + 1 = 9 * r + (c + 1) := by omega
  rw [e2, e1] at hp
  show hashBit (String.mk (binaryToHex (bitString (dHashBits pixels)))) (8 * r + c) = true ↔ _
  rw [hb, dHashBits_getD pixels r c hr hc, e1, hp]
  exact decide_eq_true_iff

theorem dhash_bits_compare_neighbours_witness :
    risingGrid.length = 72 ∧
    (generatePerceptualHash risingGrid).length = 16 ∧
    (hashBit (generatePerceptualHash risingGrid) (8 * 7 + 7) = true ↔
      risingGrid.getD (9 * 7 + 7) 0 < risingGrid.getD (9 * 7 + (7 + 1)) 0) :=
  ⟨by decide, (dhash_bits_compare_neighbours risingGrid (by decide)).2.1,
    (dhash_bits_compare_neighbours risingGrid (by decide)).2.2 7 7 (by decide) (by decide)⟩

/-- C30: for every two hashes, null, empty, of unequal length or longer than 16 digits
included, the success path of `compareImages` returns an integer similarity between 0
and 100, and 0 when either hash is null or empty or the lengths differ. -/
theorem success_similarity_in_range (hash1 hash2 : Option String) :
    0 ≤ (compareHashes hash1 hash2).similarity ∧
    (compareHashes hash1 hash2).similarity ≤ 100 ∧
    (compareHashes hash1 hash2).similarity =
      jsRound (max 0 (100 - ((calculateHammingDistance hash1 hash2 : ℚ) / 64) * 100)) ∧
    (hash1 = none ∨ hash2 = none → (compareHashes hash1 hash2).similarity = 0) ∧
    (∀ h1 h2, hash1 = some h1 → hash2 = some h2 →
      h1.length = 0 ∨ h2.length = 0 ∨ h1.length ≠ h2.length →
      (compareHashes hash1 hash2).similarity = 0) ∧
    (∀ pixels1 pixels2,
      (compareImages (.ok pixels1) (.ok pixels2)).similarity =
        (compareHashes (some (generatePerceptualHash pixels1))
          (some (generatePerceptualHash pixels2))).similarity) := by
  refine ⟨(jsRound_similarityOf_range _).1, (jsRound_similarityOf_range _).2, rfl, ?_, ?_,
    fun _ _ => rfl⟩
  · intro hn
    have hd : calculateHammingDistance hash1 hash2 = 64 := by
      rcases hn with hn | hn
      · subst hn; rfl
      · subst hn; cases hash1 <;> rfl
    show jsRound (similarityOf (calculateHammingDistance hash1 hash2)) = 0
    rw [hd]
    exact jsRound_similarityOf_full
  · intro h1 h2 e1 e2 hl
    subst e1 e2
    have hd : calculateHammingDistance (some h1) (some h2) = 64 := by
      unfold calculateHammingDistance
      have hc : (h1.data.isEmpty || h2.data.isEmpty || h1.data.length != h2.data.length) =
          true := by
        simp only [String.length] at hl
        rcases hl with hl | hl | hl
        · simp [List.isEmpty_iff, List.length_eq_zero.mp hl]
        · simp [List.isEmpty_iff, List.length_eq_zero.mp hl]
        · exact Bool.or_eq_true_iff.mpr (Or.inr (by simpa using hl))
      simp only [hc, if_true]
    show jsRound (similarityOf (calculateHammingDistance (some h1) (some h2))) = 0
    rw [hd]
    exact jsRound_similarityOf_full

/-! ## Which flags the strict pipeline raises -/

theorem stepLocation_any (P : StrictFlag → Bool) (d : JsNum) (s : Suspicion) :
    (stepLocation d s).1.suspicionFlags.any P =
      (s.suspicionFlags.any P || (JsNum.gt d 20 && P (.workerNotAtLocation d))) := by
  unfold stepLocation STRICT_MAX_LOCATION_DISTANCE
  split <;> simp_all [Suspicion.push]

theorem stepExifGps_any (P : StrictFlag → Bool) (env : Env) (lat lng : JsNum) (e : ExifData)
    (s : Suspicion) :
    (stepExifGps env lat lng e s).suspicionFlags.any P =
      (s.suspicionFlags.any P ||
        (match e.gps with
         | some g =>
           JsNum.gt (env.calculateDistance lat lng g.latitude g.longitude) 10 &&
             P (.exifGpsDiffers (env.calculateDistance lat lng g.latitude g.longitude))
         | none => P .noGpsMetadata)) := by
  unfold stepExifGps MAX_EXIF_DEVIATION
  cases e.gps with
  | none => simp [Suspicion.push]
  | some g =>
    simp only []
    split <;> simp_all [Suspicion.push]

theorem stepExifTimestamp_any (P : StrictFlag → Bool) (env : Env) (now : JsNum)
    (e : ExifData) (s : Suspicion) :
    (stepExifTimestamp env now e s).suspicionFlags.any P =
      (s.suspicionFlags.any P ||
        (if e.hasTimestamp then
          JsNum.gt (hoursDiff env now (e.timestamp.getD "")) 24 &&
            P (.imageTimestampOld (hoursDiff env now (e.timestamp.getD "")))
         else P .noTimestamp)) := by
  unfold stepExifTimestamp
  cases e.hasTimestamp with
  | false => simp [Suspicion.push]
  | true =>
    simp only [if_true]
    split <;> simp_all [Suspicion.push]

theorem stepSimilarity_any (P : StrictFlag → Bool) (sim : JsNum) (s : Suspicion) :
    (stepSimilarity sim s).suspicionFlags.any P =
      (s.suspicionFlags.any P || (JsNum.gt sim 95 && P .nearlyIdentical) ||
        (JsNum.lt sim 5 && P .completelyUnrelated)) := by
  unfold stepSimilarity
  by_cases h1 : JsNum.gt sim 95 = true <;> by_cases h2 : JsNum.lt sim 5 = true <;>
    simp [Suspicion.push, h1, h2, Bool.or_assoc]

theorem stepAi_any (P : StrictFlag → Bool) (v : StrictVerdict) (s : Suspicion) :
    (stepAi v s).suspicionFlags.any P =
      (s.suspicionFlags.any P || (v.suspicious && P (.aiReason v.suspicion_reason)) ||
        (v.fake_detected && P .aiFakeDetected) ||
        (!v.same_location && P .aiDifferentLocation) ||
        (!v.issue_resolved && P .aiNotResolved)) := by
  unfold stepAi
  cases v.suspicious <;> cases v.fake_detected <;> cases v.same_location <;>
    cases v.issue_resolved <;> simp [Suspicion.push, Bool.or_assoc]

/-- The flags of a strict assessment, read through a test on flags: one disjunct per
check of the pipeline. -/
theorem strictAssess_any (P : StrictFlag → Bool) (env : Env) (i : StrictInputs) :
    (strictAssess env i).suspicionFlags.any P =
      ((JsNum.gt (strictAssess env i).locationDistance 20 &&
          P (.workerNotAtLocation (strictAssess env i).locationDistance)) ||
        (match i.exifData.gps with
         | some g =>
           JsNum.gt (env.calculateDistance i.latitude i.longitude g.latitude g.longitude) 10 &&
             P (.exifGpsDiffers
               (env.calculateDistance i.latitude i.longitude g.latitude g.longitude))
         | none => P .noGpsMetadata) ||
        (if i.exifData.hasTimestamp then
          JsNum.gt (hoursDiff env i.now (i.exifData.timestamp.getD "")) 24 &&
            P (.imageTimestampOld (hoursDiff env i.now (i.exifData.timestamp.getD "")))
         else P .noTimestamp) ||
        (JsNum.gt i.similarity 95 && P .nearlyIdentical) ||
        (JsNum.lt i.similarity 5 && P .completelyUnrelated) ||
        (i.aiVerification.suspicious && P (.aiReason i.aiVerification.suspicion_reason)) ||
        (i.aiVerification.fake_detected && P .aiFakeDetected) ||
        (!i.aiVerification.same_location && P .aiDifferentLocation) ||
        (!i.aiVerification.issue_resolved && P .aiNotResolved)) := by
  simp only [strictAssess, stepAi_any, stepSimilarity_any, stepExifTimestamp_any,
    stepExifGps_any, stepLocation_any, Suspicion.init, List.any_nil, Bool.false_or]

theorem strictAssess_nearlyIdentical (env : Env) (i : StrictInputs) :
    (strictAssess env i).suspicionFlags.any StrictFlag.isNearlyIdentical =
      JsNum.gt i.similarity 95 := by
  rw [strictAssess_any]
  cases i.exifData.gps <;> cases i.exifData.hasTimestamp <;>
    simp [StrictFlag.isNearlyIdentical]

theorem strictAssess_completelyUnrelated (env : Env) (i : StrictInputs) :
    (strictAssess env i).suspicionFlags.any StrictFlag.isCompletelyUnrelated =
      JsNum.lt i.similarity 5 := by
  rw [strictAssess_any]
  cases i.exifData.gps <;> cases i.exifData.hasTimestamp <;>
    simp [StrictFlag.isCompletelyUnrelated]

theorem rounded_similarity_thresholds : ∀ h : Fin 65,
    (JsNum.gt (.fin (jsRound (similarityOf h.val) : ℚ)) 95 = decide (h.val ≤ 2)) ∧
    (JsNum.lt (.fin (jsRound (similarityOf h.val) : ℚ)) 5 = decide (62 ≤ h.val)) ∧
    (JsNum.lt (.fin (jsRound (similarityOf h.val) : ℚ)) 10 = decide (58 ≤ h.val)) := by
  decide!

/-- C23, at a counterexample: two grids at Hamming distance 3 have unrounded similarity
95.3125, above 95, but `compareImages` returns the rounded 95 and the strict pipeline
raises no near-duplicate flag; two grids at distance 61 have unrounded similarity 4.6875,
below 5, but the returned value is 5 and no unrelated flag is raised. -/
theorem unrounded_similarity_crosses_threshold_without_flag :
    (compareImages (.ok flatGrid) (.ok threeStepGrid)).hashDifference = 3 ∧
    similarityOf 3 > 95 ∧
    (compareImages (.ok flatGrid) (.ok threeStepGrid)).similarity = 95 ∧
    (strictAssess (exampleEnv 5 0 0)
      (exampleInputs fullExif (compareImages (.ok flatGrid) (.ok threeStepGrid)).similarityNum
        specExampleVerdict)).suspicionFlags.any StrictFlag.isNearlyIdentical = false ∧
    (compareImages (.ok risingGrid) (.ok threeStepGrid)).hashDifference = 61 ∧
    similarityOf 61 < 5 ∧
    (compareImages (.ok risingGrid) (.ok threeStepGrid)).similarity = 5 ∧
    (strictAssess (exampleEnv 5 0 0)
      (exampleInputs fullExif (compareImages (.ok risingGrid) (.ok threeStepGrid)).similarityNum
        specExampleVerdict)).suspicionFlags.any StrictFlag.isCompletelyUnrelated = false := by
  decide!

/-- C23, amended: the similarity that `compareImages` returns for Hamming distance `h` in
0..64 is `max(0, 100 - (h / 64) * 100)` rounded to the nearest integer; the strict
pipeline raises the near-duplicate flag exactly when that rounded value is above 95,
that is for `h` at most 2, and the unrelated flag exactly when it is below 5, that is
for `h` at least 62. -/
theorem strict_similarity_flags_use_rounded_value (env : Env) (i : StrictInputs) (h : Nat)
    (hh : h ≤ 64) :
    (∀ before after, calculateHammingDistance before after = h →
      (compareHashes before after).similarityNum = .fin (jsRound (similarityOf h) : ℚ)) ∧
    ((strictAssess env
        { i with similarity := .fin (jsRound (similarityOf h) : ℚ) }).suspicionFlags.any
        StrictFlag.isNearlyIdentical = true ↔ 95 < jsRound (similarityOf h)) ∧
    (95 < jsRound (similarityOf h) ↔ h ≤ 2) ∧
    ((strictAssess env
        { i with similarity := .fin (jsRound (similarityOf h) : ℚ) }).suspicionFlags.any
        StrictFlag.isCompletelyUnrelated = true ↔ jsRound (similarityOf h) < 5) ∧
    (jsRound (similarityOf h) < 5 ↔ 62 ≤ h) := by
  obtain ⟨t1, t2, _⟩ := rounded_similarity_thresholds ⟨h, by omega⟩
  simp only [] at t1 t2
  have g1 : JsNum.gt (.fin (jsRound (similarityOf h) : ℚ)) 95 = true ↔
      95 < jsRound (similarityOf h) := by
    have : (95 : JsNum) = .fin ((95 : Int) : ℚ) := by
      show JsNum.fin _ = _
      norm_num
    rw [this]
    simp only [JsNum.gt, JsNum.lt, decide_eq_true_eq, gt_iff_lt, Int.cast_lt]
  have g2 : JsNum.lt (.fin (jsRound (similarityOf h) : ℚ)) 5 = true ↔
      jsRound (similarityOf h) < 5 := by
    have : (5 : JsNum) = .fin ((5 : Int) : ℚ) := by
      show JsNum.fin _ = _
      norm_num
    rw [this]
    simp only [JsNum.lt, decide_eq_true_eq, Int.cast_lt]
  refine ⟨?_, ?_, ?_, ?_, ?_⟩
  · intro before after hd
    show JsNum.fin (jsRound (similarityOf (calculateHammingDistance before after)) : ℚ) = _
    rw [hd]
  · rw [strictAssess_nearlyIdentical]
    exact g1
  · rw [← g1, t1]
    exact decide_eq_true_iff
  · rw [strictAssess_completelyUnrelated]
    exact g2
  · rw [← g2, t2]
    exact decide_eq_true_iff

theorem strict_similarity_flags_use_rounded_value_witness :
    (2 ≤ 64) ∧
    ((strictAssess (exampleEnv 5 0 0)
        { exampleInputs fullExif 50 specExampleVerdict with
          similarity := .fin (jsRound (similarityOf 2) : ℚ) }).suspicionFlags.any
        StrictFlag.isNearlyIdentical = true ↔ 95 < jsRound (similarityOf 2)) ∧
    (95 < jsRound (similarityOf 2) ↔ 2 ≤ 2) :=
  ⟨by decide,
    (strict_similarity_flags_use_rounded_value (exampleEnv 5 0 0)
      (exampleInputs fullExif 50 specExampleVerdict) 2 (by decide)).2.1,
    (strict_similarity_flags_use_rounded_value (exampleEnv 5 0 0)
      (exampleInputs fullExif 50 specExampleVerdict) 2 (by decide)).2.2.1⟩

theorem standardAssess_similarityFlag (env : Env) (i : StandardInputs) :
    (standardAssess env i).suspicionFlags.any StandardFlag.isSimilarityFlag =
      (JsNum.gt i.similarity 95 || JsNum.lt i.similarity 10) := by
  simp only [standardAssess, stdStepLocation, stdStepExif, stdStepSimilarity, stdStepAi,
    MAX_LOCATION_DISTANCE]
  cases i.exifData.gps <;>
  cases (coordTruthy i.reportLatitude && coordTruthy i.reportLongitude) <;>
  cases JsNum.gt (env.calculateDistance (i.reportLatitude.getD .nan)
          (i.reportLongitude.getD .nan) i.latitude i.longitude) 100 <;>
  cases JsNum.gt i.similarity 95 <;>
  cases JsNum.lt i.similarity 10 <;>
  cases i.aiVerification.suspicious <;>
  cases i.aiVerification.suspicion_reason.truthy <;>
  simp [StandardFlag.isSimilarityFlag]

theorem fallback_similarity_inside : ∀ message : String,
    JsNum.gt (compareImagesFallback message).similarityNum 95 = false ∧
    JsNum.lt (compareImagesFallback message).similarityNum 5 = false ∧
    JsNum.lt (compareImagesFallback message).similarityNum 10 = false := by
  intro message
  have e : (compareImagesFallback message).similarityNum = .fin ((50 : Int) : ℚ) := rfl
  rw [e]
  decide!

/-- C24: when a download or the hashing of either image fails, `compareImages` returns
similarity 50 and hash difference 32; that similarity leaves the strict flags and score
and the standard flags as they were, and raises neither the near-duplicate nor the
unrelated flag in either pipeline. -/
theorem comparison_failure_is_neutral (message : String) :
    (∀ after, compareImages (.error message) after = compareImagesFallback message) ∧
    (∀ pixels, compareImages (.ok pixels) (.error message) = compareImagesFallback message) ∧
    (compareImagesFallback message).similarity = 50 ∧
    (compareImagesFallback message).hashDifference = 32 ∧
    (∀ s, stepSimilarity (compareImagesFallback message).similarityNum s = s) ∧
    (∀ flags, stdStepSimilarity (compareImagesFallback message).similarityNum flags = flags) ∧
    (∀ env (i : StrictInputs),
      (strictAssess env
        { i with similarity := (compareImagesFallback message).similarityNum
          }).suspicionFlags.any StrictFlag.isNearlyIdentical = false ∧
      (strictAssess env
        { i with similarity := (compareImagesFallback message).similarityNum
          }).suspicionFlags.any StrictFlag.isCompletelyUnrelated = false) ∧
    (∀ env (i : StandardInputs),
      (standardAssess env
        { i with similarity := (compareImagesFallback message).similarityNum
          }).suspicionFlags.any StandardFlag.isSimilarityFlag = false) := by
  obtain ⟨f1, f2, f3⟩ := fallback_similarity_inside message
  refine ⟨fun after => ?_, fun _ => rfl, rfl, rfl, fun s => ?_, fun flags => ?_,
    fun env i => ⟨?_, ?_⟩, fun env i => ?_⟩
  · cases after <;> rfl
  · simp only [stepSimilarity, f1, f3, f2, Bool.false_eq_true, if_false]
  · simp only [stdStepSimilarity, f1, f3, Bool.false_eq_true, if_false]
  · rw [strictAssess_nearlyIdentical]; exact f1
  · rw [strictAssess_completelyUnrelated]; exact f2
  · rw [standardAssess_similarityFlag]
    simp only [f1, f3, Bool.or_self]

theorem selectDuplicates_nonempty (store : List ResolutionRecord) (reportId email : String) :
    checkDuplicateResolution store reportId email = true ↔
      ∃ r ∈ store, r.report_id = reportId ∧ r.worker_email = toLowerCase email := by
  unfold checkDuplicateResolution checkDuplicateResult selectDuplicates
  simp only [decide_eq_true_eq, gt_iff_lt, List.length_pos, ne_eq, List.take_eq_nil_iff,
    List.filter_eq_nil_iff, not_or, not_forall]
  constructor
  · rintro ⟨_, r, hr, hp⟩
    refine ⟨r, hr, ?_⟩
    simpa using hp
  · rintro ⟨r, hr, h1, h2⟩
    exact ⟨by decide, r, hr, by simp [h1, h2]⟩

theorem selectDuplicatesByWorker_nonempty (store : List ResolutionRecord)
    (reportId workerId : String) :
    checkDuplicateResultByWorker (.rows (selectDuplicatesByWorker store reportId workerId)) =
        true ↔
      ∃ r ∈ store, r.report_id = reportId ∧ r.worker_id = workerId := by
  unfold checkDuplicateResultByWorker selectDuplicatesByWorker
  simp only [decide_eq_true_eq, gt_iff_lt, List.length_pos, ne_eq, List.take_eq_nil_iff,
    List.filter_eq_nil_iff, not_or, not_forall]
  constructor
  · rintro ⟨_, r, hr, hp⟩
    refine ⟨r, hr, ?_⟩
    simpa using hp
  · rintro ⟨r, hr, h1, h2⟩
    exact ⟨by decide, r, hr, by simp [h1, h2]⟩

/-- C25: both versions of `checkDuplicateResolution` answer false when the lookup returns
an error or throws, so the strict handler does not reject the submission as a
duplicate; when the lookup succeeds they answer true exactly when the table holds a row
that matches the query. -/
theorem duplicate_guard_fails_open (message : String) :
    checkDuplicateResult (.error message) = false ∧
    checkDuplicateResult (.thrown message) = false ∧
    checkDuplicateResultByWorker (.error message) = false ∧
    checkDuplicateResultByWorker (.thrown message) = false ∧
    (∀ env store r,
      (strictVerifyResolutionAfterCheck (checkDuplicateResult (.error message))
        env store r).2.isDuplicate = false ∧
      (strictVerifyResolutionAfterCheck (checkDuplicateResult (.thrown message))
        env store r).2.isDuplicate = false) ∧
    (∀ data, checkDuplicateResult (.rows data) = true ↔ data ≠ []) ∧
    (∀ data, checkDuplicateResultByWorker (.rows data) = true ↔ data ≠ []) ∧
    (∀ store reportId email,
      checkDuplicateResult (.rows (selectDuplicates store reportId email)) = true ↔
        ∃ r ∈ store, r.report_id = reportId ∧ r.worker_email = toLowerCase email) ∧
    (∀ store reportId workerId,
      checkDuplicateResultByWorker
          (.rows (selectDuplicatesByWorker store reportId workerId)) = true ↔
        ∃ r ∈ store, r.report_id = reportId ∧ r.worker_id = workerId) := by
  have hopen : ∀ env store r,
      (strictVerifyResolutionAfterCheck false env store r).2.isDuplicate = false := by
    intro env store r
    unfold strictVerifyResolutionAfterCheck
    simp only [Bool.false_eq_true, if_false]
    cases r.afterImageUrl with
    | none => rfl
    | some url =>
      cases r.oracle with
      | error e => rfl
      | ok v => rfl
  refine ⟨rfl, rfl, rfl, rfl, fun env store r => ⟨hopen env store r, hopen env store r⟩,
    fun data => ?_, fun data => ?_, selectDuplicates_nonempty, selectDuplicatesByWorker_nonempty⟩
  · simp [checkDuplicateResult, List.length_pos]
  · simp [checkDuplicateResultByWorker, List.length_pos]

/-! ## Location gate of the standard pipeline, and the strict score profile -/

theorem standardAssess_locationMismatch (env : Env) (i : StandardInputs) :
    (standardAssess env i).suspicionFlags.any StandardFlag.isLocationMismatch =
      ((coordTruthy i.reportLatitude && coordTruthy i.reportLongitude) &&
        JsNum.gt (env.calculateDistance (i.reportLatitude.getD .nan)
          (i.reportLongitude.getD .nan) i.latitude i.longitude) 100) := by
  simp only [standardAssess, stdStepLocation, stdStepExif, stdStepSimilarity, stdStepAi,
    MAX_LOCATION_DISTANCE]
  cases i.exifData.gps <;>
  cases (coordTruthy i.reportLatitude && coordTruthy i.reportLongitude) <;>
  cases JsNum.gt (env.calculateDistance (i.reportLatitude.getD .nan)
          (i.reportLongitude.getD .nan) i.latitude i.longitude) 100 <;>
  cases JsNum.gt i.similarity 95 <;>
  cases JsNum.lt i.similarity 10 <;>
  cases i.aiVerification.suspicious <;>
  cases i.aiVerification.suspicion_reason.truthy <;>
  simp [StandardFlag.isLocationMismatch]

/-- C26, at a failing input: a report stored at latitude 0 and longitude 37 has valid
coordinates, and the worker stands at the same point, distance 0; `verifyResolution`
tests the stored latitude for truthiness, takes 0 for a missing coordinate, computes no
distance, leaves `locationMatch` false, raises the flag for a report without GPS
coordinates and ends suspicious, with every other check passing. For stored coordinates
that are both different from 0 the gate works as described: `locationMatch` is true
exactly when the distance is not above 100, and the mismatch flag is raised exactly when
it is above 100. -/
theorem equator_report_fails_location_gate :
    validateCoordinates (.num 0) (.num 37) = true ∧
    validateCoordinates (.num equatorInputs.latitude) (.num equatorInputs.longitude) = true ∧
    equatorInputs.reportLatitude = some 0 ∧
    (exampleEnv 0 0 0).calculateDistance 0 37 equatorInputs.latitude equatorInputs.longitude
      = 0 ∧
    JsNum.le 0 MAX_LOCATION_DISTANCE = true ∧
    (standardAssess (exampleEnv 0 0 0) equatorInputs).locationMatch = false ∧
    (standardAssess (exampleEnv 0 0 0) equatorInputs).locationDistance = none ∧
    (standardAssess (exampleEnv 0 0 0) equatorInputs).suspicionFlags.any
      StandardFlag.isReportHasNoCoordinates = true ∧
    (standardAssess (exampleEnv 0 0 0) equatorInputs).suspicionFlags.length = 1 ∧
    (standardAssess (exampleEnv 0 0 0) equatorInputs).verificationStatus = .suspicious ∧
    (standardAssess (exampleEnv 0 0 0)
      { equatorInputs with reportLatitude := some 1 }).verificationStatus = .verified ∧
    (∀ env (i : StandardInputs), coordTruthy i.reportLatitude = true →
      coordTruthy i.reportLongitude = true →
      ((standardAssess env i).locationMatch = true ↔
        JsNum.gt (env.calculateDistance (i.reportLatitude.getD .nan)
          (i.reportLongitude.getD .nan) i.latitude i.longitude) 100 = false) ∧
      ((standardAssess env i).suspicionFlags.any StandardFlag.isLocationMismatch = true ↔
        JsNum.gt (env.calculateDistance (i.reportLatitude.getD .nan)
          (i.reportLongitude.getD .nan) i.latitude i.longitude) 100 = true)) := by
  refine ⟨by decide!, by decide!, rfl, by decide!, by decide!, by decide!, by decide!,
    by decide!, by decide!, by decide!, by decide!, ?_⟩
  intro env i h1 h2
  rw [standardAssess_locationMatch, standardAssess_locationMismatch, h1, h2]
  simp

/-- C27: in strict mode an after-image with neither EXIF GPS nor a timestamp is marked
suspicious, whatever the other inputs: the two missing-metadata flags alone bring the
score to 30, which is not below 30. -/
theorem no_exif_evidence_is_suspicious (env : Env) (i : StrictInputs)
    (hg : i.exifData.gps = none) (ht : i.exifData.hasTimestamp = false) :
    (strictAssess env i).verificationStatus = .suspicious ∧
    30 ≤ (strictAssess env i).suspicionScore ∧
    (strictAssess env i).allChecksPassed = false := by
  have hs : 30 ≤ (strictAssess env i).suspicionScore := by
    rw [strictAssess_score]
    simp only [specStrictScore, hg, ht]
    simp only [Bool.false_and, Bool.false_eq_true, if_false]
    omega
  have hne : (strictAssess env i).verificationStatus ≠ .verified := by
    rw [strictAssess_status]
    intro hv
    have := (strictStatus_verified_iff _ _ _ _).mp hv
    omega
  refine ⟨strictStatus_cases_of_assess env i hne, hs, ?_⟩
  have hst : (strictAssess env i).verificationStatus =
      if (strictAssess env i).allChecksPassed then .verified else .suspicious := rfl
  cases hp : (strictAssess env i).allChecksPassed with
  | false => rfl
  | true => rw [hst, hp] at hne; exact absurd rfl hne

theorem no_exif_evidence_is_suspicious_witness :
    (exampleInputs bareExif 50 specExampleVerdict).exifData.gps = none ∧
    (exampleInputs bareExif 50 specExampleVerdict).exifData.hasTimestamp = false ∧
    (strictAssess (exampleEnv 5 0 0)
      (exampleInputs bareExif 50 specExampleVerdict)).verificationStatus = .suspicious ∧
    (strictAssess (exampleEnv 5 0 0)
      (exampleInputs bareExif 50 specExampleVerdict)).suspicionScore = 30 :=
  ⟨rfl, rfl,
    (no_exif_evidence_is_suspicious (exampleEnv 5 0 0)
      (exampleInputs bareExif 50 specExampleVerdict) rfl rfl).1, by decide!⟩

theorem JsNum.between_of_no_flag (sim : JsNum) (hn : sim ≠ .nan)
    (h1 : JsNum.gt sim 95 = false) (h2 : JsNum.lt sim 5 = false) :
    JsNum.le 5 sim = true ∧ JsNum.le sim 95 = true := by
  have e5 : (5 : JsNum) = .fin 5 := rfl
  have e95 : (95 : JsNum) = .fin 95 := rfl
  rw [e95] at h1 ⊢
  rw [e5] at h2 ⊢
  cases sim with
  | nan => exact absurd rfl hn
  | negInf => simp [JsNum.lt] at h2
  | posInf => simp [JsNum.gt, JsNum.lt] at h1
  | fin q =>
    simp only [JsNum.gt] at h1
    simp only [JsNum.le, h1, h2, Bool.not_false, and_self]

theorem StrictFlag.weight_pos (f : StrictFlag) : 0 < f.weight := by
  cases f <;> simp [StrictFlag.weight]

theorem weights_sum_eq_zero (flags : List StrictFlag) :
    (flags.map StrictFlag.weight).sum = 0 ↔ flags = [] := by
  cases flags with
  | nil => simp
  | cons f fs =>
    have := StrictFlag.weight_pos f
    simp only [List.map_cons, List.sum_cons, reduceCtorEq, iff_false]
    omega

/-- C28: a strict submission that ends verified has a suspicion score of 0, 10, 15 or 20,
carries no flag from the distance check or from the oracle verdict, and, the similarity
being a number, has an image similarity between 5 and 95, bounds included. -/
theorem verified_strict_submission_profile (env : Env) (i : StrictInputs)
    (hsim : i.similarity ≠ .nan)
    (hv : (strictAssess env i).verificationStatus = .verified) :
    ((strictAssess env i).suspicionScore = 0 ∨ (strictAssess env i).suspicionScore = 10 ∨
      (strictAssess env i).suspicionScore = 15 ∨ (strictAssess env i).suspicionScore = 20) ∧
    (strictAssess env i).suspicionFlags.any StrictFlag.isDistanceOrOracle = false ∧
    JsNum.le 5 i.similarity = true ∧ JsNum.le i.similarity 95 = true := by
  rw [strictAssess_status] at hv
  obtain ⟨hm, _, hsame, hres, hfake, hsusp, _, hscore⟩ := (strictStatus_verified_iff _ _ _ _).mp hv
  rw [strictAssess_locationMatch] at hm
  have hd : JsNum.gt (strictAssess env i).locationDistance 20 = false := by
    simpa using hm
  have hd2 : JsNum.gt
      (env.calculateDistance i.reportLatitude i.reportLongitude i.latitude i.longitude) 20 =
        false := hd
  rw [strictAssess_score] at hscore
  have hsc := strictAssess_score env i
  have h95 : JsNum.gt i.similarity 95 = false := by
    by_contra hc
    have hc2 : JsNum.gt i.similarity 95 = true := by simpa using hc
    simp only [specStrictScore, hc2, if_true] at hscore
    omega
  have h5 : JsNum.lt i.similarity 5 = false := by
    by_contra hc
    have hc2 : JsNum.lt i.similarity 5 = true := by simpa using hc
    simp only [specStrictScore, hc2, if_true] at hscore
    omega
  refine ⟨?_, ?_, JsNum.between_of_no_flag i.similarity hsim h95 h5⟩
  · rw [hsc]
    revert hscore
    simp only [specStrictScore, hd2, h95, h5, hsame, hres, hfake, hsusp, Bool.false_eq_true,
      if_false, if_true]
    cases i.exifData.gps with
    | none =>
      cases i.exifData.hasTimestamp <;>
      cases JsNum.gt (hoursDiff env i.now (i.exifData.timestamp.getD "")) 24 <;>
      simp
    | some g =>
      by_cases hdev : JsNum.gt
          (env.calculateDistance i.latitude i.longitude g.latitude g.longitude) 10 = true <;>
      cases i.exifData.hasTimestamp <;>
      cases JsNum.gt (hoursDiff env i.now (i.exifData.timestamp.getD "")) 24 <;>
      simp [hdev]
  · rw [strictAssess_any]
    simp only [hd, h95, h5, hsame, hres, hfake, hsusp, Bool.false_and, Bool.not_true,
      Bool.or_false]
    cases i.exifData.gps <;> cases i.exifData.hasTimestamp <;>
      simp [StrictFlag.isDistanceOrOracle]

theorem verified_strict_submission_profile_witness :
    (exampleInputs gpsOnlyExif 95 specExampleVerdict).similarity ≠ .nan ∧
    (strictAssess (exampleEnv 5 0 0)
      (exampleInputs gpsOnlyExif 95 specExampleVerdict)).verificationStatus = .verified ∧
    (strictAssess (exampleEnv 5 0 0)
      (exampleInputs gpsOnlyExif 95 specExampleVerdict)).suspicionScore = 10 ∧
    JsNum.le (exampleInputs gpsOnlyExif 95 specExampleVerdict).similarity 95 = true :=
  ⟨by decide, by decide!, by decide!,
    (verified_strict_submission_profile (exampleEnv 5 0 0)
      (exampleInputs gpsOnlyExif 95 specExampleVerdict) (by decide) (by decide!)).2.2.2⟩

/-- C29: the flag list of a strict assessment is empty exactly when the suspicion score
is 0, and the `suspicion_reason` of the row saved for a submission is null exactly when
its `suspicion_score` is 0. -/
theorem flags_empty_iff_score_zero (env : Env) :
    (∀ i, (strictAssess env i).suspicionFlags = [] ↔ (strictAssess env i).suspicionScore = 0) ∧
    (∀ store r a, (strictVerifyResolution env store r).2 = .created a →
      ∃ row, (strictVerifyResolution env store r).1 = store ++ [row] ∧
        row.suspicion_score = a.suspicionScore ∧
        (row.suspicion_reason = none ↔ row.suspicion_score = 0) ∧
        (∀ flags, row.suspicion_reason = some flags → flags = a.suspicionFlags ∧
          0 < row.suspicion_score)) := by
  have key : ∀ i, (strictAssess env i).suspicionFlags = [] ↔
      (strictAssess env i).suspicionScore = 0 := by
    intro i
    rw [strictAssess_balanced, weights_sum_eq_zero]
  refine ⟨key, ?_⟩
  intro store r a hc
  unfold strictVerifyResolution strictVerifyResolutionAfterCheck at hc ⊢
  split at hc
  · exact absurd hc (by simp)
  · rename_i hdup
    simp only [hdup, if_false] at hc ⊢
    cases hurl : r.afterImageUrl with
    | none => rw [hurl] at hc; exact absurd hc (by simp)
    | some url =>
      cases horacle : r.oracle with
      | error e => rw [hurl, horacle] at hc; exact absurd hc (by simp)
      | ok v =>
        rw [hurl, horacle] at hc
        simp only [StrictResponse.created.injEq] at hc
        subst hc
        refine ⟨_, rfl, rfl, ?_, ?_⟩
        · simp only []
          rw [← key]
          split
          · rename_i hlen
            constructor
            · intro h; exact absurd h (by simp)
            · intro h; rw [h] at hlen; exact absurd hlen (by simp)
          · rename_i hlen
            constructor
            · intro _; exact List.length_eq_zero.mp (by omega)
            · intro _; rfl
        · intro flags hf
          simp only [] at hf
          split at hf
          · rename_i hlen
            refine ⟨(Option.some.inj hf).symm, ?_⟩
            simp only []
            rcases Nat.eq_zero_or_pos (strictAssess env _).suspicionScore with h0 | hpos
            · rw [(key _).mpr h0] at hlen; exact absurd hlen (by simp)
            · exact hpos
          · exact absurd hf (by simp)

end Yukti
